/-
  Verification of the XNNPACK core excerpt:
    * src/subgraph/fully-connected.c            (graph node lowering)
    * src/f16-f32acc-rdsum/gen/f16-f32acc-rdsum-7p7x-minmax-neonfp16arith-c32.c
    * src/qd8-f32-qc8w-gemm/gen/qd8-f32-qc8w-gemm-4x8c8-minmax-wasmsdot-u2.c

  Modelling conventions (shallow embedding):
    * Machine floats (f16/f32) are modelled as exact rationals (ℚ); the spec
      states the float stages only up to floating-point tolerance, and the
      claims under verification concern operation order and exact structure,
      which the exact-arithmetic model captures.
    * int32 accumulators are modelled as unbounded ℤ.  The kernel contract
      (spec 4.3) bounds kc so that int32 accumulation cannot wrap; within
      that contract the wrap-free model coincides with the machine.
    * SIMD vectors are modelled lane-wise: a 128-bit vector of 4 int32 lanes
      is a record of 4 integers, byte vectors are functions from lane index
      to the byte value, and vector loads/stores become lane-indexed reads
      and writes of element-addressed memory (ℕ → value).
    * Memory is a total function from element index to value; a store is a
      pointwise update.  Byte strides of the C code become element strides.
-/
import Mathlib

namespace XnnSubgraph

/-- Datatypes of graph Values (enum xnn_datatype, the members used here). -/
inductive XDatatype
  | invalid
  | fp32
  | fp16
  | qint8
  | quint8
  | qint32
  deriving DecidableEq, Repr

/-- Value kinds (enum xnn_value_type). -/
inductive XValueType
  | invalidType
  | denseTensor
  deriving DecidableEq, Repr

/-- Quantization parameters attached to a Value. -/
structure XQuant where
  zero_point : ℤ
  scale : ℚ
  deriving DecidableEq, Repr

/-- A graph Value (struct xnn_value): kind, datatype, quantization
    parameters, and whether static data is attached (data != NULL). -/
structure XValue where
  vtype : XValueType
  datatype : XDatatype
  quant : XQuant
  hasData : Bool
  deriving DecidableEq, Repr

/-- Node types (enum xnn_node_type, the members used here). -/
inductive XNodeType
  | fully_connected
  | convolution_2d
  deriving DecidableEq, Repr

/-- Dispatch callbacks stored on a node; the C code stores function pointers,
    modelled as tags identifying which function is bound. -/
inductive XCallback
  | none
  | fcCreate
  | fcSetup
  deriving DecidableEq, Repr

/-- A graph Node (struct xnn_node) as filled in by xnn_define_fully_connected. -/
structure XNode where
  ntype : XNodeType
  output_min : ℚ
  output_max : ℚ
  num_inputs : ℕ
  input0 : ℕ
  input1 : ℕ
  input2 : ℕ
  num_outputs : ℕ
  output0 : ℕ
  flags : ℕ
  create : XCallback
  setup : XCallback
  deriving DecidableEq, Repr

/-- A subgraph: Values plus the appended node list. -/
structure XSubgraph where
  values : List XValue
  nodes : List XNode
  deriving DecidableEq, Repr

/-- Status codes (enum xnn_status, the members used here). -/
inductive XStatus
  | success
  | uninitialized
  | invalid_parameter
  | out_of_memory
  deriving DecidableEq, Repr

/-- The statuses with which the validation chain of
    xnn_define_fully_connected can reject (a subset of XStatus). -/
inductive XReject
  | uninitialized
  | invalid_parameter
  deriving DecidableEq, Repr

/-- Inclusion of rejection statuses into XStatus. -/
def XReject.toStatus : XReject → XStatus
  | .uninitialized => .uninitialized
  | .invalid_parameter => .invalid_parameter

/-- XNN_INVALID_VALUE_ID (UINT32_MAX). -/
def XNN_INVALID_VALUE_ID : ℕ := 4294967295

/-- A C float argument: either NaN or a finite value (modelled exactly). -/
inductive CFloat
  | nan
  | fin (q : ℚ)
  deriving DecidableEq, Repr

/-- isnan(x). -/
def CFloat.isNaN : CFloat → Bool
  | .nan => true
  | .fin _ => false

/-- The C comparison x >= y on floats: false whenever an operand is NaN. -/
def CFloat.cge : CFloat → CFloat → Bool
  | .fin a, .fin b => decide (b ≤ a)
  | _, _ => false

/-- Finite payload of a CFloat (the NaN cases are rejected before use). -/
def CFloat.val : CFloat → ℚ
  | .nan => 0
  | .fin q => q

/-- Out-of-range Value lookup placeholder (lookups are guarded by the
    bounds checks of the C code before being used). -/
def defaultValue : XValue :=
  { vtype := .invalidType, datatype := .invalid,
    quant := { zero_point := 0, scale := 0 }, hasData := false }

/-- The Value named by id i (subgraph->values[i]); reads are guarded by the
    bounds checks of the C code. -/
def valueAt (sg : XSubgraph) (i : ℕ) : XValue :=
  sg.values.getD i defaultValue

/-- check_datatypes_with_bias (fully-connected.c lines 191-214), with the
    QS8/QU8 operator sets compiled in.  The default arm is XNN_UNREACHABLE
    (the output datatype was validated beforehand); modelled as false. -/
def check_datatypes_with_bias
    (input_datatype filter_datatype bias_datatype output_datatype : XDatatype) : Bool :=
  match output_datatype with
  | .fp32 =>
      input_datatype = .fp32 ∧ filter_datatype = .fp32 ∧ bias_datatype = .fp32
  | .qint8 =>
      input_datatype = .qint8 ∧ filter_datatype = .qint8 ∧ bias_datatype = .qint32
  | .quint8 =>
      input_datatype = .quint8 ∧ filter_datatype = .quint8 ∧ bias_datatype = .qint32
  | _ => false

/-- check_datatypes_without_bias (fully-connected.c lines 216-235). -/
def check_datatypes_without_bias
    (input_datatype filter_datatype output_datatype : XDatatype) : Bool :=
  match output_datatype with
  | .fp32 => input_datatype = .fp32 ∧ filter_datatype = .fp32
  | .qint8 => input_datatype = .qint8 ∧ filter_datatype = .qint8
  | .quint8 => input_datatype = .quint8 ∧ filter_datatype = .quint8
  | _ => false

/-- Modelled from the spec: xnn_subgraph_new_node (defined in subgraph.c,
    which is not among the sources here).  Per spec 4.4 and 7, node creation
    is append-only and an allocation failure retains no partial state; the
    allocation outcome is supplied by the caller as an oracle. -/
def xnn_subgraph_new_node (allocOk : Bool) (sg : XSubgraph) (nd : XNode) :
    Option XSubgraph :=
  if allocOk then some { values := sg.values, nodes := sg.nodes ++ [nd] } else none

/-- The early-return validation chain of xnn_define_fully_connected
    (fully-connected.c lines 247-447), in source order: `some status` is an
    early return rejecting the definition, `none` means all checks passed.
    The global xnn_params.init_flags check becomes the `initialized` argument.

    Note on the filter datatype switch (source lines 328-351): for a qint8
    filter with nonzero quantization zero point the source logs an error but
    falls through without returning, so validation continues; the model
    reproduces that behaviour exactly. -/
def fcValidate (initialized : Bool) (sg : XSubgraph)
    (output_min output_max : CFloat)
    (input_id filter_id bias_id output_id : ℕ) : Option XReject :=
  if ¬ initialized then some XReject.uninitialized
  else if output_min.isNaN then some XReject.invalid_parameter
  else if output_max.isNaN then some XReject.invalid_parameter
  else if output_min.cge output_max then some XReject.invalid_parameter
  else if ¬ (input_id < sg.values.length) then some XReject.invalid_parameter
  else
    let input_value := valueAt sg input_id
    if ¬ (input_value.vtype = .denseTensor) then some XReject.invalid_parameter
    else if ¬ (input_value.datatype = .fp32 ∨ input_value.datatype = .qint8 ∨
               input_value.datatype = .quint8) then some XReject.invalid_parameter
    else if ¬ (filter_id < sg.values.length) then some XReject.invalid_parameter
    else
      let filter_value := valueAt sg filter_id
      if ¬ (filter_value.vtype = .denseTensor) then some XReject.invalid_parameter
      else if ¬ filter_value.hasData then some XReject.invalid_parameter
      else if ¬ (filter_value.datatype = .fp32 ∨ filter_value.datatype = .qint8 ∨
                 filter_value.datatype = .quint8) then some XReject.invalid_parameter
      -- qint8 with filter_value.quant.zero_point ≠ 0 only logs; no return here.
      else if ¬ (bias_id = XNN_INVALID_VALUE_ID ∨ bias_id < sg.values.length) then
        some XReject.invalid_parameter
      else
        let bias_value := valueAt sg bias_id
        if ¬ (bias_id = XNN_INVALID_VALUE_ID ∨ bias_value.vtype = .denseTensor) then
          some XReject.invalid_parameter
        else if ¬ (bias_id = XNN_INVALID_VALUE_ID ∨ bias_value.hasData) then
          some XReject.invalid_parameter
        else if ¬ (bias_id = XNN_INVALID_VALUE_ID ∨ bias_value.datatype = .fp32 ∨
                   bias_value.datatype = .qint32) then some XReject.invalid_parameter
        else if ¬ (output_id < sg.values.length) then some XReject.invalid_parameter
        else
          let output_value := valueAt sg output_id
          if ¬ (output_value.vtype = .denseTensor) then some XReject.invalid_parameter
          else if ¬ (output_value.datatype = .fp32 ∨ output_value.datatype = .qint8 ∨
                     output_value.datatype = .quint8) then some XReject.invalid_parameter
          else if ¬ (if bias_id ≠ XNN_INVALID_VALUE_ID then
                       check_datatypes_with_bias input_value.datatype
                         filter_value.datatype bias_value.datatype output_value.datatype
                     else
                       check_datatypes_without_bias input_value.datatype
                         filter_value.datatype output_value.datatype) then
            some XReject.invalid_parameter
          else none

/-- The node record filled in on the success path of
    xnn_define_fully_connected (fully-connected.c lines 454-466). -/
def fcNode (output_min output_max : CFloat)
    (input_id filter_id bias_id output_id flags : ℕ) : XNode :=
  { ntype := .fully_connected,
    output_min := output_min.val,
    output_max := output_max.val,
    num_inputs := 2 + (if bias_id ≠ XNN_INVALID_VALUE_ID then 1 else 0),
    input0 := input_id,
    input1 := filter_id,
    input2 := bias_id,
    num_outputs := 1,
    output0 := output_id,
    flags := flags,
    create := .fcCreate,
    setup := .fcSetup }

/-- xnn_define_fully_connected (fully-connected.c lines 237-469): run the
    validation chain; if it rejects, return its status with the subgraph
    untouched, otherwise append the new node (lines 449-468).  The
    allocation outcome inside xnn_subgraph_new_node is the `allocOk` oracle. -/
def xnn_define_fully_connected (initialized allocOk : Bool) (sg : XSubgraph)
    (output_min output_max : CFloat)
    (input_id filter_id bias_id output_id flags : ℕ) : XStatus × XSubgraph :=
  match fcValidate initialized sg output_min output_max
      input_id filter_id bias_id output_id with
  | some st => (st.toStatus, sg)
  | none =>
      match xnn_subgraph_new_node allocOk sg
          (fcNode output_min output_max input_id filter_id bias_id output_id flags) with
      | none => (.out_of_memory, sg)
      | some sg2 => (.success, sg2)

/-- A dense qint8 Value with the given zero point, static data attached. -/
def q8Value (zp : ℤ) (hasData : Bool) : XValue :=
  { vtype := .denseTensor, datatype := .qint8,
    quant := { zero_point := zp, scale := 1 }, hasData := hasData }

/-- A dense fp32 Value. -/
def f32Value (hasData : Bool) : XValue :=
  { vtype := .denseTensor, datatype := .fp32,
    quant := { zero_point := 0, scale := 1 }, hasData := hasData }

/-- Subgraph with a qint8 input (id 0), a static qint8 filter with NONZERO
    quantization zero point (id 1), and a qint8 output (id 2). -/
def sgQ8 : XSubgraph :=
  { values := [q8Value 0 false, q8Value 1 true, q8Value 0 false], nodes := [] }

/-- Subgraph with an fp32 input (id 0), a static fp32 filter (id 1), and an
    fp32 output (id 2). -/
def sgF32 : XSubgraph :=
  { values := [f32Value false, f32Value true, f32Value false], nodes := [] }

end XnnSubgraph

namespace XnnRdsum

/-- Pointwise store into element-addressed memory. -/
def upd (m : ℕ → ℚ) (p : ℕ) (v : ℚ) : ℕ → ℚ :=
  fun q => if q = p then v else m q

/-- A load-add-store of one output element: the kernel loads the existing
    output value, adds the (already scaled) accumulator lane, and stores the
    result back at the same position. -/
def accStore (m : ℕ → ℚ) (p : ℕ) (v : ℚ) : ℕ → ℚ :=
  upd m p (m p + v)

/-- One 7-row group of the row loop, for output channel c, reading rows at
    element offset `base` with row stride S (elements).  The six conditional
    redirections to the `zero` sentinel are those of the source
    (r < 2, r <= 2, r < 4, r <= 4, r < 6, r <= 6 send i1..i6 to zero), and a
    redirected pointer reads 0.  `r` is the remaining signed row count. -/
def groupRowSum (inp : ℕ → ℚ) (S c base : ℕ) (r : ℤ) : ℚ :=
  inp (base + c)
  + (if r < 2 then 0 else inp (base + S + c))
  + (if r ≤ 2 then 0 else inp (base + 2*S + c))
  + (if r < 4 then 0 else inp (base + 3*S + c))
  + (if r ≤ 4 then 0 else inp (base + 4*S + c))
  + (if r < 6 then 0 else inp (base + 5*S + c))
  + (if r ≤ 6 then 0 else inp (base + 6*S + c))

/-- The f32 accumulator for channel c after the whole row loop
    (`for (int r = rows; r > 0; r -= 7)`): the loop body runs
    ceil(rows/7) times; in iteration g the seven row pointers sit at
    element offsets 7*g*S + j*S and the remaining count is rows - 7*g. -/
def rowLoopSum (inp : ℕ → ℚ) (S rows c : ℕ) : ℚ :=
  (List.range ((rows + 6) / 7)).foldl
    (fun acc g => acc + groupRowSum inp S c (7*g*S) ((rows : ℤ) - 7*g)) 0

/-- xnn_f16_f32acc_rdsum_ukernel_7p7x__neonfp16arith_c32
    (f16-f32acc-rdsum-7p7x-minmax-neonfp16arith-c32.c lines 19-323),
    modelled lane-wise over exact rationals.

    * inp is the input tensor (element-addressed; the byte input_stride of
      the source becomes the element stride S); out0 the output buffer.
    * Fast path: one iteration of the outer loop per full 32-channel block,
      accumulating all rows into f32 accumulators, scaling, and adding into
      the 32 output elements (8 stores of 4 lanes, flattened per lane).
    * Remainder path: full chunks of 4 channels, then a 2-lane and/or a
      1-lane tail store as selected by the low bits of the leftover count.
    * Every store is accumulate-into-output (accStore), never overwrite. -/
def xnn_f16_f32acc_rdsum_ukernel_7p7x__neonfp16arith_c32
    (rows channels : ℕ) (inp : ℕ → ℚ) (S : ℕ) (scale : ℚ)
    (out0 : ℕ → ℚ) : ℕ → ℚ :=
  let nb := channels / 32
  let m1 := (List.range nb).foldl
    (fun m b => (List.range 32).foldl
      (fun mm j => accStore mm (32*b + j) (scale * rowLoopSum inp S rows (32*b + j))) m)
    out0
  let rem := channels % 32
  if rem = 0 then m1
  else
    let base := 32 * nb
    let fullChunks := rem / 4
    let m2 := (List.range fullChunks).foldl
      (fun m i => (List.range 4).foldl
        (fun mm l => accStore mm (base + 4*i + l)
          (scale * rowLoopSum inp S rows (base + 4*i + l))) m)
      m1
    let r3 := rem % 4
    let m3 := if r3 &&& 2 ≠ 0 then
        accStore
          (accStore m2 (base + 4*fullChunks)
            (scale * rowLoopSum inp S rows (base + 4*fullChunks)))
          (base + 4*fullChunks + 1)
          (scale * rowLoopSum inp S rows (base + 4*fullChunks + 1))
      else m2
    let off := if r3 &&& 2 ≠ 0 then 2 else 0
    if r3 &&& 1 ≠ 0 then
      accStore m3 (base + 4*fullChunks + off)
        (scale * rowLoopSum inp S rows (base + 4*fullChunks + off))
    else m3

end XnnRdsum

namespace XnnGemm

/-- One item of the packed-weight stream.  The stream is byte-addressed;
    each item sits at its base byte offset (int32 and f32 items are 4 bytes
    wide, quantized weight bytes 1). -/
inductive WItem
  | i32 (v : ℤ)
  | i8 (v : ℤ)
  | f32 (v : ℚ)
  deriving DecidableEq

/-- Read an int32 at byte offset p. -/
def readI32 (w : ℕ → WItem) (p : ℕ) : ℤ :=
  match w p with
  | .i32 v => v
  | _ => 0

/-- Read a weight byte at byte offset p. -/
def readI8 (w : ℕ → WItem) (p : ℕ) : ℤ :=
  match w p with
  | .i8 v => v
  | _ => 0

/-- Read a float at byte offset p. -/
def readF32 (w : ℕ → WItem) (p : ℕ) : ℚ :=
  match w p with
  | .f32 v => v
  | _ => 0

/-- An i32x4 vector, lane-wise. -/
structure I4 where
  l0 : ℤ
  l1 : ℤ
  l2 : ℤ
  l3 : ℤ
  deriving DecidableEq

/-- An f32x4 vector, lane-wise (exact rationals). -/
structure Q4 where
  l0 : ℚ
  l1 : ℚ
  l2 : ℚ
  l3 : ℚ
  deriving DecidableEq

/-- wasm_v128_load of four int32 at byte offset p. -/
def loadI32x4 (w : ℕ → WItem) (p : ℕ) : I4 :=
  ⟨readI32 w p, readI32 w (p + 4), readI32 w (p + 8), readI32 w (p + 12)⟩

/-- wasm_v128_load of 16 weight bytes at byte offset p, as byte lanes. -/
def loadB16 (w : ℕ → WItem) (p : ℕ) : ℕ → ℤ :=
  fun j => readI8 w (p + j)

/-- wasm_v128_load64_splat of 8 activation bytes at offset p: byte lane j
    holds the activation byte p + j % 8. -/
def splatA8 (a : ℕ → ℤ) (p : ℕ) : ℕ → ℤ :=
  fun j => a (p + j % 8)

/-- wasm_i32x4_relaxed_dot_i8x16_i7x16_add(b, a, acc): int32 lane i gains
    the dot product of byte lanes 4i..4i+3 (exact integer semantics; the
    kernel contract keeps every accumulator inside int32 range). -/
def dotAdd (b a : ℕ → ℤ) (acc : I4) : I4 :=
  ⟨acc.l0 + (b 0 * a 0 + b 1 * a 1 + b 2 * a 2 + b 3 * a 3),
   acc.l1 + (b 4 * a 4 + b 5 * a 5 + b 6 * a 6 + b 7 * a 7),
   acc.l2 + (b 8 * a 8 + b 9 * a 9 + b 10 * a 10 + b 11 * a 11),
   acc.l3 + (b 12 * a 12 + b 13 * a 13 + b 14 * a 14 + b 15 * a 15)⟩

/-- wasm_i32x4_mul against a splatted scalar (the input zero point). -/
def mulZp (v : I4) (zp : ℤ) : I4 :=
  ⟨v.l0 * zp, v.l1 * zp, v.l2 * zp, v.l3 * zp⟩

/-- wasm_u64x2_extend_low_u32x4, viewed through the i32x4 lanes the dot
    instruction then accumulates into. -/
def extLow (v : I4) : I4 := ⟨v.l0, 0, v.l1, 0⟩

/-- wasm_u64x2_extend_high_u32x4, viewed through the i32x4 lanes. -/
def extHigh (v : I4) : I4 := ⟨v.l2, 0, v.l3, 0⟩

/-- Per-row accumulator state: the four i32x4 accumulators
    vaccNx01, vaccNx23, vaccNx45, vaccNx67 of one row N (the four rows of
    the source loop never interact, and their pointers advance together). -/
structure RowAcc where
  x01 : I4
  x23 : I4
  x45 : I4
  x67 : I4
  deriving DecidableEq

/-- Accumulator initialization (lines 68-97): each pair of lanes starts at
    the packed per-column weight sum times the row's activation zero point. -/
def rowInit (ks0123 ks4567 : I4) (zp : ℤ) : RowAcc :=
  ⟨extLow (mulZp ks0123 zp), extHigh (mulZp ks0123 zp),
   extLow (mulZp ks4567 zp), extHigh (mulZp ks4567 zp)⟩

/-- One 16-deep K chunk of the main loop (lines 100-157), for one row: two
    splatted activation halves against eight 16-byte weight blocks.
    The w pointer has advanced by 128 bytes per earlier chunk. -/
def rowChunk16 (w : ℕ → WItem) (a : ℕ → ℤ) (aoff wgt t : ℕ) (s : RowAcc) : RowAcc :=
  let va01 := splatA8 a (aoff + 16*t)
  let va23 := splatA8 a (aoff + 16*t + 8)
  let vb01x01 := loadB16 w (wgt + 128*t)
  let vb23x01 := loadB16 w (wgt + 128*t + 16)
  let vb45x01 := loadB16 w (wgt + 128*t + 32)
  let vb67x01 := loadB16 w (wgt + 128*t + 48)
  let vb01x23 := loadB16 w (wgt + 128*t + 64)
  let vb23x23 := loadB16 w (wgt + 128*t + 80)
  let vb45x23 := loadB16 w (wgt + 128*t + 96)
  let vb67x23 := loadB16 w (wgt + 128*t + 112)
  { x01 := dotAdd vb01x23 va23 (dotAdd vb01x01 va01 s.x01),
    x23 := dotAdd vb23x23 va23 (dotAdd vb23x01 va01 s.x23),
    x45 := dotAdd vb45x23 va23 (dotAdd vb45x01 va01 s.x45),
    x67 := dotAdd vb67x23 va23 (dotAdd vb67x01 va01 s.x67) }

/-- The 8-deep K remainder (lines 159-192), for one row. -/
def rowChunk8 (w : ℕ → WItem) (a : ℕ → ℤ) (aoff wgt T : ℕ) (s : RowAcc) : RowAcc :=
  let va01 := splatA8 a (aoff + 16*T)
  let vb01 := loadB16 w (wgt + 128*T)
  let vb23 := loadB16 w (wgt + 128*T + 16)
  let vb45 := loadB16 w (wgt + 128*T + 32)
  let vb67 := loadB16 w (wgt + 128*T + 48)
  { x01 := dotAdd vb01 va01 s.x01,
    x23 := dotAdd vb23 va01 s.x23,
    x45 := dotAdd vb45 va01 s.x45,
    x67 := dotAdd vb67 va01 s.x67 }

/-- The whole K loop for one row within one column group: kcr/16 full
    chunks (while k >= 16), then one 8-deep chunk when kcr % 16 = 8
    (kcr is the kc rounded up to a multiple of 8). -/
def rowKLoop (w : ℕ → WItem) (a : ℕ → ℤ) (aoff wgt kcr : ℕ) (init : RowAcc) : RowAcc :=
  let s := (List.range (kcr / 16)).foldl (fun s t => rowChunk16 w a aoff wgt t s) init
  if kcr % 16 = 0 then s else rowChunk8 w a aoff wgt (kcr / 16) s

/-- The horizontal reduction (lines 194-201): shuffle even/odd lanes of a
    pair of accumulators and add, yielding one int32 per output column. -/
def hsumPair (p q : I4) : I4 :=
  ⟨p.l0 + p.l1, p.l2 + p.l3, q.l0 + q.l1, q.l2 + q.l3⟩

/-- wasm_f32x4_convert_i32x4 (exact). -/
def toQ4 (v : I4) : Q4 :=
  ⟨(v.l0 : ℚ), (v.l1 : ℚ), (v.l2 : ℚ), (v.l3 : ℚ)⟩

/-- Lane-wise multiply by a splatted scalar. -/
def mulS (v : Q4) (s : ℚ) : Q4 :=
  ⟨v.l0 * s, v.l1 * s, v.l2 * s, v.l3 * s⟩

/-- Lane-wise multiply. -/
def mulV (v u : Q4) : Q4 :=
  ⟨v.l0 * u.l0, v.l1 * u.l1, v.l2 * u.l2, v.l3 * u.l3⟩

/-- Lane-wise add. -/
def addV (v u : Q4) : Q4 :=
  ⟨v.l0 + u.l0, v.l1 + u.l1, v.l2 + u.l2, v.l3 + u.l3⟩

/-- wasm_v128_load of four f32 at byte offset p. -/
def loadF32x4 (w : ℕ → WItem) (p : ℕ) : Q4 :=
  ⟨readF32 w p, readF32 w (p + 4), readF32 w (p + 8), readF32 w (p + 12)⟩

/-- wasm_f32x4_pmax(x, m): lane = m < x ? x : m. -/
def pmaxS (v : Q4) (m : ℚ) : Q4 :=
  ⟨if m < v.l0 then v.l0 else m, if m < v.l1 then v.l1 else m,
   if m < v.l2 then v.l2 else m, if m < v.l3 then v.l3 else m⟩

/-- wasm_f32x4_pmin(x, M): lane = M < x ? M : x. -/
def pminS (v : Q4) (M : ℚ) : Q4 :=
  ⟨if M < v.l0 then M else v.l0, if M < v.l1 then M else v.l1,
   if M < v.l2 then M else v.l2, if M < v.l3 then M else v.l3⟩

/-- The float stage for one row (lines 203-268): convert to float, multiply
    by the row input scale, multiply by the per-column filter output scale
    (read at sB), add the per-column bias (read at sB + 32), clamp with
    pmax(min) then pmin(max). -/
def rowFloat (w : ℕ → WItem) (sB : ℕ) (acc0123 acc4567 : I4)
    (invs vmin vmax : ℚ) : Q4 × Q4 :=
  let f0123 := mulS (toQ4 acc0123) invs
  let f4567 := mulS (toQ4 acc4567) invs
  let g0123 := mulV f0123 (loadF32x4 w sB)
  let g4567 := mulV f4567 (loadF32x4 w (sB + 16))
  let h0123 := addV g0123 (loadF32x4 w (sB + 32))
  let h4567 := addV g4567 (loadF32x4 w (sB + 48))
  (pminS (pmaxS h0123 vmin) vmax, pminS (pmaxS h4567 vmin) vmax)

/-- struct xnn_qd8_quantization_params. -/
structure QParams where
  zero_point : ℤ
  inv_scale : ℚ
  deriving DecidableEq

/-- The complete per-row pipeline for one column group whose blob block
    starts at byte gB: load the two ksum vectors, run the K loop over the
    weight bytes starting at gB + 32, reduce horizontally, and run the
    float stage with scales at gB + 32 + 8*kcr and biases 32 bytes later. -/
def rowOut (w : ℕ → WItem) (a : ℕ → ℤ) (gB kcr aoff : ℕ) (qp : QParams)
    (vmin vmax : ℚ) : Q4 × Q4 :=
  let s := rowKLoop w a aoff (gB + 32) kcr
    (rowInit (loadI32x4 w gB) (loadI32x4 w (gB + 16)) qp.zero_point)
  rowFloat w (gB + 32 + 8*kcr) (hsumPair s.x01 s.x23) (hsumPair s.x45 s.x67)
    qp.inv_scale vmin vmax

/-- Pointwise store into the (float-element addressed) output memory. -/
def upd (m : ℕ → ℚ) (p : ℕ) (v : ℚ) : ℕ → ℚ :=
  fun q => if q = p then v else m q

/-- wasm_v128_store of 4 floats. -/
def store4 (m : ℕ → ℚ) (p : ℕ) (v : Q4) : ℕ → ℚ :=
  upd (upd (upd (upd m p v.l0) (p + 1) v.l1) (p + 2) v.l2) (p + 3) v.l3

/-- wasm_v128_store64_lane of the low 2 floats. -/
def store2 (m : ℕ → ℚ) (p : ℕ) (v : Q4) : ℕ → ℚ :=
  upd (upd m p v.l0) (p + 1) v.l1

/-- wasm_v128_store32_lane of the low float. -/
def store1 (m : ℕ → ℚ) (p : ℕ) (v : Q4) : ℕ → ℚ :=
  upd m p v.l0

/-- wasm_v64x2_shuffle(v, v, 1, 1): move the high 64 bits down. -/
def shufHi (v : Q4) : Q4 := ⟨v.l2, v.l3, v.l2, v.l3⟩

/-- The nc >= 8 store path of one column group (lines 270-278): both
    vector halves of all four rows, rows in order c0, c1, c2, c3. -/
def groupStoreFull (m : ℕ → ℚ) (p0 p1 p2 p3 : ℕ)
    (v00 v01 v10 v11 v20 v21 v30 v31 : Q4) : ℕ → ℚ :=
  store4 (store4 (store4 (store4 (store4 (store4 (store4 (store4 m
    p0 v00) (p0 + 4) v01) p1 v10) (p1 + 4) v11)
    p2 v20) (p2 + 4) v21) p3 v30) (p3 + 4) v31

/-- The nc < 8 store cascade of one column group (lines 291-326): a 4-wide
    store (shifting the high half down and advancing by 4), then a 2-wide
    lane store (rotating and advancing by 2), then a 1-wide lane store, each
    applied to all four row pointers in order, gated by the bits of nc. -/
def groupStorePartial (m : ℕ → ℚ) (ncr p0 p1 p2 p3 : ℕ)
    (v00 v01 v10 v11 v20 v21 v30 v31 : Q4) : ℕ → ℚ :=
  let m4 := if ncr &&& 4 ≠ 0 then
      store4 (store4 (store4 (store4 m p0 v00) p1 v10) p2 v20) p3 v30
    else m
  let u0 := if ncr &&& 4 ≠ 0 then v01 else v00
  let u1 := if ncr &&& 4 ≠ 0 then v11 else v10
  let u2 := if ncr &&& 4 ≠ 0 then v21 else v20
  let u3 := if ncr &&& 4 ≠ 0 then v31 else v30
  let q0 := if ncr &&& 4 ≠ 0 then p0 + 4 else p0
  let q1 := if ncr &&& 4 ≠ 0 then p1 + 4 else p1
  let q2 := if ncr &&& 4 ≠ 0 then p2 + 4 else p2
  let q3 := if ncr &&& 4 ≠ 0 then p3 + 4 else p3
  let m2 := if ncr &&& 2 ≠ 0 then
      store2 (store2 (store2 (store2 m4 q0 u0) q1 u1) q2 u2) q3 u3
    else m4
  let t0 := if ncr &&& 2 ≠ 0 then shufHi u0 else u0
  let t1 := if ncr &&& 2 ≠ 0 then shufHi u1 else u1
  let t2 := if ncr &&& 2 ≠ 0 then shufHi u2 else u2
  let t3 := if ncr &&& 2 ≠ 0 then shufHi u3 else u3
  let r0 := if ncr &&& 2 ≠ 0 then q0 + 2 else q0
  let r1 := if ncr &&& 2 ≠ 0 then q1 + 2 else q1
  let r2 := if ncr &&& 2 ≠ 0 then q2 + 2 else q2
  let r3 := if ncr &&& 2 ≠ 0 then q3 + 2 else q3
  if ncr &&& 1 ≠ 0 then
    store1 (store1 (store1 (store1 m2 r0 t0) r1 t1) r2 t2) r3 t3
  else m2

/-- round_up_po2(kc, 8). -/
def roundUp8 (kc : ℕ) : ℕ := 8 * ((kc + 7) / 8)

/-- One iteration of the outer do-while (one column group g): compute the
    four rows' outputs from the blob block at g*(96 + 8*kcr) and store
    either the full 8-wide tile or the nc - 8*g remaining columns through
    the cascade.  a0..a3 and c0..c3 are the (already aliased) per-row
    activation offsets and output row offsets. -/
def gemmBody (nc kcr : ℕ) (a : ℕ → ℤ) (w : ℕ → WItem) (cn_stride : ℕ)
    (vmin vmax : ℚ) (qp : ℕ → QParams) (a0 a1 a2 a3 c0 c1 c2 c3 : ℕ)
    (m : ℕ → ℚ) (g : ℕ) : ℕ → ℚ :=
  let gB := g * (96 + 8*kcr)
  let r0 := rowOut w a gB kcr a0 (qp 0) vmin vmax
  let r1 := rowOut w a gB kcr a1 (qp 1) vmin vmax
  let r2 := rowOut w a gB kcr a2 (qp 2) vmin vmax
  let r3 := rowOut w a gB kcr a3 (qp 3) vmin vmax
  if 8 ≤ nc - 8*g then
    groupStoreFull m (c0 + g*cn_stride) (c1 + g*cn_stride)
      (c2 + g*cn_stride) (c3 + g*cn_stride)
      r0.1 r0.2 r1.1 r1.2 r2.1 r2.2 r3.1 r3.2
  else
    groupStorePartial m (nc - 8*g) (c0 + g*cn_stride) (c1 + g*cn_stride)
      (c2 + g*cn_stride) (c3 + g*cn_stride)
      r0.1 r0.2 r1.1 r1.2 r2.1 r2.2 r3.1 r3.2

/-- xnn_qd8_f32_qc8w_gemm_minmax_ukernel_4x8c8__wasmsdot_u2
    (qd8-f32-qc8w-gemm-4x8c8-minmax-wasmsdot-u2.c lines 18-329).

    * a is the int8 activation stream (byte addressed, row stride a_stride
      bytes), w the packed-weight stream (byte addressed), c0mem the output
      memory addressed in floats (the byte strides cm_stride/cn_stride of
      the source become float-element strides), qp the per-row quantization
      parameter array.
    * Row aliasing (lines 41-60): with mr < 4 the excess activation and
      output pointers are aliased to the last valid row.
    * The outer do-while runs ceil(nc/8) column groups.  In every completed
      group the a pointers are rewound by kc (lines 280-283), the w pointer
      has advanced by exactly 32 + 8*kcr + 64 bytes, and the c pointers
      advance by cn_stride; hence iteration g reads the blob block at
      g*(96 + 8*kcr) and writes at the c pointers plus g*cn_stride, and the
      remaining column count is nc - 8*g. -/
def xnn_qd8_f32_qc8w_gemm_minmax_ukernel_4x8c8__wasmsdot_u2
    (mr nc kc : ℕ) (a : ℕ → ℤ) (a_stride : ℕ) (w : ℕ → WItem)
    (c0mem : ℕ → ℚ) (cm_stride cn_stride : ℕ) (vmin vmax : ℚ)
    (qp : ℕ → QParams) : ℕ → ℚ :=
  let kcr := roundUp8 kc
  let a0 := 0
  let c0 := 0
  let a1 := if mr < 2 then a0 else a0 + a_stride
  let c1 := if mr < 2 then c0 else c0 + cm_stride
  let a2 := if mr ≤ 2 then a1 else a1 + a_stride
  let c2 := if mr ≤ 2 then c1 else c1 + cm_stride
  let a3 := if mr ≠ 4 then a2 else a2 + a_stride
  let c3 := if mr ≠ 4 then c2 else c2 + cm_stride
  (List.range ((nc + 7) / 8)).foldl
    (gemmBody nc kcr a w cn_stride vmin vmax qp a0 a1 a2 a3 c0 c1 c2 c3)
    c0mem

/-- The byte offset at which the kernel reads the quantized weight byte of
    column n (within the group), reduction index k: chunk k/16 of the K
    loop, half (k/8) % 2, 16-byte block (n/2) of that half, byte (n%2)*8 +
    k%8 of that block.  wgt is the group's weight-bytes base (gB + 32). -/
def wColOff (wgt n k : ℕ) : ℕ :=
  wgt + (k / 8 / 2) * 128 + ((k / 8) % 2) * 64 + (n / 2) * 16 + (n % 2) * 8 + k % 8

/-- The quantized weight byte the kernel uses for column n at reduction
    index k, read through its byte offset within the group. -/
def colB (w : ℕ → WItem) (wgt n : ℕ) : ℕ → ℤ :=
  fun k => readI8 w (wColOff wgt n k)

/-- The activation byte at reduction index k of the row based at aoff. -/
def rowA (a : ℕ → ℤ) (aoff : ℕ) : ℕ → ℤ :=
  fun k => a (aoff + k)

/-- The exact int32 value the kernel accumulates for (row with activation
    base aoff, zero point zp) and column n of the group at gB: the packed
    column sum times the zero point, plus the dot product over the rounded
    K range. -/
def colAcc (w : ℕ → WItem) (a : ℕ → ℤ) (gB kcr aoff : ℕ) (zp : ℤ) (n : ℕ) : ℤ :=
  readI32 w (gB + 4*n) * zp
    + ∑ k ∈ Finset.range kcr, colB w (gB + 32) n k * rowA a aoff k

/-- The output value of one cell of the group whose blob block starts at
    gB: the accumulator converted to float, scaled by the row input scale
    then the column filter scale, plus the column bias, clamped last. -/
def cellValue (w : ℕ → WItem) (a : ℕ → ℤ) (gB kcr aoff : ℕ) (qp : QParams)
    (vmin vmax : ℚ) (j : ℕ) : ℚ :=
  min vmax (max vmin
    ((((colAcc w a gB kcr aoff qp.zero_point j : ℤ) : ℚ) * qp.inv_scale)
        * readF32 w (gB + 32 + 8*kcr + 4*j)
      + readF32 w (gB + 32 + 8*kcr + 32 + 4*j)))

/-- Well-formedness of a packed-weight blob holding, for each of the nG
    column groups, the per-column int32 sums, the interleaved weight bytes,
    the per-column float scales and the per-column float biases at the
    offsets the kernel reads. -/
def WellFormedBlob (w : ℕ → WItem) (kcr nG : ℕ) (ksum : ℕ → ℕ → ℤ)
    (wb : ℕ → ℕ → ℕ → ℤ) (fscale fbias : ℕ → ℕ → ℚ) : Prop :=
  ∀ g, g < nG →
    (∀ j, j < 8 → w (g * (96 + 8*kcr) + 4*j) = WItem.i32 (ksum g j))
    ∧ (∀ n, n < 8 → ∀ k, k < kcr →
        w (wColOff (g * (96 + 8*kcr) + 32) n k) = WItem.i8 (wb g n k))
    ∧ (∀ j, j < 8 →
        w (g * (96 + 8*kcr) + 32 + 8*kcr + 4*j) = WItem.f32 (fscale g j)
        ∧ w (g * (96 + 8*kcr) + 32 + 8*kcr + 32 + 4*j) = WItem.f32 (fbias g j))

/-- Partial dot products accumulated in the even ("low") int32 lane of a
    column after t full 16-deep chunks: reduction indices with k % 8 < 4. -/
def LO (f u : ℕ → ℤ) : ℕ → ℤ
  | 0 => 0
  | t + 1 => LO f u t
      + (f (16*t) * u (16*t) + f (16*t + 1) * u (16*t + 1)
        + f (16*t + 2) * u (16*t + 2) + f (16*t + 3) * u (16*t + 3))
      + (f (16*t + 8) * u (16*t + 8) + f (16*t + 9) * u (16*t + 9)
        + f (16*t + 10) * u (16*t + 10) + f (16*t + 11) * u (16*t + 11))

/-- Partial dot products accumulated in the odd ("high") int32 lane of a
    column after t full 16-deep chunks: reduction indices with k % 8 >= 4. -/
def HI (f u : ℕ → ℤ) : ℕ → ℤ
  | 0 => 0
  | t + 1 => HI f u t
      + (f (16*t + 4) * u (16*t + 4) + f (16*t + 5) * u (16*t + 5)
        + f (16*t + 6) * u (16*t + 6) + f (16*t + 7) * u (16*t + 7))
      + (f (16*t + 12) * u (16*t + 12) + f (16*t + 13) * u (16*t + 13)
        + f (16*t + 14) * u (16*t + 14) + f (16*t + 15) * u (16*t + 15))

/-- Closed form of the per-row accumulator state after t full chunks of the
    K loop: each column's lane pair holds its zero-point-corrected partial
    dot products. -/
def kState (w : ℕ → WItem) (a : ℕ → ℤ) (aoff wgt gB : ℕ) (zp : ℤ)
    (t : ℕ) : RowAcc :=
  { x01 := ⟨(loadI32x4 w gB).l0 * zp + LO (colB w wgt 0) (rowA a aoff) t,
            HI (colB w wgt 0) (rowA a aoff) t,
            (loadI32x4 w gB).l1 * zp + LO (colB w wgt 1) (rowA a aoff) t,
            HI (colB w wgt 1) (rowA a aoff) t⟩,
    x23 := ⟨(loadI32x4 w gB).l2 * zp + LO (colB w wgt 2) (rowA a aoff) t,
            HI (colB w wgt 2) (rowA a aoff) t,
            (loadI32x4 w gB).l3 * zp + LO (colB w wgt 3) (rowA a aoff) t,
            HI (colB w wgt 3) (rowA a aoff) t⟩,
    x45 := ⟨(loadI32x4 w (gB + 16)).l0 * zp + LO (colB w wgt 4) (rowA a aoff) t,
            HI (colB w wgt 4) (rowA a aoff) t,
            (loadI32x4 w (gB + 16)).l1 * zp + LO (colB w wgt 5) (rowA a aoff) t,
            HI (colB w wgt 5) (rowA a aoff) t⟩,
    x67 := ⟨(loadI32x4 w (gB + 16)).l2 * zp + LO (colB w wgt 6) (rowA a aoff) t,
            HI (colB w wgt 6) (rowA a aoff) t,
            (loadI32x4 w (gB + 16)).l3 * zp + LO (colB w wgt 7) (rowA a aoff) t,
            HI (colB w wgt 7) (rowA a aoff) t⟩ }

/-- Kinds of fields in the packed-weight stream. -/
inductive WKind
  | ki32
  | ki8
  | kf32
  deriving DecidableEq

/-- Serialized byte width of each field kind. -/
def wWidth : WKind → ℕ
  | .ki32 => 4
  | .ki8 => 1
  | .kf32 => 4

/-- The sequence of (byte offset, kind) reads the kernel issues against the
    packed-weight stream during column group g, in source order: two
    i32x4 ksum loads (8 int32 at gB + 4j), the eight 16-byte weight blocks
    of each full 16-deep chunk, the four 16-byte blocks of the 8-deep
    remainder when present, two f32x4 scale loads, two f32x4 bias loads. -/
def gemmGroupReads (kc g : ℕ) : List (ℕ × WKind) :=
  let kcr := roundUp8 kc
  let gB := g * (96 + 8*kcr)
  let wgt := gB + 32
  ((List.range 8).map (fun j => (gB + 4*j, WKind.ki32)))
  ++ List.flatten ((List.range (kcr / 16)).map
      (fun t => (List.range 128).map (fun b => (wgt + 128*t + b, WKind.ki8))))
  ++ (if kcr % 16 = 0 then []
      else (List.range 64).map (fun b => (wgt + 128*(kcr/16) + b, WKind.ki8)))
  ++ ((List.range 8).map (fun j => (gB + 32 + 8*kcr + 4*j, WKind.kf32)))
  ++ ((List.range 8).map (fun j => (gB + 32 + 8*kcr + 32 + 4*j, WKind.kf32)))

/-- Assign consecutive byte offsets to a list of field kinds, starting at
    off: the serialization order of the blob. -/
def specSerial : ℕ → List WKind → List (ℕ × WKind)
  | _, [] => []
  | off, k :: ks => (off, k) :: specSerial (off + wWidth k) ks

/-- From the spec (packed-weight blob layout): per NR-wide column group,
    sequential blocks of [8 per-column int32 zero-point-correction sums]
    [8*kcr interleaved quantized weight bytes for the K tile]
    [8 per-column f32 output scales][8 per-column f32 biases]. -/
def specGroupKinds (kcr : ℕ) : List WKind :=
  List.replicate 8 WKind.ki32 ++ List.replicate (8*kcr) WKind.ki8
    ++ List.replicate 8 WKind.kf32 ++ List.replicate 8 WKind.kf32

/-- The spec layout of group g: its fields serialized consecutively from
    byte offset g * (group byte size). -/
def specGroupLayout (kc g : ℕ) : List (ℕ × WKind) :=
  specSerial (g * (96 + 8 * roundUp8 kc)) (specGroupKinds (roundUp8 kc))

/-- Lane t of an f32x4 vector. -/
def q4lane (v : Q4) : ℕ → ℚ
  | 0 => v.l0
  | 1 => v.l1
  | 2 => v.l2
  | _ => v.l3

/-- Lane t of a pair of f32x4 vectors viewed as 8 consecutive floats. -/
def lane8 (vlo vhi : Q4) (t : ℕ) : ℚ :=
  if t < 4 then q4lane vlo t else q4lane vhi (t - 4)

/-- A concrete packed blob for one 8-column group at kc = 1 (kcr = 8):
    the 8 int32 column sums in the first 32 bytes, the 64 interleaved
    weight bytes to byte 96, the f32 scales and biases beyond. -/
def wWitness : ℕ → WItem :=
  fun p => if p < 32 then WItem.i32 0 else if p < 96 then WItem.i8 0
    else WItem.f32 0

/-- Concrete per-row quantization parameters for the witness. -/
def qpWitness : ℕ → QParams := fun _ => ⟨0, 1⟩

end XnnGemm

namespace XnnSubgraph

/- ------------------------------------------------------------------ -/
/- Theorems about the fully-connected lowering                         -/
/- ------------------------------------------------------------------ -/

/-- C3 evidence: calling xnn_define_fully_connected on an otherwise valid
    graph whose qint8 filter has quantization zero point 1 does NOT fail:
    it returns success and appends a node, because the source logs the
    error without returning (missing return, fully-connected.c line 333). -/
theorem fc_qint8_nonzero_zero_point_not_rejected :
    (xnn_define_fully_connected true true sgQ8 (.fin 0) (.fin 1)
        0 1 XNN_INVALID_VALUE_ID 2 0).1 = .success
    ∧ (xnn_define_fully_connected true true sgQ8 (.fin 0) (.fin 1)
        0 1 XNN_INVALID_VALUE_ID 2 0).2.nodes.length = 1 := by
  decide

/-- A rejection status is never the success status. -/
theorem xreject_toStatus_ne_success (r : XReject) : r.toStatus ≠ XStatus.success := by
  cases r <;> simp [XReject.toStatus]

/-- C4: whenever xnn_define_fully_connected returns a status other than
    success, the subgraph is returned exactly as it was; and on success the
    values are untouched and exactly one node is appended. -/
theorem define_fc_failure_leaves_subgraph_unchanged
    (initialized allocOk : Bool) (sg : XSubgraph) (omin omax : CFloat)
    (iid fid bid oid flags : ℕ) :
    ((xnn_define_fully_connected initialized allocOk sg omin omax
        iid fid bid oid flags).1 ≠ .success →
      (xnn_define_fully_connected initialized allocOk sg omin omax
        iid fid bid oid flags).2 = sg)
    ∧ ((xnn_define_fully_connected initialized allocOk sg omin omax
        iid fid bid oid flags).1 = .success →
      ∃ nd, (xnn_define_fully_connected initialized allocOk sg omin omax
              iid fid bid oid flags).2.values = sg.values
        ∧ (xnn_define_fully_connected initialized allocOk sg omin omax
              iid fid bid oid flags).2.nodes = sg.nodes ++ [nd]) := by
  unfold xnn_define_fully_connected
  cases hv : fcValidate initialized sg omin omax iid fid bid oid with
  | some st =>
      exact ⟨fun _ => rfl, fun hs => absurd hs (xreject_toStatus_ne_success st)⟩
  | none =>
      by_cases hA : allocOk = true
      · subst hA
        exact ⟨fun h => absurd rfl h,
          fun _ => ⟨fcNode omin omax iid fid bid oid flags, rfl, rfl⟩⟩
      · simp only [Bool.not_eq_true] at hA
        subst hA
        exact ⟨fun _ => rfl, fun hs => XStatus.noConfusion hs⟩

/-- C4 witness: at a concrete rejected input (NaN lower bound) the graph is
    returned unchanged. -/
theorem define_fc_failure_leaves_subgraph_unchanged_witness :
    (xnn_define_fully_connected true true sgF32 .nan (.fin 1)
        0 1 XNN_INVALID_VALUE_ID 2 0).1 ≠ .success
    ∧ (xnn_define_fully_connected true true sgF32 .nan (.fin 1)
        0 1 XNN_INVALID_VALUE_ID 2 0).2 = sgF32 :=
  ⟨by decide,
   (define_fc_failure_leaves_subgraph_unchanged true true sgF32 .nan (.fin 1)
      0 1 XNN_INVALID_VALUE_ID 2 0).1 (by decide)⟩

/-- C7: with XNNPACK initialized, a NaN lower bound, a NaN upper bound, or
    a lower bound at or above the upper bound is rejected with
    invalid-parameter, and the subgraph (hence its node count) is unchanged. -/
theorem define_fc_rejects_bad_bounds (allocOk : Bool) (sg : XSubgraph)
    (omin omax : CFloat) (iid fid bid oid flags : ℕ)
    (h : omin.isNaN = true ∨ omax.isNaN = true ∨ omin.cge omax = true) :
    (xnn_define_fully_connected true allocOk sg omin omax
        iid fid bid oid flags).1 = .invalid_parameter
    ∧ (xnn_define_fully_connected true allocOk sg omin omax
        iid fid bid oid flags).2 = sg := by
  by_cases h1 : omin.isNaN = true
  · simp [xnn_define_fully_connected, fcValidate, h1, XReject.toStatus]
  · by_cases h2 : omax.isNaN = true
    · simp [xnn_define_fully_connected, fcValidate, h1, h2, XReject.toStatus]
    · have h3 : omin.cge omax = true := by tauto
      simp [xnn_define_fully_connected, fcValidate, h1, h2, h3, XReject.toStatus]

/-- C8: with XNNPACK initialized, finite bounds with min < max, a dense fp32
    input, a static dense fp32 filter, a dense fp32 output and no bias, the
    call succeeds and appends exactly one node with 2 inputs, 1 output, the
    supplied activation bounds and flags, and the create/setup callbacks
    bound on the node. -/
theorem define_fc_f32_no_bias_success
    (sg : XSubgraph) (a b : ℚ) (hab : a < b) (iid fid oid flags : ℕ)
    (hi : iid < sg.values.length)
    (hitype : (valueAt sg iid).vtype = .denseTensor)
    (hidt : (valueAt sg iid).datatype = .fp32)
    (hf : fid < sg.values.length)
    (hftype : (valueAt sg fid).vtype = .denseTensor)
    (hfdata : (valueAt sg fid).hasData = true)
    (hfdt : (valueAt sg fid).datatype = .fp32)
    (ho : oid < sg.values.length)
    (hotype : (valueAt sg oid).vtype = .denseTensor)
    (hodt : (valueAt sg oid).datatype = .fp32) :
    xnn_define_fully_connected true true sg (.fin a) (.fin b)
        iid fid XNN_INVALID_VALUE_ID oid flags
      = (.success,
         { values := sg.values,
           nodes := sg.nodes ++
             [{ ntype := .fully_connected,
                output_min := a,
                output_max := b,
                num_inputs := 2,
                input0 := iid,
                input1 := fid,
                input2 := XNN_INVALID_VALUE_ID,
                num_outputs := 1,
                output0 := oid,
                flags := flags,
                create := .fcCreate,
                setup := .fcSetup }] }) := by
  have hval : fcValidate true sg (.fin a) (.fin b) iid fid XNN_INVALID_VALUE_ID oid
      = none := by
    simp [fcValidate, CFloat.isNaN, CFloat.cge, hab.not_le, hi, hitype, hidt,
      hf, hftype, hfdata, hfdt, ho, hotype, hodt, check_datatypes_without_bias]
  simp [xnn_define_fully_connected, hval, xnn_subgraph_new_node, fcNode, CFloat.val]

/-- C8 witness: a concrete fp32 no-bias definition succeeds and appends the
    expected node. -/
theorem define_fc_f32_no_bias_success_witness :
    xnn_define_fully_connected true true sgF32 (.fin 0) (.fin 1)
        0 1 XNN_INVALID_VALUE_ID 2 7
      = (.success,
         { values := sgF32.values,
           nodes := sgF32.nodes ++
             [{ ntype := .fully_connected,
                output_min := 0,
                output_max := 1,
                num_inputs := 2,
                input0 := 0,
                input1 := 1,
                input2 := XNN_INVALID_VALUE_ID,
                num_outputs := 1,
                output0 := 2,
                flags := 7,
                create := .fcCreate,
                setup := .fcSetup }] }) :=
  define_fc_f32_no_bias_success sgF32 0 1 (by norm_num) 0 1 2 7
    (by decide) (by decide) (by decide) (by decide) (by decide) (by decide)
    (by decide) (by decide) (by decide) (by decide)

set_option maxHeartbeats 1600000 in
/-- C10: with all non-bias validation satisfied, bias_id equal to
    XNN_INVALID_VALUE_ID means no bias: the (out-of-range) sentinel is not
    rejected, the datatype-combination check is the without-bias rule set,
    and the created node has exactly 2 inputs; any other bias_id must name
    an existing dense static Value of datatype fp32 or qint32, otherwise the
    call fails with invalid-parameter. -/
theorem define_fc_bias_sentinel_semantics
    (sg : XSubgraph) (a b : ℚ) (hab : a < b) (iid fid oid flags : ℕ)
    (hi : iid < sg.values.length)
    (hitype : (valueAt sg iid).vtype = .denseTensor)
    (hidt : (valueAt sg iid).datatype = .fp32 ∨
            (valueAt sg iid).datatype = .qint8 ∨
            (valueAt sg iid).datatype = .quint8)
    (hf : fid < sg.values.length)
    (hftype : (valueAt sg fid).vtype = .denseTensor)
    (hfdata : (valueAt sg fid).hasData = true)
    (hfdt : (valueAt sg fid).datatype = .fp32 ∨
            (valueAt sg fid).datatype = .qint8 ∨
            (valueAt sg fid).datatype = .quint8)
    (ho : oid < sg.values.length)
    (hotype : (valueAt sg oid).vtype = .denseTensor)
    (hodt : (valueAt sg oid).datatype = .fp32 ∨
            (valueAt sg oid).datatype = .qint8 ∨
            (valueAt sg oid).datatype = .quint8) :
    ((xnn_define_fully_connected true true sg (.fin a) (.fin b)
        iid fid XNN_INVALID_VALUE_ID oid flags).1 = .success
      ↔ check_datatypes_without_bias
          (valueAt sg iid).datatype
          (valueAt sg fid).datatype
          (valueAt sg oid).datatype = true)
    ∧ ((xnn_define_fully_connected true true sg (.fin a) (.fin b)
          iid fid XNN_INVALID_VALUE_ID oid flags).1 = .success →
        ∃ nd, (xnn_define_fully_connected true true sg (.fin a) (.fin b)
                iid fid XNN_INVALID_VALUE_ID oid flags).2.nodes = sg.nodes ++ [nd]
          ∧ nd.num_inputs = 2)
    ∧ (∀ bid, bid ≠ XNN_INVALID_VALUE_ID → ∀ allocOk,
        ¬ (bid < sg.values.length
           ∧ (valueAt sg bid).vtype = .denseTensor
           ∧ (valueAt sg bid).hasData = true
           ∧ ((valueAt sg bid).datatype = .fp32 ∨
              (valueAt sg bid).datatype = .qint32)) →
        (xnn_define_fully_connected true allocOk sg (.fin a) (.fin b)
            iid fid bid oid flags).1 = .invalid_parameter) := by
  have hsent : fcValidate true sg (.fin a) (.fin b) iid fid XNN_INVALID_VALUE_ID oid
      = (if check_datatypes_without_bias
            (valueAt sg iid).datatype
            (valueAt sg fid).datatype
            (valueAt sg oid).datatype
         then none else some XReject.invalid_parameter) := by
    rcases hidt with h1 | h1 | h1 <;> rcases hfdt with h2 | h2 | h2 <;>
      rcases hodt with h3 | h3 | h3 <;>
      simp [fcValidate, check_datatypes_without_bias, CFloat.isNaN, CFloat.cge,
        hab.not_le, hi, hitype, h1, hf, hftype, hfdata, h2, ho, hotype, h3]
  refine ⟨?_, ?_, ?_⟩
  · by_cases hc : check_datatypes_without_bias
        (valueAt sg iid).datatype
        (valueAt sg fid).datatype
        (valueAt sg oid).datatype = true
    · simp [xnn_define_fully_connected, hsent, hc, xnn_subgraph_new_node]
    · simp only [Bool.not_eq_true] at hc
      simp [xnn_define_fully_connected, hsent, hc, XReject.toStatus]
  · intro hs
    by_cases hc : check_datatypes_without_bias
        (valueAt sg iid).datatype
        (valueAt sg fid).datatype
        (valueAt sg oid).datatype = true
    · refine ⟨fcNode (.fin a) (.fin b) iid fid XNN_INVALID_VALUE_ID oid flags, ?_, ?_⟩
      · simp [xnn_define_fully_connected, hsent, hc, xnn_subgraph_new_node]
      · simp [fcNode]
    · exfalso
      simp [xnn_define_fully_connected, hsent, hc, XReject.toStatus] at hs
  · intro bid hbid allocOk hbad
    have hbid2 : (bid = XNN_INVALID_VALUE_ID) = False := by
      simp [hbid]
    by_cases h1 : bid < sg.values.length
    · by_cases h2 : (valueAt sg bid).vtype = .denseTensor
      · by_cases h3 : (valueAt sg bid).hasData = true
        · have h4 : ¬ ((valueAt sg bid).datatype = .fp32 ∨
              (valueAt sg bid).datatype = .qint32) := by tauto
          have hval : fcValidate true sg (.fin a) (.fin b) iid fid bid oid
              = some XReject.invalid_parameter := by
            simp [fcValidate, CFloat.isNaN, CFloat.cge, hab.not_le, hi, hitype,
              hidt, hf, hftype, hfdata, hfdt, hbid2, h1, h2, h3, h4]
          simp [xnn_define_fully_connected, hval, XReject.toStatus]
        · have hval : fcValidate true sg (.fin a) (.fin b) iid fid bid oid
              = some XReject.invalid_parameter := by
            simp [fcValidate, CFloat.isNaN, CFloat.cge, hab.not_le, hi, hitype,
              hidt, hf, hftype, hfdata, hfdt, hbid2, h1, h2, h3]
          simp [xnn_define_fully_connected, hval, XReject.toStatus]
      · have hval : fcValidate true sg (.fin a) (.fin b) iid fid bid oid
            = some XReject.invalid_parameter := by
          simp [fcValidate, CFloat.isNaN, CFloat.cge, hab.not_le, hi, hitype,
            hidt, hf, hftype, hfdata, hfdt, hbid2, h1, h2]
        simp [xnn_define_fully_connected, hval, XReject.toStatus]
    · have hval : fcValidate true sg (.fin a) (.fin b) iid fid bid oid
          = some XReject.invalid_parameter := by
        simp [fcValidate, CFloat.isNaN, CFloat.cge, hab.not_le, hi, hitype,
          hidt, hf, hftype, hfdata, hfdt, hbid2, h1]
      simp [xnn_define_fully_connected, hval, XReject.toStatus]

/-- C10 witness: on the concrete fp32 subgraph the sentinel call succeeds
    with a 2-input node, and a non-sentinel bias id that is out of range is
    rejected with invalid-parameter. -/
theorem define_fc_bias_sentinel_semantics_witness :
    ((xnn_define_fully_connected true true sgF32 (.fin 0) (.fin 1)
        0 1 XNN_INVALID_VALUE_ID 2 0).1 = .success)
    ∧ (xnn_define_fully_connected true true sgF32 (.fin 0) (.fin 1)
        0 1 17 2 0).1 = .invalid_parameter := by
  have h := define_fc_bias_sentinel_semantics sgF32 0 1 (by norm_num) 0 1 2 0
    (by decide) (by decide) (by decide) (by decide) (by decide) (by decide)
    (by decide) (by decide) (by decide) (by decide)
  exact ⟨h.1.mpr (by decide), h.2.2 17 (by decide) true (by decide)⟩

/-- C7 witness: a concrete call with output_min = NaN is rejected with
    invalid-parameter and the graph is unchanged. -/
theorem define_fc_rejects_bad_bounds_witness :
    (xnn_define_fully_connected true true sgF32 .nan (.fin 1)
        0 1 XNN_INVALID_VALUE_ID 2 0).1 = .invalid_parameter
    ∧ (xnn_define_fully_connected true true sgF32 .nan (.fin 1)
        0 1 XNN_INVALID_VALUE_ID 2 0).2 = sgF32 :=
  define_fc_rejects_bad_bounds true sgF32 .nan (.fin 1)
    0 1 XNN_INVALID_VALUE_ID 2 0 (Or.inl rfl)

end XnnSubgraph

namespace XnnRdsum

/-- Evaluating a single accumulate-store. -/
theorem accStore_apply (m : ℕ → ℚ) (p : ℕ) (v : ℚ) (q : ℕ) :
    accStore m p v q = if q = p then m p + v else m q := rfl

/-- Unfolding a fold over List.range at its last index. -/
theorem foldl_range_succ {σ : Type} (F : σ → ℕ → σ) (m : σ) (n : ℕ) :
    (List.range (n+1)).foldl F m = F ((List.range n).foldl F m) n := by
  rw [List.range_succ, List.foldl_append, List.foldl_cons, List.foldl_nil]

/-- Groups in which at least 7 rows remain read all seven rows: no pointer
    is redirected to the zero sentinel. -/
theorem rowLoop_full (inp : ℕ → ℚ) (S c : ℕ) (rows : ℕ) :
    ∀ n, 7 * n ≤ rows →
      (List.range n).foldl
        (fun acc g => acc + groupRowSum inp S c (7*g*S) ((rows : ℤ) - 7*g)) 0
      = ∑ i ∈ Finset.range (7 * n), inp (i * S + c) := by
  intro n
  induction n with
  | zero => simp
  | succ n ih =>
      intro hn
      rw [foldl_range_succ, ih (by omega)]
      have h1 : ¬ ((rows : ℤ) - 7*n < 2) := by omega
      have h2 : ¬ ((rows : ℤ) - 7*n ≤ 2) := by omega
      have h3 : ¬ ((rows : ℤ) - 7*n < 4) := by omega
      have h4 : ¬ ((rows : ℤ) - 7*n ≤ 4) := by omega
      have h5 : ¬ ((rows : ℤ) - 7*n < 6) := by omega
      have h6 : ¬ ((rows : ℤ) - 7*n ≤ 6) := by omega
      rw [groupRowSum, if_neg h1, if_neg h2, if_neg h3, if_neg h4, if_neg h5,
        if_neg h6]
      have hsplit : 7 * (n + 1) = 7 * n + 7 := by ring
      rw [hsplit, Finset.sum_range_add]
      simp only [Finset.sum_range_succ, Finset.sum_range_zero]
      rw [(show (7*n + 0)*S + c = 7*n*S + c by ring),
        (show (7*n + 1)*S + c = 7*n*S + S + c by ring),
        (show (7*n + 2)*S + c = 7*n*S + 2*S + c by ring),
        (show (7*n + 3)*S + c = 7*n*S + 3*S + c by ring),
        (show (7*n + 4)*S + c = 7*n*S + 4*S + c by ring),
        (show (7*n + 5)*S + c = 7*n*S + 5*S + c by ring),
        (show (7*n + 6)*S + c = 7*n*S + 6*S + c by ring)]
      ring

/-- The final (possibly partial) group reads exactly the remaining r rows;
    the redirected pointers contribute nothing. -/
theorem groupRowSum_last (inp : ℕ → ℚ) (S c base : ℕ) (r : ℤ)
    (hr1 : 1 ≤ r) (hr7 : r ≤ 7) :
    groupRowSum inp S c base r
      = ∑ j ∈ Finset.range r.toNat, inp (base + j * S + c) := by
  interval_cases r <;>
    simp [groupRowSum, Finset.sum_range_succ]

/-- The row loop sums exactly the `rows` rows for every channel: zero
    padding in the last group contributes nothing. -/
theorem rowLoopSum_eq (inp : ℕ → ℚ) (S rows : ℕ) (hr : 1 ≤ rows) (c : ℕ) :
    rowLoopSum inp S rows c = ∑ i ∈ Finset.range rows, inp (i * S + c) := by
  have hG : (rows + 6) / 7 = (rows - 1) / 7 + 1 := by omega
  have hlo : 7 * ((rows - 1) / 7) + 1 ≤ rows := by omega
  have hhi : rows ≤ 7 * ((rows - 1) / 7) + 7 := by omega
  unfold rowLoopSum
  rw [hG, foldl_range_succ,
    rowLoop_full inp S c rows ((rows - 1) / 7) (by omega)]
  rw [groupRowSum_last _ _ _ _ _ (by omega) (by omega)]
  have ht : ((rows : ℤ) - 7 * (((rows - 1) / 7 : ℕ) : ℤ)).toNat
      = rows - 7 * ((rows - 1) / 7) := by omega
  rw [ht]
  have hsplit : rows = 7*((rows - 1) / 7) + (rows - 7*((rows - 1) / 7)) := by omega
  conv_rhs => rw [hsplit]
  rw [Finset.sum_range_add]
  congr 1
  apply Finset.sum_congr rfl
  intro j hj
  exact congrArg inp (by ring)

/-- A run of accumulate-stores at consecutive positions base..base+len-1,
    each adding the scaled channel sum, seen pointwise. -/
theorem accFoldRange (inp : ℕ → ℚ) (S rows : ℕ) (scale : ℚ)
    (m : ℕ → ℚ) (base len p : ℕ) :
    ((List.range len).foldl
        (fun mm j => accStore mm (base + j) (scale * rowLoopSum inp S rows (base + j))) m) p
    = if base ≤ p ∧ p < base + len
      then m p + scale * rowLoopSum inp S rows p else m p := by
  induction len with
  | zero => rw [if_neg (by omega)]; rfl
  | succ n ih =>
      rw [foldl_range_succ]
      simp only [accStore_apply]
      by_cases hp : p = base + n
      · subst hp
        rw [if_pos rfl, ih, if_neg (by omega), if_pos (by omega)]
      · rw [if_neg hp, ih]
        by_cases hin : base ≤ p ∧ p < base + n
        · rw [if_pos hin, if_pos (by omega)]
        · rw [if_neg hin, if_neg (by omega)]

/-- The 32-channel fast-path loop seen pointwise: it accumulates into the
    first 32*(channels/32) output elements and touches nothing else. -/
theorem fastFoldPointwise (inp : ℕ → ℚ) (S rows : ℕ) (scale : ℚ)
    (m : ℕ → ℚ) (nb p : ℕ) :
    ((List.range nb).foldl
        (fun mm b => (List.range 32).foldl
          (fun mmm j => accStore mmm (32*b + j)
            (scale * rowLoopSum inp S rows (32*b + j))) mm) m) p
    = if p < 32 * nb
      then m p + scale * rowLoopSum inp S rows p else m p := by
  induction nb with
  | zero => rw [if_neg (by omega)]; rfl
  | succ n ih =>
      rw [foldl_range_succ, accFoldRange]
      by_cases hp : 32*n ≤ p ∧ p < 32*n + 32
      · rw [if_pos hp, ih, if_neg (by omega), if_pos (by omega)]
      · rw [if_neg hp, ih]
        by_cases h2 : p < 32*n
        · rw [if_pos h2, if_pos (by omega)]
        · rw [if_neg h2, if_neg (by omega)]

/-- The remainder path's full chunks of 4, seen pointwise. -/
theorem chunkFoldPointwise (inp : ℕ → ℚ) (S rows : ℕ) (scale : ℚ)
    (m : ℕ → ℚ) (base fc p : ℕ) :
    ((List.range fc).foldl
        (fun mm i => (List.range 4).foldl
          (fun mmm l => accStore mmm (base + 4*i + l)
            (scale * rowLoopSum inp S rows (base + 4*i + l))) mm) m) p
    = if base ≤ p ∧ p < base + 4 * fc
      then m p + scale * rowLoopSum inp S rows p else m p := by
  induction fc with
  | zero => rw [if_neg (by omega)]; rfl
  | succ n ih =>
      rw [foldl_range_succ, accFoldRange]
      by_cases hp : base + 4*n ≤ p ∧ p < base + 4*n + 4
      · rw [if_pos hp, ih, if_neg (by omega), if_pos (by omega)]
      · rw [if_neg hp, ih]
        by_cases h2 : base ≤ p ∧ p < base + 4*n
        · rw [if_pos h2, if_pos (by omega)]
        · rw [if_neg h2, if_neg (by omega)]

/-- Pointwise behaviour of the whole reduction kernel: each output element
    below `channels` accumulates scale times the sum of its column over all
    rows; everything at or beyond `channels` is untouched. -/
theorem rdsum_pointwise (rows channels : ℕ) (inp : ℕ → ℚ) (S : ℕ)
    (scale : ℚ) (out0 : ℕ → ℚ) (hr : 1 ≤ rows) (p : ℕ) :
    xnn_f16_f32acc_rdsum_ukernel_7p7x__neonfp16arith_c32
        rows channels inp S scale out0 p
    = if p < channels
      then out0 p + scale * ∑ i ∈ Finset.range rows, inp (i * S + p)
      else out0 p := by
  simp only [xnn_f16_f32acc_rdsum_ukernel_7p7x__neonfp16arith_c32]
  by_cases h0 : channels % 32 = 0
  · rw [if_pos h0, fastFoldPointwise]
    by_cases hp : p < channels
    · rw [if_pos (by omega), if_pos hp, rowLoopSum_eq inp S rows hr]
    · rw [if_neg (by omega), if_neg hp]
  · rw [if_neg h0]
    have hch : channels = 32 * (channels / 32) + 4 * (channels % 32 / 4)
        + channels % 32 % 4 := by omega
    have h4 : channels % 32 % 4 = 0 ∨ channels % 32 % 4 = 1 ∨
        channels % 32 % 4 = 2 ∨ channels % 32 % 4 = 3 := by omega
    rcases h4 with h | h | h | h
    · have hb2 : ((0 &&& 2 ≠ 0)) = False := eq_false (by decide)
      have hb1 : ((0 &&& 1 ≠ 0)) = False := eq_false (by decide)
      simp only [h, hb2, hb1, if_false]
      simp only [chunkFoldPointwise, fastFoldPointwise]
      simp only [rowLoopSum_eq inp S rows hr]
      split_ifs <;> first | rfl | (exfalso; omega)
    · have hb2 : ((1 &&& 2 ≠ 0)) = False := eq_false (by decide)
      have hb1 : ((1 &&& 1 ≠ 0)) = True := eq_true (by decide)
      simp only [h, hb2, hb1, if_false, if_true]
      simp only [accStore_apply]
      simp only [chunkFoldPointwise, fastFoldPointwise]
      simp only [rowLoopSum_eq inp S rows hr]
      split_ifs <;>
        first | rfl | (exfalso; omega) | (subst_vars; rfl)
    · have hb2 : ((2 &&& 2 ≠ 0)) = True := eq_true (by decide)
      have hb1 : ((2 &&& 1 ≠ 0)) = False := eq_false (by decide)
      simp only [h, hb2, hb1, if_false, if_true]
      simp only [accStore_apply]
      simp only [chunkFoldPointwise, fastFoldPointwise]
      simp only [rowLoopSum_eq inp S rows hr]
      split_ifs <;>
        first | rfl | (exfalso; omega) | (subst_vars; rfl)
    · have hb2 : ((3 &&& 2 ≠ 0)) = True := eq_true (by decide)
      have hb1 : ((3 &&& 1 ≠ 0)) = True := eq_true (by decide)
      simp only [h, hb2, hb1, if_false, if_true]
      simp only [accStore_apply]
      simp only [chunkFoldPointwise, fastFoldPointwise]
      simp only [rowLoopSum_eq inp S rows hr]
      split_ifs <;>
        first | rfl | (exfalso; omega) | (subst_vars; rfl)

/-- C2: the kernel accumulates into the output rather than overwriting it:
    each channel below `channels` ends at its old value plus scale times the
    sum of its column over all rows; consequently splitting the rows into
    two calls accumulating into the same pre-zeroed output equals one call
    over the full row range (exactly, in the exact-arithmetic model). -/
theorem rdsum_accumulates_into_output (rows channels : ℕ) (inp : ℕ → ℚ)
    (S : ℕ) (scale : ℚ) (out0 : ℕ → ℚ) (hr : 1 ≤ rows) (hc : 1 ≤ channels) :
    (∀ c, c < channels →
      xnn_f16_f32acc_rdsum_ukernel_7p7x__neonfp16arith_c32
          rows channels inp S scale out0 c
        = out0 c + scale * ∑ i ∈ Finset.range rows, inp (i * S + c))
    ∧ (∀ rows1 rows2, 1 ≤ rows1 → 1 ≤ rows2 → rows1 + rows2 = rows → ∀ c,
      xnn_f16_f32acc_rdsum_ukernel_7p7x__neonfp16arith_c32
          rows2 channels (fun q => inp (rows1 * S + q)) S scale
          (xnn_f16_f32acc_rdsum_ukernel_7p7x__neonfp16arith_c32
            rows1 channels inp S scale (fun _ => 0)) c
        = xnn_f16_f32acc_rdsum_ukernel_7p7x__neonfp16arith_c32
            rows channels inp S scale (fun _ => 0) c) := by
  constructor
  · intro c hcc
    rw [rdsum_pointwise _ _ _ _ _ _ hr c, if_pos hcc]
  · intro rows1 rows2 h1 h2 hsum c
    subst hsum
    by_cases hcc : c < channels
    · rw [rdsum_pointwise _ _ _ _ _ _ h2 c, if_pos hcc,
        rdsum_pointwise _ _ _ _ _ _ h1 c, if_pos hcc,
        rdsum_pointwise _ _ _ _ _ _ (by omega : 1 ≤ rows1 + rows2) c,
        if_pos hcc, Finset.sum_range_add]
      have hcong : (∑ i ∈ Finset.range rows2, inp (rows1 * S + (i * S + c)))
          = ∑ x ∈ Finset.range rows2, inp ((rows1 + x) * S + c) :=
        Finset.sum_congr rfl (fun j _ => congrArg inp (by ring))
      rw [hcong]
      ring
    · rw [rdsum_pointwise _ _ _ _ _ _ h2 c, if_neg hcc,
        rdsum_pointwise _ _ _ _ _ _ h1 c, if_neg hcc,
        rdsum_pointwise _ _ _ _ _ _ (by omega : 1 ≤ rows1 + rows2) c,
        if_neg hcc]

/-- C2 witness: the accumulate-and-split property at rows 3 = 1 + 2,
    channels 5, stride 5. -/
theorem rdsum_accumulates_into_output_witness :
    (∀ c, c < 5 →
      xnn_f16_f32acc_rdsum_ukernel_7p7x__neonfp16arith_c32
          3 5 (fun i => (i : ℚ)) 5 1 (fun q => (q : ℚ)) c
        = (fun q => (q : ℚ)) c + 1 * ∑ i ∈ Finset.range 3, ((i * 5 + c : ℕ) : ℚ))
    ∧ (∀ rows1 rows2, 1 ≤ rows1 → 1 ≤ rows2 → rows1 + rows2 = 3 → ∀ c,
      xnn_f16_f32acc_rdsum_ukernel_7p7x__neonfp16arith_c32
          rows2 5 (fun q => ((rows1 * 5 + q : ℕ) : ℚ)) 5 1
          (xnn_f16_f32acc_rdsum_ukernel_7p7x__neonfp16arith_c32
            rows1 5 (fun i => (i : ℚ)) 5 1 (fun _ => 0)) c
        = xnn_f16_f32acc_rdsum_ukernel_7p7x__neonfp16arith_c32
            3 5 (fun i => (i : ℚ)) 5 1 (fun _ => 0) c) :=
  rdsum_accumulates_into_output 3 5 (fun i => (i : ℚ)) 5 1 (fun q => (q : ℚ))
    (by norm_num) (by norm_num)

/-- C5: for a row count that is not a multiple of the unroll factor 7, the
    result is still the scaled sum over exactly those rows: the sentinel
    redirections in the last group contribute nothing to any channel. -/
theorem rdsum_rows_tail_exact (rows channels : ℕ) (inp : ℕ → ℚ) (S : ℕ)
    (scale : ℚ) (out0 : ℕ → ℚ) (hr : 1 ≤ rows) (h7 : rows % 7 ≠ 0)
    (c : ℕ) (hc : c < channels) :
    xnn_f16_f32acc_rdsum_ukernel_7p7x__neonfp16arith_c32
        rows channels inp S scale out0 c
      = out0 c + scale * ∑ i ∈ Finset.range rows, inp (i * S + c) := by
  rw [rdsum_pointwise _ _ _ _ _ _ hr c, if_pos hc]

/-- C5 witness: rows = 3 with unroll factor 7, channels = 5. -/
theorem rdsum_rows_tail_exact_witness :
    xnn_f16_f32acc_rdsum_ukernel_7p7x__neonfp16arith_c32
        3 5 (fun i => (i : ℚ)) 5 1 (fun _ => 0) 2
      = (fun _ => (0 : ℚ)) 2 + 1 * ∑ i ∈ Finset.range 3, ((i * 5 + 2 : ℕ) : ℚ) :=
  rdsum_rows_tail_exact 3 5 (fun i => (i : ℚ)) 5 1 (fun _ => 0)
    (by norm_num) (by norm_num) 2 (by norm_num)

/-- C6: when `channels` is not a multiple of 32, the remainder path writes
    exactly the remaining output elements: every element at or beyond
    `channels` is untouched, and every element from the end of the 32-wide
    fast path up to `channels` receives its accumulated value. -/
theorem rdsum_channel_remainder_stores (rows channels : ℕ) (inp : ℕ → ℚ)
    (S : ℕ) (scale : ℚ) (out0 : ℕ → ℚ) (hr : 1 ≤ rows)
    (hrem : channels % 32 ≠ 0) :
    (∀ p, channels ≤ p →
      xnn_f16_f32acc_rdsum_ukernel_7p7x__neonfp16arith_c32
          rows channels inp S scale out0 p = out0 p)
    ∧ (∀ p, 32 * (channels / 32) ≤ p → p < channels →
      xnn_f16_f32acc_rdsum_ukernel_7p7x__neonfp16arith_c32
          rows channels inp S scale out0 p
        = out0 p + scale * ∑ i ∈ Finset.range rows, inp (i * S + p)) := by
  constructor
  · intro p hp
    rw [rdsum_pointwise _ _ _ _ _ _ hr p, if_neg (by omega)]
  · intro p hp1 hp2
    rw [rdsum_pointwise _ _ _ _ _ _ hr p, if_pos hp2]

/-- C6 witness: channels = 33 (remainder 1), rows = 2. -/
theorem rdsum_channel_remainder_stores_witness :
    (∀ p, 33 ≤ p →
      xnn_f16_f32acc_rdsum_ukernel_7p7x__neonfp16arith_c32
          2 33 (fun i => (i : ℚ)) 40 1 (fun _ => 0) p = (fun _ => (0 : ℚ)) p)
    ∧ (∀ p, 32 * (33 / 32) ≤ p → p < 33 →
      xnn_f16_f32acc_rdsum_ukernel_7p7x__neonfp16arith_c32
          2 33 (fun i => (i : ℚ)) 40 1 (fun _ => 0) p
        = (fun _ => (0 : ℚ)) p + 1 * ∑ i ∈ Finset.range 2, ((i * 40 + p : ℕ) : ℚ)) :=
  rdsum_channel_remainder_stores 2 33 (fun i => (i : ℚ)) 40 1 (fun _ => 0)
    (by norm_num) (by norm_num)

end XnnRdsum

namespace XnnGemm

/-- List.range at a successor, pinned to the n + 1 spelling so that
    rewriting never hits a numeric literal range. -/
theorem range_succ_pin (n : ℕ) : List.range (n + 1) = List.range n ++ [n] :=
  List.range_succ n

/-- Serializing n fields of one kind then the rest: the fields sit at
    consecutive width-spaced offsets. -/
theorem specSerial_replicate (k : WKind) :
    ∀ (n off : ℕ) (rest : List WKind),
      specSerial off (List.replicate n k ++ rest)
        = (List.range n).map (fun j => (off + wWidth k * j, k))
          ++ specSerial (off + wWidth k * n) rest := by
  intro n
  induction n with
  | zero => intro off rest; simp [specSerial]
  | succ n ih =>
      intro off rest
      rw [List.replicate_succ, List.cons_append, specSerial,
        ih (off + wWidth k) rest, List.range_succ_eq_map, List.map_cons,
        List.map_map, List.cons_append,
        show off + wWidth k * (n+1) = off + wWidth k + wWidth k * n by ring]
      congr 1
      congr 1
      apply List.map_congr_left
      intro j hj
      simp only [Function.comp_apply, Prod.mk.injEq, Nat.succ_eq_add_one]
      refine ⟨by ring, trivial⟩

/-- Serializing a trailing block of n fields of one kind. -/
theorem specSerial_replicate_nil (k : WKind) (n off : ℕ) :
    specSerial off (List.replicate n k)
      = (List.range n).map (fun j => (off + wWidth k * j, k)) := by
  have h := specSerial_replicate k n off []
  simpa [specSerial] using h

set_option maxRecDepth 4000 in
/-- The eight 16-byte weight loads per full chunk, over all chunks, read
    the 128*T consecutive bytes starting at the weight base. -/
theorem flattenChunksOff (wgt : ℕ) :
    ∀ T, List.flatten ((List.range T).map
        (fun t => (List.range 128).map (fun b => (wgt + 128*t + b, WKind.ki8))))
      = (List.range (128*T)).map (fun q => (wgt + q, WKind.ki8)) := by
  intro T
  induction T with
  | zero => simp
  | succ T ih =>
      rw [range_succ_pin T,
        List.map_append, List.flatten_append, ih, List.map_cons, List.map_nil,
        List.flatten_cons, List.flatten_nil, List.append_nil,
        show 128*(T+1) = 128*T + 128 by ring, List.range_add,
        List.map_append, List.map_map]
      congr 1

/-- Widths accumulate the same over the serialized items as over the kinds. -/
theorem specSerial_width :
    ∀ (ks : List WKind) (off i : ℕ),
      (specSerial off ks).foldl (fun o it => o + wWidth it.2) i
        = ks.foldl (fun o k => o + wWidth k) i := by
  intro ks
  induction ks with
  | nil => intro off i; rfl
  | cons k ks ih =>
      intro off i
      rw [specSerial, List.foldl_cons, List.foldl_cons, ih]

/-- Width of a replicated block. -/
theorem foldl_width_replicate (k : WKind) :
    ∀ (n i : ℕ), (List.replicate n k).foldl (fun o k2 => o + wWidth k2) i
      = i + n * wWidth k := by
  intro n
  induction n with
  | zero => intro i; simp
  | succ n ih =>
      intro i
      rw [List.replicate_succ, List.foldl_cons, ih]
      ring

/-- C9: during column group g the kernel consumes the packed-weight stream
    in exactly the serialized order of the spec layout: 8 int32 per-column
    sums, the interleaved weight bytes for the whole rounded-up K dimension
    in 16-byte blocks, 8 float per-column scales, then 8 float per-column
    biases, all at consecutive byte offsets starting at g times the group
    byte size; and the group's field widths sum to that byte size, so
    consecutive column groups parse consecutive blocks. -/
theorem gemm_w_read_order (kc : ℕ) (hkc : 1 ≤ kc) (g : ℕ) :
    gemmGroupReads kc g = specGroupLayout kc g
    ∧ (specGroupKinds (roundUp8 kc)).foldl (fun o k => o + wWidth k) 0
        = 96 + 8 * roundUp8 kc := by
  have h8 : roundUp8 kc % 8 = 0 := by
    unfold roundUp8
    omega
  constructor
  · have h16 : roundUp8 kc % 16 = 0 ∨ roundUp8 kc % 16 = 8 := by omega
    simp only [gemmGroupReads, specGroupLayout, specGroupKinds]
    rcases h16 with h16 | h16
    · rw [if_pos h16, flattenChunksOff,
        show 128 * (roundUp8 kc / 16) = 8 * roundUp8 kc by omega,
        List.append_nil]
      simp only [List.append_assoc]
      rw [specSerial_replicate, specSerial_replicate, specSerial_replicate,
        specSerial_replicate_nil]
      simp only [wWidth, Nat.reduceMul, one_mul]
    · rw [if_neg (by omega), flattenChunksOff]
      simp only [List.append_assoc]
      rw [specSerial_replicate, specSerial_replicate, specSerial_replicate,
        specSerial_replicate_nil,
        show List.range (8 * roundUp8 kc)
            = List.range (128 * (roundUp8 kc / 16) + 64)
          from congrArg List.range (by omega),
        List.range_add, List.map_append, List.map_map]
      simp only [List.append_assoc, wWidth, Nat.reduceMul, one_mul]
      congr 1
  · unfold specGroupKinds
    rw [List.foldl_append, List.foldl_append, List.foldl_append,
      foldl_width_replicate, foldl_width_replicate, foldl_width_replicate,
      foldl_width_replicate]
    simp only [wWidth]
    omega

/-- C9 witness: the read order matches the serialized layout at kc = 8,
    group 0, and at kc = 20 (whose rounded K is 24, exercising the 8-deep
    remainder chunk), group 1. -/
theorem gemm_w_read_order_witness :
    (gemmGroupReads 8 0 = specGroupLayout 8 0
      ∧ (specGroupKinds (roundUp8 8)).foldl (fun o k => o + wWidth k) 0
          = 96 + 8 * roundUp8 8)
    ∧ (gemmGroupReads 20 1 = specGroupLayout 20 1
      ∧ (specGroupKinds (roundUp8 20)).foldl (fun o k => o + wWidth k) 0
          = 96 + 8 * roundUp8 20) :=
  ⟨gemm_w_read_order 8 (by norm_num) 0, gemm_w_read_order 20 (by norm_num) 1⟩

/-- Weight byte at the start of a chunk. -/
theorem colB_at_0 (w : ℕ → WItem) (wgt n t : ℕ) :
    colB w wgt n (16*t)
      = readI8 w (wgt + 128*t + (n/2)*16 + (n%2)*8) := by
  unfold colB wColOff
  congr 1
  omega

theorem colB_at_1 (w : ℕ → WItem) (wgt n t : ℕ) :
    colB w wgt n (16*t + 1) = readI8 w (wgt + 128*t + (n/2)*16 + (n%2)*8 + 1) := by
  unfold colB wColOff
  congr 1
  omega

theorem colB_at_2 (w : ℕ → WItem) (wgt n t : ℕ) :
    colB w wgt n (16*t + 2) = readI8 w (wgt + 128*t + (n/2)*16 + (n%2)*8 + 2) := by
  unfold colB wColOff
  congr 1
  omega

theorem colB_at_3 (w : ℕ → WItem) (wgt n t : ℕ) :
    colB w wgt n (16*t + 3) = readI8 w (wgt + 128*t + (n/2)*16 + (n%2)*8 + 3) := by
  unfold colB wColOff
  congr 1
  omega

theorem colB_at_4 (w : ℕ → WItem) (wgt n t : ℕ) :
    colB w wgt n (16*t + 4) = readI8 w (wgt + 128*t + (n/2)*16 + (n%2)*8 + 4) := by
  unfold colB wColOff
  congr 1
  omega

theorem colB_at_5 (w : ℕ → WItem) (wgt n t : ℕ) :
    colB w wgt n (16*t + 5) = readI8 w (wgt + 128*t + (n/2)*16 + (n%2)*8 + 5) := by
  unfold colB wColOff
  congr 1
  omega

theorem colB_at_6 (w : ℕ → WItem) (wgt n t : ℕ) :
    colB w wgt n (16*t + 6) = readI8 w (wgt + 128*t + (n/2)*16 + (n%2)*8 + 6) := by
  unfold colB wColOff
  congr 1
  omega

theorem colB_at_7 (w : ℕ → WItem) (wgt n t : ℕ) :
    colB w wgt n (16*t + 7) = readI8 w (wgt + 128*t + (n/2)*16 + (n%2)*8 + 7) := by
  unfold colB wColOff
  congr 1
  omega

theorem colB_at_8 (w : ℕ → WItem) (wgt n t : ℕ) :
    colB w wgt n (16*t + 8) = readI8 w (wgt + 128*t + 64 + (n/2)*16 + (n%2)*8) := by
  unfold colB wColOff
  congr 1
  omega

theorem colB_at_9 (w : ℕ → WItem) (wgt n t : ℕ) :
    colB w wgt n (16*t + 9) = readI8 w (wgt + 128*t + 64 + (n/2)*16 + (n%2)*8 + 1) := by
  unfold colB wColOff
  congr 1
  omega

theorem colB_at_10 (w : ℕ → WItem) (wgt n t : ℕ) :
    colB w wgt n (16*t + 10) = readI8 w (wgt + 128*t + 64 + (n/2)*16 + (n%2)*8 + 2) := by
  unfold colB wColOff
  congr 1
  omega

theorem colB_at_11 (w : ℕ → WItem) (wgt n t : ℕ) :
    colB w wgt n (16*t + 11) = readI8 w (wgt + 128*t + 64 + (n/2)*16 + (n%2)*8 + 3) := by
  unfold colB wColOff
  congr 1
  omega

theorem colB_at_12 (w : ℕ → WItem) (wgt n t : ℕ) :
    colB w wgt n (16*t + 12) = readI8 w (wgt + 128*t + 64 + (n/2)*16 + (n%2)*8 + 4) := by
  unfold colB wColOff
  congr 1
  omega

theorem colB_at_13 (w : ℕ → WItem) (wgt n t : ℕ) :
    colB w wgt n (16*t + 13) = readI8 w (wgt + 128*t + 64 + (n/2)*16 + (n%2)*8 + 5) := by
  unfold colB wColOff
  congr 1
  omega

theorem colB_at_14 (w : ℕ → WItem) (wgt n t : ℕ) :
    colB w wgt n (16*t + 14) = readI8 w (wgt + 128*t + 64 + (n/2)*16 + (n%2)*8 + 6) := by
  unfold colB wColOff
  congr 1
  omega

theorem colB_at_15 (w : ℕ → WItem) (wgt n t : ℕ) :
    colB w wgt n (16*t + 15) = readI8 w (wgt + 128*t + 64 + (n/2)*16 + (n%2)*8 + 7) := by
  unfold colB wColOff
  congr 1
  omega

set_option maxHeartbeats 3200000 in
/-- One full 16-deep chunk advances the closed-form accumulator state. -/
theorem rowChunk16_step (w : ℕ → WItem) (a : ℕ → ℤ) (aoff wgt gB : ℕ)
    (zp : ℤ) (t : ℕ) :
    rowChunk16 w a aoff wgt t (kState w a aoff wgt gB zp t)
      = kState w a aoff wgt gB zp (t + 1) := by
  simp only [rowChunk16, dotAdd, loadB16, splatA8]
  simp only [kState, LO, HI, rowA, colB_at_0, colB_at_1, colB_at_2,
    colB_at_3, colB_at_4, colB_at_5, colB_at_6, colB_at_7, colB_at_8,
    colB_at_9, colB_at_10, colB_at_11, colB_at_12, colB_at_13, colB_at_14,
    colB_at_15]
  norm_num [RowAcc.mk.injEq, I4.mk.injEq]
  refine ⟨⟨?_, ?_, ?_, ?_⟩, ⟨?_, ?_, ?_, ?_⟩, ⟨?_, ?_, ?_, ?_⟩, ⟨?_, ?_, ?_, ?_⟩⟩ <;>
    ring_nf

/-- The even and odd int32 lanes of a column together hold the full dot
    product over the first 16*t reduction indices. -/
theorem LO_add_HI (f u : ℕ → ℤ) (t : ℕ) :
    LO f u t + HI f u t = ∑ k ∈ Finset.range (16*t), f k * u k := by
  induction t with
  | zero => simp [LO, HI]
  | succ t ih =>
      rw [show 16*(t+1) = 16*t + 16 by ring, Finset.sum_range_add]
      simp only [Finset.sum_range_succ, Finset.sum_range_zero]
      rw [← ih]
      simp only [LO, HI]
      ring_nf

/-- Closed form of the full-chunk portion of the K loop. -/
theorem kLoopFold (w : ℕ → WItem) (a : ℕ → ℤ) (aoff wgt gB : ℕ) (zp : ℤ)
    (T : ℕ) :
    (List.range T).foldl (fun s t => rowChunk16 w a aoff wgt t s)
      (rowInit (loadI32x4 w gB) (loadI32x4 w (gB + 16)) zp)
    = kState w a aoff wgt gB zp T := by
  induction T with
  | zero =>
      simp [kState, LO, HI, rowInit, extLow, extHigh, mulZp]
  | succ T ih =>
      rw [XnnRdsum.foldl_range_succ, ih, rowChunk16_step]

set_option maxHeartbeats 3200000 in
/-- After the whole K loop and the horizontal reduction, the kernel holds
    exactly the eight per-column accumulators colAcc 0..7. -/
theorem rowCols_closed (w : ℕ → WItem) (a : ℕ → ℤ) (gB kcr aoff : ℕ)
    (zp : ℤ) (h8 : kcr % 8 = 0) :
    (hsumPair (rowKLoop w a aoff (gB + 32) kcr
        (rowInit (loadI32x4 w gB) (loadI32x4 w (gB + 16)) zp)).x01
      (rowKLoop w a aoff (gB + 32) kcr
        (rowInit (loadI32x4 w gB) (loadI32x4 w (gB + 16)) zp)).x23
      = ⟨colAcc w a gB kcr aoff zp 0, colAcc w a gB kcr aoff zp 1,
         colAcc w a gB kcr aoff zp 2, colAcc w a gB kcr aoff zp 3⟩)
    ∧ (hsumPair (rowKLoop w a aoff (gB + 32) kcr
        (rowInit (loadI32x4 w gB) (loadI32x4 w (gB + 16)) zp)).x45
      (rowKLoop w a aoff (gB + 32) kcr
        (rowInit (loadI32x4 w gB) (loadI32x4 w (gB + 16)) zp)).x67
      = ⟨colAcc w a gB kcr aoff zp 4, colAcc w a gB kcr aoff zp 5,
         colAcc w a gB kcr aoff zp 6, colAcc w a gB kcr aoff zp 7⟩) := by
  simp only [rowKLoop]
  rw [kLoopFold]
  by_cases h16 : kcr % 16 = 0
  · rw [if_pos h16]
    have hk : 16 * (kcr / 16) = kcr := by omega
    simp only [kState, hsumPair, colAcc, loadI32x4, I4.mk.injEq]
    refine ⟨⟨?_, ?_, ?_, ?_⟩, ?_, ?_, ?_, ?_⟩ <;>
      · rw [add_assoc, LO_add_HI, hk]
        try norm_num
  · rw [if_neg h16]
    have h16b : kcr % 16 = 8 := by omega
    have hk : kcr = 16 * (kcr / 16) + 8 := by omega
    have hrange : Finset.range kcr = Finset.range (16 * (kcr / 16) + 8) := by
      rw [← hk]
    simp only [rowChunk8, dotAdd, loadB16, splatA8, kState, hsumPair,
      colAcc, loadI32x4, I4.mk.injEq]
    refine ⟨⟨?_, ?_, ?_, ?_⟩, ?_, ?_, ?_, ?_⟩ <;>
      · rw [hrange, Finset.sum_range_add, ← LO_add_HI]
        simp only [Finset.sum_range_succ, Finset.sum_range_zero]
        norm_num [colB_at_0, colB_at_1, colB_at_2, colB_at_3,
          colB_at_4, colB_at_5, colB_at_6, colB_at_7, rowA]
        try ring_nf

/-- The wasm pmax-then-pmin lane pattern is a clamp. -/
theorem pclamp (lo hi x : ℚ) :
    (if hi < (if lo < x then x else lo) then hi
     else (if lo < x then x else lo))
      = min hi (max lo x) := by
  rw [max_def, min_def]
  split_ifs <;> first | rfl | linarith

/-- The complete per-row pipeline of one column group computes exactly the
    eight clamped cell values. -/
theorem rowOut_eq (w : ℕ → WItem) (a : ℕ → ℤ) (gB kcr aoff : ℕ)
    (qp : QParams) (vmin vmax : ℚ) (h8 : kcr % 8 = 0) :
    rowOut w a gB kcr aoff qp vmin vmax
      = (⟨cellValue w a gB kcr aoff qp vmin vmax 0,
          cellValue w a gB kcr aoff qp vmin vmax 1,
          cellValue w a gB kcr aoff qp vmin vmax 2,
          cellValue w a gB kcr aoff qp vmin vmax 3⟩,
         ⟨cellValue w a gB kcr aoff qp vmin vmax 4,
          cellValue w a gB kcr aoff qp vmin vmax 5,
          cellValue w a gB kcr aoff qp vmin vmax 6,
          cellValue w a gB kcr aoff qp vmin vmax 7⟩) := by
  have hc := rowCols_closed w a gB kcr aoff qp.zero_point h8
  simp only [rowOut]
  rw [hc.1, hc.2]
  simp only [rowFloat, toQ4, mulS, mulV, addV, loadF32x4, pmaxS, pminS,
    cellValue, Prod.mk.injEq, Q4.mk.injEq]
  refine ⟨⟨?_, ?_, ?_, ?_⟩, ?_, ?_, ?_, ?_⟩ <;>
    · rw [pclamp]
      try ring_nf

/-- Pointwise reading of the store primitives. -/
theorem store4_apply (m : ℕ → ℚ) (p : ℕ) (v : Q4) (q : ℕ) :
    store4 m p v q
      = if q = p + 3 then v.l3 else if q = p + 2 then v.l2
        else if q = p + 1 then v.l1 else if q = p then v.l0 else m q := rfl

theorem store2_apply (m : ℕ → ℚ) (p : ℕ) (v : Q4) (q : ℕ) :
    store2 m p v q
      = if q = p + 1 then v.l1 else if q = p then v.l0 else m q := rfl

theorem store1_apply (m : ℕ → ℚ) (p : ℕ) (v : Q4) (q : ℕ) :
    store1 m p v q = if q = p then v.l0 else m q := rfl

theorem store4_skip (m : ℕ → ℚ) (p : ℕ) (v : Q4) (q : ℕ)
    (h : q < p ∨ p + 4 ≤ q) : store4 m p v q = m q := by
  rw [store4_apply]
  split_ifs <;> first | rfl | omega

theorem store2_skip (m : ℕ → ℚ) (p : ℕ) (v : Q4) (q : ℕ)
    (h : q < p ∨ p + 2 ≤ q) : store2 m p v q = m q := by
  rw [store2_apply]
  split_ifs <;> first | rfl | omega

theorem store1_skip (m : ℕ → ℚ) (p : ℕ) (v : Q4) (q : ℕ)
    (h : q ≠ p) : store1 m p v q = m q := by
  rw [store1_apply]
  split_ifs <;> first | rfl | omega

theorem groupStoreFull_skip (m : ℕ → ℚ) (p0 p1 p2 p3 : ℕ)
    (v00 v01 v10 v11 v20 v21 v30 v31 : Q4) (q : ℕ)
    (h0 : q < p0 ∨ p0 + 8 ≤ q) (h1 : q < p1 ∨ p1 + 8 ≤ q)
    (h2 : q < p2 ∨ p2 + 8 ≤ q) (h3 : q < p3 ∨ p3 + 8 ≤ q) :
    groupStoreFull m p0 p1 p2 p3 v00 v01 v10 v11 v20 v21 v30 v31 q = m q := by
  simp only [groupStoreFull]
  rw [store4_skip, store4_skip, store4_skip, store4_skip,
    store4_skip, store4_skip, store4_skip, store4_skip]
  all_goals omega

theorem groupStorePartial_skip (m : ℕ → ℚ) (ncr p0 p1 p2 p3 : ℕ)
    (v00 v01 v10 v11 v20 v21 v30 v31 : Q4) (q : ℕ) (hncr : ncr < 8)
    (h0 : q < p0 ∨ p0 + ncr ≤ q) (h1 : q < p1 ∨ p1 + ncr ≤ q)
    (h2 : q < p2 ∨ p2 + ncr ≤ q) (h3 : q < p3 ∨ p3 + ncr ≤ q) :
    groupStorePartial m ncr p0 p1 p2 p3 v00 v01 v10 v11 v20 v21 v30 v31 q
      = m q := by
  simp only [groupStorePartial]
  interval_cases ncr
  · simp only [eq_false (by decide : ¬((0:ℕ) &&& 4 ≠ 0)), eq_false (by decide : ¬((0:ℕ) &&& 2 ≠ 0)), eq_false (by decide : ¬((0:ℕ) &&& 1 ≠ 0)), if_true, if_false]
  · simp only [eq_false (by decide : ¬((1:ℕ) &&& 4 ≠ 0)), eq_false (by decide : ¬((1:ℕ) &&& 2 ≠ 0)), eq_true (by decide : ((1:ℕ) &&& 1 ≠ 0)), if_true, if_false]
    rw [store1_skip, store1_skip, store1_skip, store1_skip]
    all_goals omega
  · simp only [eq_false (by decide : ¬((2:ℕ) &&& 4 ≠ 0)), eq_true (by decide : ((2:ℕ) &&& 2 ≠ 0)), eq_false (by decide : ¬((2:ℕ) &&& 1 ≠ 0)), if_true, if_false]
    rw [store2_skip, store2_skip, store2_skip, store2_skip]
    all_goals omega
  · simp only [eq_false (by decide : ¬((3:ℕ) &&& 4 ≠ 0)), eq_true (by decide : ((3:ℕ) &&& 2 ≠ 0)), eq_true (by decide : ((3:ℕ) &&& 1 ≠ 0)), if_true, if_false]
    rw [store1_skip, store1_skip, store1_skip, store1_skip, store2_skip, store2_skip, store2_skip, store2_skip]
    all_goals omega
  · simp only [eq_true (by decide : ((4:ℕ) &&& 4 ≠ 0)), eq_false (by decide : ¬((4:ℕ) &&& 2 ≠ 0)), eq_false (by decide : ¬((4:ℕ) &&& 1 ≠ 0)), if_true, if_false]
    rw [store4_skip, store4_skip, store4_skip, store4_skip]
    all_goals omega
  · simp only [eq_true (by decide : ((5:ℕ) &&& 4 ≠ 0)), eq_false (by decide : ¬((5:ℕ) &&& 2 ≠ 0)), eq_true (by decide : ((5:ℕ) &&& 1 ≠ 0)), if_true, if_false]
    rw [store1_skip, store1_skip, store1_skip, store1_skip, store4_skip, store4_skip, store4_skip, store4_skip]
    all_goals omega
  · simp only [eq_true (by decide : ((6:ℕ) &&& 4 ≠ 0)), eq_true (by decide : ((6:ℕ) &&& 2 ≠ 0)), eq_false (by decide : ¬((6:ℕ) &&& 1 ≠ 0)), if_true, if_false]
    rw [store2_skip, store2_skip, store2_skip, store2_skip, store4_skip, store4_skip, store4_skip, store4_skip]
    all_goals omega
  · simp only [eq_true (by decide : ((7:ℕ) &&& 4 ≠ 0)), eq_true (by decide : ((7:ℕ) &&& 2 ≠ 0)), eq_true (by decide : ((7:ℕ) &&& 1 ≠ 0)), if_true, if_false]
    rw [store1_skip, store1_skip, store1_skip, store1_skip, store2_skip, store2_skip, store2_skip, store2_skip, store4_skip, store4_skip, store4_skip, store4_skip]
    all_goals omega

theorem groupStoreFull_read3 (m : ℕ → ℚ) (p0 p1 p2 p3 : ℕ)
    (v00 v01 v10 v11 v20 v21 v30 v31 : Q4) (t : ℕ) (ht : t < 8) :
    groupStoreFull m p0 p1 p2 p3 v00 v01 v10 v11 v20 v21 v30 v31 (p3 + t)
      = lane8 v30 v31 t := by
  interval_cases t
  · simp only [groupStoreFull]
    rw [store4_apply, store4_apply]
    rw [if_neg, if_neg, if_neg, if_neg, if_neg, if_neg, if_neg, if_pos]
    · norm_num [lane8, q4lane]
    all_goals omega
  · simp only [groupStoreFull]
    rw [store4_apply, store4_apply]
    rw [if_neg, if_neg, if_neg, if_neg, if_neg, if_neg, if_pos]
    · norm_num [lane8, q4lane]
    all_goals omega
  · simp only [groupStoreFull]
    rw [store4_apply, store4_apply]
    rw [if_neg, if_neg, if_neg, if_neg, if_neg, if_pos]
    · norm_num [lane8, q4lane]
    all_goals omega
  · simp only [groupStoreFull]
    rw [store4_apply, store4_apply]
    rw [if_neg, if_neg, if_neg, if_neg, if_pos]
    · norm_num [lane8, q4lane]
    all_goals omega
  · simp only [groupStoreFull]
    rw [store4_apply, store4_apply]
    rw [if_neg, if_neg, if_neg, if_pos]
    · norm_num [lane8, q4lane]
    all_goals omega
  · simp only [groupStoreFull]
    rw [store4_apply, store4_apply]
    rw [if_neg, if_neg, if_pos]
    · norm_num [lane8, q4lane]
    all_goals omega
  · simp only [groupStoreFull]
    rw [store4_apply, store4_apply]
    rw [if_neg, if_pos]
    · norm_num [lane8, q4lane]
    all_goals omega
  · simp only [groupStoreFull]
    rw [store4_apply, store4_apply]
    rw [if_pos]
    · norm_num [lane8, q4lane]
    all_goals omega

theorem groupStoreFull_read2 (m : ℕ → ℚ) (p0 p1 p2 p3 : ℕ)
    (v00 v01 v10 v11 v20 v21 v30 v31 : Q4) (t : ℕ) (ht : t < 8)
    (h3 : p2 + t < p3 ∨ p3 + 8 ≤ p2 + t) :
    groupStoreFull m p0 p1 p2 p3 v00 v01 v10 v11 v20 v21 v30 v31 (p2 + t)
      = lane8 v20 v21 t := by
  interval_cases t
  · simp only [groupStoreFull]
    rw [store4_apply, store4_apply, store4_apply, store4_apply]
    rw [if_neg, if_neg, if_neg, if_neg, if_neg, if_neg, if_neg, if_neg, if_neg, if_neg, if_neg, if_neg, if_neg, if_neg, if_neg, if_pos]
    · norm_num [lane8, q4lane]
    all_goals omega
  · simp only [groupStoreFull]
    rw [store4_apply, store4_apply, store4_apply, store4_apply]
    rw [if_neg, if_neg, if_neg, if_neg, if_neg, if_neg, if_neg, if_neg, if_neg, if_neg, if_neg, if_neg, if_neg, if_neg, if_pos]
    · norm_num [lane8, q4lane]
    all_goals omega
  · simp only [groupStoreFull]
    rw [store4_apply, store4_apply, store4_apply, store4_apply]
    rw [if_neg, if_neg, if_neg, if_neg, if_neg, if_neg, if_neg, if_neg, if_neg, if_neg, if_neg, if_neg, if_neg, if_pos]
    · norm_num [lane8, q4lane]
    all_goals omega
  · simp only [groupStoreFull]
    rw [store4_apply, store4_apply, store4_apply, store4_apply]
    rw [if_neg, if_neg, if_neg, if_neg, if_neg, if_neg, if_neg, if_neg, if_neg, if_neg, if_neg, if_neg, if_pos]
    · norm_num [lane8, q4lane]
    all_goals omega
  · simp only [groupStoreFull]
    rw [store4_apply, store4_apply, store4_apply, store4_apply]
    rw [if_neg, if_neg, if_neg, if_neg, if_neg, if_neg, if_neg, if_neg, if_neg, if_neg, if_neg, if_pos]
    · norm_num [lane8, q4lane]
    all_goals omega
  · simp only [groupStoreFull]
    rw [store4_apply, store4_apply, store4_apply, store4_apply]
    rw [if_neg, if_neg, if_neg, if_neg, if_neg, if_neg, if_neg, if_neg, if_neg, if_neg, if_pos]
    · norm_num [lane8, q4lane]
    all_goals omega
  · simp only [groupStoreFull]
    rw [store4_apply, store4_apply, store4_apply, store4_apply]
    rw [if_neg, if_neg, if_neg, if_neg, if_neg, if_neg, if_neg, if_neg, if_neg, if_pos]
    · norm_num [lane8, q4lane]
    all_goals omega
  · simp only [groupStoreFull]
    rw [store4_apply, store4_apply, store4_apply, store4_apply]
    rw [if_neg, if_neg, if_neg, if_neg, if_neg, if_neg, if_neg, if_neg, if_pos]
    · norm_num [lane8, q4lane]
    all_goals omega

theorem groupStoreFull_read1 (m : ℕ → ℚ) (p0 p1 p2 p3 : ℕ)
    (v00 v01 v10 v11 v20 v21 v30 v31 : Q4) (t : ℕ) (ht : t < 8)
    (h3 : p1 + t < p3 ∨ p3 + 8 ≤ p1 + t)
    (h2 : p1 + t < p2 ∨ p2 + 8 ≤ p1 + t) :
    groupStoreFull m p0 p1 p2 p3 v00 v01 v10 v11 v20 v21 v30 v31 (p1 + t)
      = lane8 v10 v11 t := by
  interval_cases t
  · simp only [groupStoreFull]
    rw [store4_apply, store4_apply, store4_apply, store4_apply, store4_apply, store4_apply]
    rw [if_neg, if_neg, if_neg, if_neg, if_neg, if_neg, if_neg, if_neg, if_neg, if_neg, if_neg, if_neg, if_neg, if_neg, if_neg, if_neg, if_neg, if_neg, if_neg, if_neg, if_neg, if_neg, if_neg, if_pos]
    · norm_num [lane8, q4lane]
    all_goals omega
  · simp only [groupStoreFull]
    rw [store4_apply, store4_apply, store4_apply, store4_apply, store4_apply, store4_apply]
    rw [if_neg, if_neg, if_neg, if_neg, if_neg, if_neg, if_neg, if_neg, if_neg, if_neg, if_neg, if_neg, if_neg, if_neg, if_neg, if_neg, if_neg, if_neg, if_neg, if_neg, if_neg, if_neg, if_pos]
    · norm_num [lane8, q4lane]
    all_goals omega
  · simp only [groupStoreFull]
    rw [store4_apply, store4_apply, store4_apply, store4_apply, store4_apply, store4_apply]
    rw [if_neg, if_neg, if_neg, if_neg, if_neg, if_neg, if_neg, if_neg, if_neg, if_neg, if_neg, if_neg, if_neg, if_neg, if_neg, if_neg, if_neg, if_neg, if_neg, if_neg, if_neg, if_pos]
    · norm_num [lane8, q4lane]
    all_goals omega
  · simp only [groupStoreFull]
    rw [store4_apply, store4_apply, store4_apply, store4_apply, store4_apply, store4_apply]
    rw [if_neg, if_neg, if_neg, if_neg, if_neg, if_neg, if_neg, if_neg, if_neg, if_neg, if_neg, if_neg, if_neg, if_neg, if_neg, if_neg, if_neg, if_neg, if_neg, if_neg, if_pos]
    · norm_num [lane8, q4lane]
    all_goals omega
  · simp only [groupStoreFull]
    rw [store4_apply, store4_apply, store4_apply, store4_apply, store4_apply, store4_apply]
    rw [if_neg, if_neg, if_neg, if_neg, if_neg, if_neg, if_neg, if_neg, if_neg, if_neg, if_neg, if_neg, if_neg, if_neg, if_neg, if_neg, if_neg, if_neg, if_neg, if_pos]
    · norm_num [lane8, q4lane]
    all_goals omega
  · simp only [groupStoreFull]
    rw [store4_apply, store4_apply, store4_apply, store4_apply, store4_apply, store4_apply]
    rw [if_neg, if_neg, if_neg, if_neg, if_neg, if_neg, if_neg, if_neg, if_neg, if_neg, if_neg, if_neg, if_neg, if_neg, if_neg, if_neg, if_neg, if_neg, if_pos]
    · norm_num [lane8, q4lane]
    all_goals omega
  · simp only [groupStoreFull]
    rw [store4_apply, store4_apply, store4_apply, store4_apply, store4_apply, store4_apply]
    rw [if_neg, if_neg, if_neg, if_neg, if_neg, if_neg, if_neg, if_neg, if_neg, if_neg, if_neg, if_neg, if_neg, if_neg, if_neg, if_neg, if_neg, if_pos]
    · norm_num [lane8, q4lane]
    all_goals omega
  · simp only [groupStoreFull]
    rw [store4_apply, store4_apply, store4_apply, store4_apply, store4_apply, store4_apply]
    rw [if_neg, if_neg, if_neg, if_neg, if_neg, if_neg, if_neg, if_neg, if_neg, if_neg, if_neg, if_neg, if_neg, if_neg, if_neg, if_neg, if_pos]
    · norm_num [lane8, q4lane]
    all_goals omega

theorem groupStoreFull_read0 (m : ℕ → ℚ) (p0 p1 p2 p3 : ℕ)
    (v00 v01 v10 v11 v20 v21 v30 v31 : Q4) (t : ℕ) (ht : t < 8)
    (h3 : p0 + t < p3 ∨ p3 + 8 ≤ p0 + t)
    (h2 : p0 + t < p2 ∨ p2 + 8 ≤ p0 + t)
    (h1 : p0 + t < p1 ∨ p1 + 8 ≤ p0 + t) :
    groupStoreFull m p0 p1 p2 p3 v00 v01 v10 v11 v20 v21 v30 v31 (p0 + t)
      = lane8 v00 v01 t := by
  interval_cases t
  · simp only [groupStoreFull]
    rw [store4_apply, store4_apply, store4_apply, store4_apply, store4_apply, store4_apply, store4_apply, store4_apply]
    rw [if_neg, if_neg, if_neg, if_neg, if_neg, if_neg, if_neg, if_neg, if_neg, if_neg, if_neg, if_neg, if_neg, if_neg, if_neg, if_neg, if_neg, if_neg, if_neg, if_neg, if_neg, if_neg, if_neg, if_neg, if_neg, if_neg, if_neg, if_neg, if_neg, if_neg, if_neg, if_pos]
    · norm_num [lane8, q4lane]
    all_goals omega
  · simp only [groupStoreFull]
    rw [store4_apply, store4_apply, store4_apply, store4_apply, store4_apply, store4_apply, store4_apply, store4_apply]
    rw [if_neg, if_neg, if_neg, if_neg, if_neg, if_neg, if_neg, if_neg, if_neg, if_neg, if_neg, if_neg, if_neg, if_neg, if_neg, if_neg, if_neg, if_neg, if_neg, if_neg, if_neg, if_neg, if_neg, if_neg, if_neg, if_neg, if_neg, if_neg, if_neg, if_neg, if_pos]
    · norm_num [lane8, q4lane]
    all_goals omega
  · simp only [groupStoreFull]
    rw [store4_apply, store4_apply, store4_apply, store4_apply, store4_apply, store4_apply, store4_apply, store4_apply]
    rw [if_neg, if_neg, if_neg, if_neg, if_neg, if_neg, if_neg, if_neg, if_neg, if_neg, if_neg, if_neg, if_neg, if_neg, if_neg, if_neg, if_neg, if_neg, if_neg, if_neg, if_neg, if_neg, if_neg, if_neg, if_neg, if_neg, if_neg, if_neg, if_neg, if_pos]
    · norm_num [lane8, q4lane]
    all_goals omega
  · simp only [groupStoreFull]
    rw [store4_apply, store4_apply, store4_apply, store4_apply, store4_apply, store4_apply, store4_apply, store4_apply]
    rw [if_neg, if_neg, if_neg, if_neg, if_neg, if_neg, if_neg, if_neg, if_neg, if_neg, if_neg, if_neg, if_neg, if_neg, if_neg, if_neg, if_neg, if_neg, if_neg, if_neg, if_neg, if_neg, if_neg, if_neg, if_neg, if_neg, if_neg, if_neg, if_pos]
    · norm_num [lane8, q4lane]
    all_goals omega
  · simp only [groupStoreFull]
    rw [store4_apply, store4_apply, store4_apply, store4_apply, store4_apply, store4_apply, store4_apply, store4_apply]
    rw [if_neg, if_neg, if_neg, if_neg, if_neg, if_neg, if_neg, if_neg, if_neg, if_neg, if_neg, if_neg, if_neg, if_neg, if_neg, if_neg, if_neg, if_neg, if_neg, if_neg, if_neg, if_neg, if_neg, if_neg, if_neg, if_neg, if_neg, if_pos]
    · norm_num [lane8, q4lane]
    all_goals omega
  · simp only [groupStoreFull]
    rw [store4_apply, store4_apply, store4_apply, store4_apply, store4_apply, store4_apply, store4_apply, store4_apply]
    rw [if_neg, if_neg, if_neg, if_neg, if_neg, if_neg, if_neg, if_neg, if_neg, if_neg, if_neg, if_neg, if_neg, if_neg, if_neg, if_neg, if_neg, if_neg, if_neg, if_neg, if_neg, if_neg, if_neg, if_neg, if_neg, if_neg, if_pos]
    · norm_num [lane8, q4lane]
    all_goals omega
  · simp only [groupStoreFull]
    rw [store4_apply, store4_apply, store4_apply, store4_apply, store4_apply, store4_apply, store4_apply, store4_apply]
    rw [if_neg, if_neg, if_neg, if_neg, if_neg, if_neg, if_neg, if_neg, if_neg, if_neg, if_neg, if_neg, if_neg, if_neg, if_neg, if_neg, if_neg, if_neg, if_neg, if_neg, if_neg, if_neg, if_neg, if_neg, if_neg, if_pos]
    · norm_num [lane8, q4lane]
    all_goals omega
  · simp only [groupStoreFull]
    rw [store4_apply, store4_apply, store4_apply, store4_apply, store4_apply, store4_apply, store4_apply, store4_apply]
    rw [if_neg, if_neg, if_neg, if_neg, if_neg, if_neg, if_neg, if_neg, if_neg, if_neg, if_neg, if_neg, if_neg, if_neg, if_neg, if_neg, if_neg, if_neg, if_neg, if_neg, if_neg, if_neg, if_neg, if_neg, if_pos]
    · norm_num [lane8, q4lane]
    all_goals omega

theorem groupStorePartial_read3 (m : ℕ → ℚ) (ncr : ℕ) (p0 p1 p2 p3 : ℕ)
    (v00 v01 v10 v11 v20 v21 v30 v31 : Q4) (t : ℕ) (hncr : ncr < 8) (ht : t < ncr)
    (h2 : p3 + t < p2 ∨ p2 + ncr ≤ p3 + t)
    (h1 : p3 + t < p1 ∨ p1 + ncr ≤ p3 + t)
    (h0 : p3 + t < p0 ∨ p0 + ncr ≤ p3 + t) :
    groupStorePartial m ncr p0 p1 p2 p3 v00 v01 v10 v11 v20 v21 v30 v31 (p3 + t)
      = lane8 v30 v31 t := by
  simp only [groupStorePartial]
  interval_cases ncr
  · omega
  · simp only [eq_false (by decide : ¬((1:ℕ) &&& 4 ≠ 0)), eq_false (by decide : ¬((1:ℕ) &&& 2 ≠ 0)), eq_true (by decide : ((1:ℕ) &&& 1 ≠ 0)), if_true, if_false]
    rw [store1_apply, store1_apply, store1_apply, store1_apply]
    interval_cases t
    · rw [if_pos]
      · norm_num [lane8, q4lane, shufHi]
      all_goals omega
  · simp only [eq_false (by decide : ¬((2:ℕ) &&& 4 ≠ 0)), eq_true (by decide : ((2:ℕ) &&& 2 ≠ 0)), eq_false (by decide : ¬((2:ℕ) &&& 1 ≠ 0)), if_true, if_false]
    rw [store2_apply, store2_apply, store2_apply, store2_apply]
    interval_cases t
    · rw [if_neg, if_pos]
      · norm_num [lane8, q4lane, shufHi]
      all_goals omega
    · rw [if_pos]
      · norm_num [lane8, q4lane, shufHi]
      all_goals omega
  · simp only [eq_false (by decide : ¬((3:ℕ) &&& 4 ≠ 0)), eq_true (by decide : ((3:ℕ) &&& 2 ≠ 0)), eq_true (by decide : ((3:ℕ) &&& 1 ≠ 0)), if_true, if_false]
    rw [store1_apply, store1_apply, store1_apply, store1_apply, store2_apply, store2_apply, store2_apply, store2_apply]
    interval_cases t
    · rw [if_neg, if_neg, if_neg, if_neg, if_neg, if_pos]
      · norm_num [lane8, q4lane, shufHi]
      all_goals omega
    · rw [if_neg, if_neg, if_neg, if_neg, if_pos]
      · norm_num [lane8, q4lane, shufHi]
      all_goals omega
    · rw [if_pos]
      · norm_num [lane8, q4lane, shufHi]
      all_goals omega
  · simp only [eq_true (by decide : ((4:ℕ) &&& 4 ≠ 0)), eq_false (by decide : ¬((4:ℕ) &&& 2 ≠ 0)), eq_false (by decide : ¬((4:ℕ) &&& 1 ≠ 0)), if_true, if_false]
    rw [store4_apply, store4_apply, store4_apply, store4_apply]
    interval_cases t
    · rw [if_neg, if_neg, if_neg, if_pos]
      · norm_num [lane8, q4lane, shufHi]
      all_goals omega
    · rw [if_neg, if_neg, if_pos]
      · norm_num [lane8, q4lane, shufHi]
      all_goals omega
    · rw [if_neg, if_pos]
      · norm_num [lane8, q4lane, shufHi]
      all_goals omega
    · rw [if_pos]
      · norm_num [lane8, q4lane, shufHi]
      all_goals omega
  · simp only [eq_true (by decide : ((5:ℕ) &&& 4 ≠ 0)), eq_false (by decide : ¬((5:ℕ) &&& 2 ≠ 0)), eq_true (by decide : ((5:ℕ) &&& 1 ≠ 0)), if_true, if_false]
    rw [store1_apply, store1_apply, store1_apply, store1_apply, store4_apply, store4_apply, store4_apply, store4_apply]
    interval_cases t
    · rw [if_neg, if_neg, if_neg, if_neg, if_neg, if_neg, if_neg, if_pos]
      · norm_num [lane8, q4lane, shufHi]
      all_goals omega
    · rw [if_neg, if_neg, if_neg, if_neg, if_neg, if_neg, if_pos]
      · norm_num [lane8, q4lane, shufHi]
      all_goals omega
    · rw [if_neg, if_neg, if_neg, if_neg, if_neg, if_pos]
      · norm_num [lane8, q4lane, shufHi]
      all_goals omega
    · rw [if_neg, if_neg, if_neg, if_neg, if_pos]
      · norm_num [lane8, q4lane, shufHi]
      all_goals omega
    · rw [if_pos]
      · norm_num [lane8, q4lane, shufHi]
      all_goals omega
  · simp only [eq_true (by decide : ((6:ℕ) &&& 4 ≠ 0)), eq_true (by decide : ((6:ℕ) &&& 2 ≠ 0)), eq_false (by decide : ¬((6:ℕ) &&& 1 ≠ 0)), if_true, if_false]
    rw [store2_apply, store2_apply, store2_apply, store2_apply, store4_apply, store4_apply, store4_apply, store4_apply]
    interval_cases t
    · rw [if_neg, if_neg, if_neg, if_neg, if_neg, if_neg, if_neg, if_neg, if_neg, if_neg, if_neg, if_pos]
      · norm_num [lane8, q4lane, shufHi]
      all_goals omega
    · rw [if_neg, if_neg, if_neg, if_neg, if_neg, if_neg, if_neg, if_neg, if_neg, if_neg, if_pos]
      · norm_num [lane8, q4lane, shufHi]
      all_goals omega
    · rw [if_neg, if_neg, if_neg, if_neg, if_neg, if_neg, if_neg, if_neg, if_neg, if_pos]
      · norm_num [lane8, q4lane, shufHi]
      all_goals omega
    · rw [if_neg, if_neg, if_neg, if_neg, if_neg, if_neg, if_neg, if_neg, if_pos]
      · norm_num [lane8, q4lane, shufHi]
      all_goals omega
    · rw [if_neg, if_pos]
      · norm_num [lane8, q4lane, shufHi]
      all_goals omega
    · rw [if_pos]
      · norm_num [lane8, q4lane, shufHi]
      all_goals omega
  · simp only [eq_true (by decide : ((7:ℕ) &&& 4 ≠ 0)), eq_true (by decide : ((7:ℕ) &&& 2 ≠ 0)), eq_true (by decide : ((7:ℕ) &&& 1 ≠ 0)), if_true, if_false]
    rw [store1_apply, store1_apply, store1_apply, store1_apply, store2_apply, store2_apply, store2_apply, store2_apply, store4_apply, store4_apply, store4_apply, store4_apply]
    interval_cases t
    · rw [if_neg, if_neg, if_neg, if_neg, if_neg, if_neg, if_neg, if_neg, if_neg, if_neg, if_neg, if_neg, if_neg, if_neg, if_neg, if_pos]
      · norm_num [lane8, q4lane, shufHi]
      all_goals omega
    · rw [if_neg, if_neg, if_neg, if_neg, if_neg, if_neg, if_neg, if_neg, if_neg, if_neg, if_neg, if_neg, if_neg, if_neg, if_pos]
      · norm_num [lane8, q4lane, shufHi]
      all_goals omega
    · rw [if_neg, if_neg, if_neg, if_neg, if_neg, if_neg, if_neg, if_neg, if_neg, if_neg, if_neg, if_neg, if_neg, if_pos]
      · norm_num [lane8, q4lane, shufHi]
      all_goals omega
    · rw [if_neg, if_neg, if_neg, if_neg, if_neg, if_neg, if_neg, if_neg, if_neg, if_neg, if_neg, if_neg, if_pos]
      · norm_num [lane8, q4lane, shufHi]
      all_goals omega
    · rw [if_neg, if_neg, if_neg, if_neg, if_neg, if_pos]
      · norm_num [lane8, q4lane, shufHi]
      all_goals omega
    · rw [if_neg, if_neg, if_neg, if_neg, if_pos]
      · norm_num [lane8, q4lane, shufHi]
      all_goals omega
    · rw [if_pos]
      · norm_num [lane8, q4lane, shufHi]
      all_goals omega

theorem groupStorePartial_read2 (m : ℕ → ℚ) (ncr : ℕ) (p0 p1 p2 p3 : ℕ)
    (v00 v01 v10 v11 v20 v21 v30 v31 : Q4) (t : ℕ) (hncr : ncr < 8) (ht : t < ncr)
    (h3 : p2 + t < p3 ∨ p3 + ncr ≤ p2 + t)
    (h1 : p2 + t < p1 ∨ p1 + ncr ≤ p2 + t)
    (h0 : p2 + t < p0 ∨ p0 + ncr ≤ p2 + t) :
    groupStorePartial m ncr p0 p1 p2 p3 v00 v01 v10 v11 v20 v21 v30 v31 (p2 + t)
      = lane8 v20 v21 t := by
  simp only [groupStorePartial]
  interval_cases ncr
  · omega
  · simp only [eq_false (by decide : ¬((1:ℕ) &&& 4 ≠ 0)), eq_false (by decide : ¬((1:ℕ) &&& 2 ≠ 0)), eq_true (by decide : ((1:ℕ) &&& 1 ≠ 0)), if_true, if_false]
    rw [store1_apply, store1_apply, store1_apply, store1_apply]
    interval_cases t
    · rw [if_neg, if_pos]
      · norm_num [lane8, q4lane, shufHi]
      all_goals omega
  · simp only [eq_false (by decide : ¬((2:ℕ) &&& 4 ≠ 0)), eq_true (by decide : ((2:ℕ) &&& 2 ≠ 0)), eq_false (by decide : ¬((2:ℕ) &&& 1 ≠ 0)), if_true, if_false]
    rw [store2_apply, store2_apply, store2_apply, store2_apply]
    interval_cases t
    · rw [if_neg, if_neg, if_neg, if_pos]
      · norm_num [lane8, q4lane, shufHi]
      all_goals omega
    · rw [if_neg, if_neg, if_pos]
      · norm_num [lane8, q4lane, shufHi]
      all_goals omega
  · simp only [eq_false (by decide : ¬((3:ℕ) &&& 4 ≠ 0)), eq_true (by decide : ((3:ℕ) &&& 2 ≠ 0)), eq_true (by decide : ((3:ℕ) &&& 1 ≠ 0)), if_true, if_false]
    rw [store1_apply, store1_apply, store1_apply, store1_apply, store2_apply, store2_apply, store2_apply, store2_apply]
    interval_cases t
    · rw [if_neg, if_neg, if_neg, if_neg, if_neg, if_neg, if_neg, if_pos]
      · norm_num [lane8, q4lane, shufHi]
      all_goals omega
    · rw [if_neg, if_neg, if_neg, if_neg, if_neg, if_neg, if_pos]
      · norm_num [lane8, q4lane, shufHi]
      all_goals omega
    · rw [if_neg, if_pos]
      · norm_num [lane8, q4lane, shufHi]
      all_goals omega
  · simp only [eq_true (by decide : ((4:ℕ) &&& 4 ≠ 0)), eq_false (by decide : ¬((4:ℕ) &&& 2 ≠ 0)), eq_false (by decide : ¬((4:ℕ) &&& 1 ≠ 0)), if_true, if_false]
    rw [store4_apply, store4_apply, store4_apply, store4_apply]
    interval_cases t
    · rw [if_neg, if_neg, if_neg, if_neg, if_neg, if_neg, if_neg, if_pos]
      · norm_num [lane8, q4lane, shufHi]
      all_goals omega
    · rw [if_neg, if_neg, if_neg, if_neg, if_neg, if_neg, if_pos]
      · norm_num [lane8, q4lane, shufHi]
      all_goals omega
    · rw [if_neg, if_neg, if_neg, if_neg, if_neg, if_pos]
      · norm_num [lane8, q4lane, shufHi]
      all_goals omega
    · rw [if_neg, if_neg, if_neg, if_neg, if_pos]
      · norm_num [lane8, q4lane, shufHi]
      all_goals omega
  · simp only [eq_true (by decide : ((5:ℕ) &&& 4 ≠ 0)), eq_false (by decide : ¬((5:ℕ) &&& 2 ≠ 0)), eq_true (by decide : ((5:ℕ) &&& 1 ≠ 0)), if_true, if_false]
    rw [store1_apply, store1_apply, store1_apply, store1_apply, store4_apply, store4_apply, store4_apply, store4_apply]
    interval_cases t
    · rw [if_neg, if_neg, if_neg, if_neg, if_neg, if_neg, if_neg, if_neg, if_neg, if_neg, if_neg, if_pos]
      · norm_num [lane8, q4lane, shufHi]
      all_goals omega
    · rw [if_neg, if_neg, if_neg, if_neg, if_neg, if_neg, if_neg, if_neg, if_neg, if_neg, if_pos]
      · norm_num [lane8, q4lane, shufHi]
      all_goals omega
    · rw [if_neg, if_neg, if_neg, if_neg, if_neg, if_neg, if_neg, if_neg, if_neg, if_pos]
      · norm_num [lane8, q4lane, shufHi]
      all_goals omega
    · rw [if_neg, if_neg, if_neg, if_neg, if_neg, if_neg, if_neg, if_neg, if_pos]
      · norm_num [lane8, q4lane, shufHi]
      all_goals omega
    · rw [if_neg, if_pos]
      · norm_num [lane8, q4lane, shufHi]
      all_goals omega
  · simp only [eq_true (by decide : ((6:ℕ) &&& 4 ≠ 0)), eq_true (by decide : ((6:ℕ) &&& 2 ≠ 0)), eq_false (by decide : ¬((6:ℕ) &&& 1 ≠ 0)), if_true, if_false]
    rw [store2_apply, store2_apply, store2_apply, store2_apply, store4_apply, store4_apply, store4_apply, store4_apply]
    interval_cases t
    · rw [if_neg, if_neg, if_neg, if_neg, if_neg, if_neg, if_neg, if_neg, if_neg, if_neg, if_neg, if_neg, if_neg, if_neg, if_neg, if_pos]
      · norm_num [lane8, q4lane, shufHi]
      all_goals omega
    · rw [if_neg, if_neg, if_neg, if_neg, if_neg, if_neg, if_neg, if_neg, if_neg, if_neg, if_neg, if_neg, if_neg, if_neg, if_pos]
      · norm_num [lane8, q4lane, shufHi]
      all_goals omega
    · rw [if_neg, if_neg, if_neg, if_neg, if_neg, if_neg, if_neg, if_neg, if_neg, if_neg, if_neg, if_neg, if_neg, if_pos]
      · norm_num [lane8, q4lane, shufHi]
      all_goals omega
    · rw [if_neg, if_neg, if_neg, if_neg, if_neg, if_neg, if_neg, if_neg, if_neg, if_neg, if_neg, if_neg, if_pos]
      · norm_num [lane8, q4lane, shufHi]
      all_goals omega
    · rw [if_neg, if_neg, if_neg, if_pos]
      · norm_num [lane8, q4lane, shufHi]
      all_goals omega
    · rw [if_neg, if_neg, if_pos]
      · norm_num [lane8, q4lane, shufHi]
      all_goals omega
  · simp only [eq_true (by decide : ((7:ℕ) &&& 4 ≠ 0)), eq_true (by decide : ((7:ℕ) &&& 2 ≠ 0)), eq_true (by decide : ((7:ℕ) &&& 1 ≠ 0)), if_true, if_false]
    rw [store1_apply, store1_apply, store1_apply, store1_apply, store2_apply, store2_apply, store2_apply, store2_apply, store4_apply, store4_apply, store4_apply, store4_apply]
    interval_cases t
    · rw [if_neg, if_neg, if_neg, if_neg, if_neg, if_neg, if_neg, if_neg, if_neg, if_neg, if_neg, if_neg, if_neg, if_neg, if_neg, if_neg, if_neg, if_neg, if_neg, if_pos]
      · norm_num [lane8, q4lane, shufHi]
      all_goals omega
    · rw [if_neg, if_neg, if_neg, if_neg, if_neg, if_neg, if_neg, if_neg, if_neg, if_neg, if_neg, if_neg, if_neg, if_neg, if_neg, if_neg, if_neg, if_neg, if_pos]
      · norm_num [lane8, q4lane, shufHi]
      all_goals omega
    · rw [if_neg, if_neg, if_neg, if_neg, if_neg, if_neg, if_neg, if_neg, if_neg, if_neg, if_neg, if_neg, if_neg, if_neg, if_neg, if_neg, if_neg, if_pos]
      · norm_num [lane8, q4lane, shufHi]
      all_goals omega
    · rw [if_neg, if_neg, if_neg, if_neg, if_neg, if_neg, if_neg, if_neg, if_neg, if_neg, if_neg, if_neg, if_neg, if_neg, if_neg, if_neg, if_pos]
      · norm_num [lane8, q4lane, shufHi]
      all_goals omega
    · rw [if_neg, if_neg, if_neg, if_neg, if_neg, if_neg, if_neg, if_pos]
      · norm_num [lane8, q4lane, shufHi]
      all_goals omega
    · rw [if_neg, if_neg, if_neg, if_neg, if_neg, if_neg, if_pos]
      · norm_num [lane8, q4lane, shufHi]
      all_goals omega
    · rw [if_neg, if_pos]
      · norm_num [lane8, q4lane, shufHi]
      all_goals omega

theorem groupStorePartial_read1 (m : ℕ → ℚ) (ncr : ℕ) (p0 p1 p2 p3 : ℕ)
    (v00 v01 v10 v11 v20 v21 v30 v31 : Q4) (t : ℕ) (hncr : ncr < 8) (ht : t < ncr)
    (h3 : p1 + t < p3 ∨ p3 + ncr ≤ p1 + t)
    (h2 : p1 + t < p2 ∨ p2 + ncr ≤ p1 + t)
    (h0 : p1 + t < p0 ∨ p0 + ncr ≤ p1 + t) :
    groupStorePartial m ncr p0 p1 p2 p3 v00 v01 v10 v11 v20 v21 v30 v31 (p1 + t)
      = lane8 v10 v11 t := by
  simp only [groupStorePartial]
  interval_cases ncr
  · omega
  · simp only [eq_false (by decide : ¬((1:ℕ) &&& 4 ≠ 0)), eq_false (by decide : ¬((1:ℕ) &&& 2 ≠ 0)), eq_true (by decide : ((1:ℕ) &&& 1 ≠ 0)), if_true, if_false]
    rw [store1_apply, store1_apply, store1_apply, store1_apply]
    interval_cases t
    · rw [if_neg, if_neg, if_pos]
      · norm_num [lane8, q4lane, shufHi]
      all_goals omega
  · simp only [eq_false (by decide : ¬((2:ℕ) &&& 4 ≠ 0)), eq_true (by decide : ((2:ℕ) &&& 2 ≠ 0)), eq_false (by decide : ¬((2:ℕ) &&& 1 ≠ 0)), if_true, if_false]
    rw [store2_apply, store2_apply, store2_apply, store2_apply]
    interval_cases t
    · rw [if_neg, if_neg, if_neg, if_neg, if_neg, if_pos]
      · norm_num [lane8, q4lane, shufHi]
      all_goals omega
    · rw [if_neg, if_neg, if_neg, if_neg, if_pos]
      · norm_num [lane8, q4lane, shufHi]
      all_goals omega
  · simp only [eq_false (by decide : ¬((3:ℕ) &&& 4 ≠ 0)), eq_true (by decide : ((3:ℕ) &&& 2 ≠ 0)), eq_true (by decide : ((3:ℕ) &&& 1 ≠ 0)), if_true, if_false]
    rw [store1_apply, store1_apply, store1_apply, store1_apply, store2_apply, store2_apply, store2_apply, store2_apply]
    interval_cases t
    · rw [if_neg, if_neg, if_neg, if_neg, if_neg, if_neg, if_neg, if_neg, if_neg, if_pos]
      · norm_num [lane8, q4lane, shufHi]
      all_goals omega
    · rw [if_neg, if_neg, if_neg, if_neg, if_neg, if_neg, if_neg, if_neg, if_pos]
      · norm_num [lane8, q4lane, shufHi]
      all_goals omega
    · rw [if_neg, if_neg, if_pos]
      · norm_num [lane8, q4lane, shufHi]
      all_goals omega
  · simp only [eq_true (by decide : ((4:ℕ) &&& 4 ≠ 0)), eq_false (by decide : ¬((4:ℕ) &&& 2 ≠ 0)), eq_false (by decide : ¬((4:ℕ) &&& 1 ≠ 0)), if_true, if_false]
    rw [store4_apply, store4_apply, store4_apply, store4_apply]
    interval_cases t
    · rw [if_neg, if_neg, if_neg, if_neg, if_neg, if_neg, if_neg, if_neg, if_neg, if_neg, if_neg, if_pos]
      · norm_num [lane8, q4lane, shufHi]
      all_goals omega
    · rw [if_neg, if_neg, if_neg, if_neg, if_neg, if_neg, if_neg, if_neg, if_neg, if_neg, if_pos]
      · norm_num [lane8, q4lane, shufHi]
      all_goals omega
    · rw [if_neg, if_neg, if_neg, if_neg, if_neg, if_neg, if_neg, if_neg, if_neg, if_pos]
      · norm_num [lane8, q4lane, shufHi]
      all_goals omega
    · rw [if_neg, if_neg, if_neg, if_neg, if_neg, if_neg, if_neg, if_neg, if_pos]
      · norm_num [lane8, q4lane, shufHi]
      all_goals omega
  · simp only [eq_true (by decide : ((5:ℕ) &&& 4 ≠ 0)), eq_false (by decide : ¬((5:ℕ) &&& 2 ≠ 0)), eq_true (by decide : ((5:ℕ) &&& 1 ≠ 0)), if_true, if_false]
    rw [store1_apply, store1_apply, store1_apply, store1_apply, store4_apply, store4_apply, store4_apply, store4_apply]
    interval_cases t
    · rw [if_neg, if_neg, if_neg, if_neg, if_neg, if_neg, if_neg, if_neg, if_neg, if_neg, if_neg, if_neg, if_neg, if_neg, if_neg, if_pos]
      · norm_num [lane8, q4lane, shufHi]
      all_goals omega
    · rw [if_neg, if_neg, if_neg, if_neg, if_neg, if_neg, if_neg, if_neg, if_neg, if_neg, if_neg, if_neg, if_neg, if_neg, if_pos]
      · norm_num [lane8, q4lane, shufHi]
      all_goals omega
    · rw [if_neg, if_neg, if_neg, if_neg, if_neg, if_neg, if_neg, if_neg, if_neg, if_neg, if_neg, if_neg, if_neg, if_pos]
      · norm_num [lane8, q4lane, shufHi]
      all_goals omega
    · rw [if_neg, if_neg, if_neg, if_neg, if_neg, if_neg, if_neg, if_neg, if_neg, if_neg, if_neg, if_neg, if_pos]
      · norm_num [lane8, q4lane, shufHi]
      all_goals omega
    · rw [if_neg, if_neg, if_pos]
      · norm_num [lane8, q4lane, shufHi]
      all_goals omega
  · simp only [eq_true (by decide : ((6:ℕ) &&& 4 ≠ 0)), eq_true (by decide : ((6:ℕ) &&& 2 ≠ 0)), eq_false (by decide : ¬((6:ℕ) &&& 1 ≠ 0)), if_true, if_false]
    rw [store2_apply, store2_apply, store2_apply, store2_apply, store4_apply, store4_apply, store4_apply, store4_apply]
    interval_cases t
    · rw [if_neg, if_neg, if_neg, if_neg, if_neg, if_neg, if_neg, if_neg, if_neg, if_neg, if_neg, if_neg, if_neg, if_neg, if_neg, if_neg, if_neg, if_neg, if_neg, if_pos]
      · norm_num [lane8, q4lane, shufHi]
      all_goals omega
    · rw [if_neg, if_neg, if_neg, if_neg, if_neg, if_neg, if_neg, if_neg, if_neg, if_neg, if_neg, if_neg, if_neg, if_neg, if_neg, if_neg, if_neg, if_neg, if_pos]
      · norm_num [lane8, q4lane, shufHi]
      all_goals omega
    · rw [if_neg, if_neg, if_neg, if_neg, if_neg, if_neg, if_neg, if_neg, if_neg, if_neg, if_neg, if_neg, if_neg, if_neg, if_neg, if_neg, if_neg, if_pos]
      · norm_num [lane8, q4lane, shufHi]
      all_goals omega
    · rw [if_neg, if_neg, if_neg, if_neg, if_neg, if_neg, if_neg, if_neg, if_neg, if_neg, if_neg, if_neg, if_neg, if_neg, if_neg, if_neg, if_pos]
      · norm_num [lane8, q4lane, shufHi]
      all_goals omega
    · rw [if_neg, if_neg, if_neg, if_neg, if_neg, if_pos]
      · norm_num [lane8, q4lane, shufHi]
      all_goals omega
    · rw [if_neg, if_neg, if_neg, if_neg, if_pos]
      · norm_num [lane8, q4lane, shufHi]
      all_goals omega
  · simp only [eq_true (by decide : ((7:ℕ) &&& 4 ≠ 0)), eq_true (by decide : ((7:ℕ) &&& 2 ≠ 0)), eq_true (by decide : ((7:ℕ) &&& 1 ≠ 0)), if_true, if_false]
    rw [store1_apply, store1_apply, store1_apply, store1_apply, store2_apply, store2_apply, store2_apply, store2_apply, store4_apply, store4_apply, store4_apply, store4_apply]
    interval_cases t
    · rw [if_neg, if_neg, if_neg, if_neg, if_neg, if_neg, if_neg, if_neg, if_neg, if_neg, if_neg, if_neg, if_neg, if_neg, if_neg, if_neg, if_neg, if_neg, if_neg, if_neg, if_neg, if_neg, if_neg, if_pos]
      · norm_num [lane8, q4lane, shufHi]
      all_goals omega
    · rw [if_neg, if_neg, if_neg, if_neg, if_neg, if_neg, if_neg, if_neg, if_neg, if_neg, if_neg, if_neg, if_neg, if_neg, if_neg, if_neg, if_neg, if_neg, if_neg, if_neg, if_neg, if_neg, if_pos]
      · norm_num [lane8, q4lane, shufHi]
      all_goals omega
    · rw [if_neg, if_neg, if_neg, if_neg, if_neg, if_neg, if_neg, if_neg, if_neg, if_neg, if_neg, if_neg, if_neg, if_neg, if_neg, if_neg, if_neg, if_neg, if_neg, if_neg, if_neg, if_pos]
      · norm_num [lane8, q4lane, shufHi]
      all_goals omega
    · rw [if_neg, if_neg, if_neg, if_neg, if_neg, if_neg, if_neg, if_neg, if_neg, if_neg, if_neg, if_neg, if_neg, if_neg, if_neg, if_neg, if_neg, if_neg, if_neg, if_neg, if_pos]
      · norm_num [lane8, q4lane, shufHi]
      all_goals omega
    · rw [if_neg, if_neg, if_neg, if_neg, if_neg, if_neg, if_neg, if_neg, if_neg, if_pos]
      · norm_num [lane8, q4lane, shufHi]
      all_goals omega
    · rw [if_neg, if_neg, if_neg, if_neg, if_neg, if_neg, if_neg, if_neg, if_pos]
      · norm_num [lane8, q4lane, shufHi]
      all_goals omega
    · rw [if_neg, if_neg, if_pos]
      · norm_num [lane8, q4lane, shufHi]
      all_goals omega

theorem groupStorePartial_read0 (m : ℕ → ℚ) (ncr : ℕ) (p0 p1 p2 p3 : ℕ)
    (v00 v01 v10 v11 v20 v21 v30 v31 : Q4) (t : ℕ) (hncr : ncr < 8) (ht : t < ncr)
    (h3 : p0 + t < p3 ∨ p3 + ncr ≤ p0 + t)
    (h2 : p0 + t < p2 ∨ p2 + ncr ≤ p0 + t)
    (h1 : p0 + t < p1 ∨ p1 + ncr ≤ p0 + t) :
    groupStorePartial m ncr p0 p1 p2 p3 v00 v01 v10 v11 v20 v21 v30 v31 (p0 + t)
      = lane8 v00 v01 t := by
  simp only [groupStorePartial]
  interval_cases ncr
  · omega
  · simp only [eq_false (by decide : ¬((1:ℕ) &&& 4 ≠ 0)), eq_false (by decide : ¬((1:ℕ) &&& 2 ≠ 0)), eq_true (by decide : ((1:ℕ) &&& 1 ≠ 0)), if_true, if_false]
    rw [store1_apply, store1_apply, store1_apply, store1_apply]
    interval_cases t
    · rw [if_neg, if_neg, if_neg, if_pos]
      · norm_num [lane8, q4lane, shufHi]
      all_goals omega
  · simp only [eq_false (by decide : ¬((2:ℕ) &&& 4 ≠ 0)), eq_true (by decide : ((2:ℕ) &&& 2 ≠ 0)), eq_false (by decide : ¬((2:ℕ) &&& 1 ≠ 0)), if_true, if_false]
    rw [store2_apply, store2_apply, store2_apply, store2_apply]
    interval_cases t
    · rw [if_neg, if_neg, if_neg, if_neg, if_neg, if_neg, if_neg, if_pos]
      · norm_num [lane8, q4lane, shufHi]
      all_goals omega
    · rw [if_neg, if_neg, if_neg, if_neg, if_neg, if_neg, if_pos]
      · norm_num [lane8, q4lane, shufHi]
      all_goals omega
  · simp only [eq_false (by decide : ¬((3:ℕ) &&& 4 ≠ 0)), eq_true (by decide : ((3:ℕ) &&& 2 ≠ 0)), eq_true (by decide : ((3:ℕ) &&& 1 ≠ 0)), if_true, if_false]
    rw [store1_apply, store1_apply, store1_apply, store1_apply, store2_apply, store2_apply, store2_apply, store2_apply]
    interval_cases t
    · rw [if_neg, if_neg, if_neg, if_neg, if_neg, if_neg, if_neg, if_neg, if_neg, if_neg, if_neg, if_pos]
      · norm_num [lane8, q4lane, shufHi]
      all_goals omega
    · rw [if_neg, if_neg, if_neg, if_neg, if_neg, if_neg, if_neg, if_neg, if_neg, if_neg, if_pos]
      · norm_num [lane8, q4lane, shufHi]
      all_goals omega
    · rw [if_neg, if_neg, if_neg, if_pos]
      · norm_num [lane8, q4lane, shufHi]
      all_goals omega
  · simp only [eq_true (by decide : ((4:ℕ) &&& 4 ≠ 0)), eq_false (by decide : ¬((4:ℕ) &&& 2 ≠ 0)), eq_false (by decide : ¬((4:ℕ) &&& 1 ≠ 0)), if_true, if_false]
    rw [store4_apply, store4_apply, store4_apply, store4_apply]
    interval_cases t
    · rw [if_neg, if_neg, if_neg, if_neg, if_neg, if_neg, if_neg, if_neg, if_neg, if_neg, if_neg, if_neg, if_neg, if_neg, if_neg, if_pos]
      · norm_num [lane8, q4lane, shufHi]
      all_goals omega
    · rw [if_neg, if_neg, if_neg, if_neg, if_neg, if_neg, if_neg, if_neg, if_neg, if_neg, if_neg, if_neg, if_neg, if_neg, if_pos]
      · norm_num [lane8, q4lane, shufHi]
      all_goals omega
    · rw [if_neg, if_neg, if_neg, if_neg, if_neg, if_neg, if_neg, if_neg, if_neg, if_neg, if_neg, if_neg, if_neg, if_pos]
      · norm_num [lane8, q4lane, shufHi]
      all_goals omega
    · rw [if_neg, if_neg, if_neg, if_neg, if_neg, if_neg, if_neg, if_neg, if_neg, if_neg, if_neg, if_neg, if_pos]
      · norm_num [lane8, q4lane, shufHi]
      all_goals omega
  · simp only [eq_true (by decide : ((5:ℕ) &&& 4 ≠ 0)), eq_false (by decide : ¬((5:ℕ) &&& 2 ≠ 0)), eq_true (by decide : ((5:ℕ) &&& 1 ≠ 0)), if_true, if_false]
    rw [store1_apply, store1_apply, store1_apply, store1_apply, store4_apply, store4_apply, store4_apply, store4_apply]
    interval_cases t
    · rw [if_neg, if_neg, if_neg, if_neg, if_neg, if_neg, if_neg, if_neg, if_neg, if_neg, if_neg, if_neg, if_neg, if_neg, if_neg, if_neg, if_neg, if_neg, if_neg, if_pos]
      · norm_num [lane8, q4lane, shufHi]
      all_goals omega
    · rw [if_neg, if_neg, if_neg, if_neg, if_neg, if_neg, if_neg, if_neg, if_neg, if_neg, if_neg, if_neg, if_neg, if_neg, if_neg, if_neg, if_neg, if_neg, if_pos]
      · norm_num [lane8, q4lane, shufHi]
      all_goals omega
    · rw [if_neg, if_neg, if_neg, if_neg, if_neg, if_neg, if_neg, if_neg, if_neg, if_neg, if_neg, if_neg, if_neg, if_neg, if_neg, if_neg, if_neg, if_pos]
      · norm_num [lane8, q4lane, shufHi]
      all_goals omega
    · rw [if_neg, if_neg, if_neg, if_neg, if_neg, if_neg, if_neg, if_neg, if_neg, if_neg, if_neg, if_neg, if_neg, if_neg, if_neg, if_neg, if_pos]
      · norm_num [lane8, q4lane, shufHi]
      all_goals omega
    · rw [if_neg, if_neg, if_neg, if_pos]
      · norm_num [lane8, q4lane, shufHi]
      all_goals omega
  · simp only [eq_true (by decide : ((6:ℕ) &&& 4 ≠ 0)), eq_true (by decide : ((6:ℕ) &&& 2 ≠ 0)), eq_false (by decide : ¬((6:ℕ) &&& 1 ≠ 0)), if_true, if_false]
    rw [store2_apply, store2_apply, store2_apply, store2_apply, store4_apply, store4_apply, store4_apply, store4_apply]
    interval_cases t
    · rw [if_neg, if_neg, if_neg, if_neg, if_neg, if_neg, if_neg, if_neg, if_neg, if_neg, if_neg, if_neg, if_neg, if_neg, if_neg, if_neg, if_neg, if_neg, if_neg, if_neg, if_neg, if_neg, if_neg, if_pos]
      · norm_num [lane8, q4lane, shufHi]
      all_goals omega
    · rw [if_neg, if_neg, if_neg, if_neg, if_neg, if_neg, if_neg, if_neg, if_neg, if_neg, if_neg, if_neg, if_neg, if_neg, if_neg, if_neg, if_neg, if_neg, if_neg, if_neg, if_neg, if_neg, if_pos]
      · norm_num [lane8, q4lane, shufHi]
      all_goals omega
    · rw [if_neg, if_neg, if_neg, if_neg, if_neg, if_neg, if_neg, if_neg, if_neg, if_neg, if_neg, if_neg, if_neg, if_neg, if_neg, if_neg, if_neg, if_neg, if_neg, if_neg, if_neg, if_pos]
      · norm_num [lane8, q4lane, shufHi]
      all_goals omega
    · rw [if_neg, if_neg, if_neg, if_neg, if_neg, if_neg, if_neg, if_neg, if_neg, if_neg, if_neg, if_neg, if_neg, if_neg, if_neg, if_neg, if_neg, if_neg, if_neg, if_neg, if_pos]
      · norm_num [lane8, q4lane, shufHi]
      all_goals omega
    · rw [if_neg, if_neg, if_neg, if_neg, if_neg, if_neg, if_neg, if_pos]
      · norm_num [lane8, q4lane, shufHi]
      all_goals omega
    · rw [if_neg, if_neg, if_neg, if_neg, if_neg, if_neg, if_pos]
      · norm_num [lane8, q4lane, shufHi]
      all_goals omega
  · simp only [eq_true (by decide : ((7:ℕ) &&& 4 ≠ 0)), eq_true (by decide : ((7:ℕ) &&& 2 ≠ 0)), eq_true (by decide : ((7:ℕ) &&& 1 ≠ 0)), if_true, if_false]
    rw [store1_apply, store1_apply, store1_apply, store1_apply, store2_apply, store2_apply, store2_apply, store2_apply, store4_apply, store4_apply, store4_apply, store4_apply]
    interval_cases t
    · rw [if_neg, if_neg, if_neg, if_neg, if_neg, if_neg, if_neg, if_neg, if_neg, if_neg, if_neg, if_neg, if_neg, if_neg, if_neg, if_neg, if_neg, if_neg, if_neg, if_neg, if_neg, if_neg, if_neg, if_neg, if_neg, if_neg, if_neg, if_pos]
      · norm_num [lane8, q4lane, shufHi]
      all_goals omega
    · rw [if_neg, if_neg, if_neg, if_neg, if_neg, if_neg, if_neg, if_neg, if_neg, if_neg, if_neg, if_neg, if_neg, if_neg, if_neg, if_neg, if_neg, if_neg, if_neg, if_neg, if_neg, if_neg, if_neg, if_neg, if_neg, if_neg, if_pos]
      · norm_num [lane8, q4lane, shufHi]
      all_goals omega
    · rw [if_neg, if_neg, if_neg, if_neg, if_neg, if_neg, if_neg, if_neg, if_neg, if_neg, if_neg, if_neg, if_neg, if_neg, if_neg, if_neg, if_neg, if_neg, if_neg, if_neg, if_neg, if_neg, if_neg, if_neg, if_neg, if_pos]
      · norm_num [lane8, q4lane, shufHi]
      all_goals omega
    · rw [if_neg, if_neg, if_neg, if_neg, if_neg, if_neg, if_neg, if_neg, if_neg, if_neg, if_neg, if_neg, if_neg, if_neg, if_neg, if_neg, if_neg, if_neg, if_neg, if_neg, if_neg, if_neg, if_neg, if_neg, if_pos]
      · norm_num [lane8, q4lane, shufHi]
      all_goals omega
    · rw [if_neg, if_neg, if_neg, if_neg, if_neg, if_neg, if_neg, if_neg, if_neg, if_neg, if_neg, if_pos]
      · norm_num [lane8, q4lane, shufHi]
      all_goals omega
    · rw [if_neg, if_neg, if_neg, if_neg, if_neg, if_neg, if_neg, if_neg, if_neg, if_neg, if_pos]
      · norm_num [lane8, q4lane, shufHi]
      all_goals omega
    · rw [if_neg, if_neg, if_neg, if_pos]
      · norm_num [lane8, q4lane, shufHi]
      all_goals omega

theorem groupStorePartial_top2 (m : ℕ → ℚ) (ncr : ℕ) (p0 p1 P : ℕ)
    (v00 v01 v10 v11 V0 V1 : Q4) (t : ℕ) (hncr : ncr < 8) (ht : t < ncr)
    (h1 : P + t < p1 ∨ p1 + ncr ≤ P + t)
    (h0 : P + t < p0 ∨ p0 + ncr ≤ P + t) :
    groupStorePartial m ncr p0 p1 P P v00 v01 v10 v11 V0 V1 V0 V1 (P + t)
      = lane8 V0 V1 t := by
  simp only [groupStorePartial]
  interval_cases ncr
  · omega
  · simp only [eq_false (by decide : ¬((1:ℕ) &&& 4 ≠ 0)), eq_false (by decide : ¬((1:ℕ) &&& 2 ≠ 0)), eq_true (by decide : ((1:ℕ) &&& 1 ≠ 0)), if_true, if_false]
    rw [store1_apply, store1_apply, store1_apply, store1_apply]
    interval_cases t
    · rw [if_pos]
      · norm_num [lane8, q4lane, shufHi]
      all_goals omega
  · simp only [eq_false (by decide : ¬((2:ℕ) &&& 4 ≠ 0)), eq_true (by decide : ((2:ℕ) &&& 2 ≠ 0)), eq_false (by decide : ¬((2:ℕ) &&& 1 ≠ 0)), if_true, if_false]
    rw [store2_apply, store2_apply, store2_apply, store2_apply]
    interval_cases t
    · rw [if_neg, if_pos]
      · norm_num [lane8, q4lane, shufHi]
      all_goals omega
    · rw [if_pos]
      · norm_num [lane8, q4lane, shufHi]
      all_goals omega
  · simp only [eq_false (by decide : ¬((3:ℕ) &&& 4 ≠ 0)), eq_true (by decide : ((3:ℕ) &&& 2 ≠ 0)), eq_true (by decide : ((3:ℕ) &&& 1 ≠ 0)), if_true, if_false]
    rw [store1_apply, store1_apply, store1_apply, store1_apply, store2_apply, store2_apply, store2_apply, store2_apply]
    interval_cases t
    · rw [if_neg, if_neg, if_neg, if_neg, if_neg, if_pos]
      · norm_num [lane8, q4lane, shufHi]
      all_goals omega
    · rw [if_neg, if_neg, if_neg, if_neg, if_pos]
      · norm_num [lane8, q4lane, shufHi]
      all_goals omega
    · rw [if_pos]
      · norm_num [lane8, q4lane, shufHi]
      all_goals omega
  · simp only [eq_true (by decide : ((4:ℕ) &&& 4 ≠ 0)), eq_false (by decide : ¬((4:ℕ) &&& 2 ≠ 0)), eq_false (by decide : ¬((4:ℕ) &&& 1 ≠ 0)), if_true, if_false]
    rw [store4_apply, store4_apply, store4_apply, store4_apply]
    interval_cases t
    · rw [if_neg, if_neg, if_neg, if_pos]
      · norm_num [lane8, q4lane, shufHi]
      all_goals omega
    · rw [if_neg, if_neg, if_pos]
      · norm_num [lane8, q4lane, shufHi]
      all_goals omega
    · rw [if_neg, if_pos]
      · norm_num [lane8, q4lane, shufHi]
      all_goals omega
    · rw [if_pos]
      · norm_num [lane8, q4lane, shufHi]
      all_goals omega
  · simp only [eq_true (by decide : ((5:ℕ) &&& 4 ≠ 0)), eq_false (by decide : ¬((5:ℕ) &&& 2 ≠ 0)), eq_true (by decide : ((5:ℕ) &&& 1 ≠ 0)), if_true, if_false]
    rw [store1_apply, store1_apply, store1_apply, store1_apply, store4_apply, store4_apply, store4_apply, store4_apply]
    interval_cases t
    · rw [if_neg, if_neg, if_neg, if_neg, if_neg, if_neg, if_neg, if_pos]
      · norm_num [lane8, q4lane, shufHi]
      all_goals omega
    · rw [if_neg, if_neg, if_neg, if_neg, if_neg, if_neg, if_pos]
      · norm_num [lane8, q4lane, shufHi]
      all_goals omega
    · rw [if_neg, if_neg, if_neg, if_neg, if_neg, if_pos]
      · norm_num [lane8, q4lane, shufHi]
      all_goals omega
    · rw [if_neg, if_neg, if_neg, if_neg, if_pos]
      · norm_num [lane8, q4lane, shufHi]
      all_goals omega
    · rw [if_pos]
      · norm_num [lane8, q4lane, shufHi]
      all_goals omega
  · simp only [eq_true (by decide : ((6:ℕ) &&& 4 ≠ 0)), eq_true (by decide : ((6:ℕ) &&& 2 ≠ 0)), eq_false (by decide : ¬((6:ℕ) &&& 1 ≠ 0)), if_true, if_false]
    rw [store2_apply, store2_apply, store2_apply, store2_apply, store4_apply, store4_apply, store4_apply, store4_apply]
    interval_cases t
    · rw [if_neg, if_neg, if_neg, if_neg, if_neg, if_neg, if_neg, if_neg, if_neg, if_neg, if_neg, if_pos]
      · norm_num [lane8, q4lane, shufHi]
      all_goals omega
    · rw [if_neg, if_neg, if_neg, if_neg, if_neg, if_neg, if_neg, if_neg, if_neg, if_neg, if_pos]
      · norm_num [lane8, q4lane, shufHi]
      all_goals omega
    · rw [if_neg, if_neg, if_neg, if_neg, if_neg, if_neg, if_neg, if_neg, if_neg, if_pos]
      · norm_num [lane8, q4lane, shufHi]
      all_goals omega
    · rw [if_neg, if_neg, if_neg, if_neg, if_neg, if_neg, if_neg, if_neg, if_pos]
      · norm_num [lane8, q4lane, shufHi]
      all_goals omega
    · rw [if_neg, if_pos]
      · norm_num [lane8, q4lane, shufHi]
      all_goals omega
    · rw [if_pos]
      · norm_num [lane8, q4lane, shufHi]
      all_goals omega
  · simp only [eq_true (by decide : ((7:ℕ) &&& 4 ≠ 0)), eq_true (by decide : ((7:ℕ) &&& 2 ≠ 0)), eq_true (by decide : ((7:ℕ) &&& 1 ≠ 0)), if_true, if_false]
    rw [store1_apply, store1_apply, store1_apply, store1_apply, store2_apply, store2_apply, store2_apply, store2_apply, store4_apply, store4_apply, store4_apply, store4_apply]
    interval_cases t
    · rw [if_neg, if_neg, if_neg, if_neg, if_neg, if_neg, if_neg, if_neg, if_neg, if_neg, if_neg, if_neg, if_neg, if_neg, if_neg, if_pos]
      · norm_num [lane8, q4lane, shufHi]
      all_goals omega
    · rw [if_neg, if_neg, if_neg, if_neg, if_neg, if_neg, if_neg, if_neg, if_neg, if_neg, if_neg, if_neg, if_neg, if_neg, if_pos]
      · norm_num [lane8, q4lane, shufHi]
      all_goals omega
    · rw [if_neg, if_neg, if_neg, if_neg, if_neg, if_neg, if_neg, if_neg, if_neg, if_neg, if_neg, if_neg, if_neg, if_pos]
      · norm_num [lane8, q4lane, shufHi]
      all_goals omega
    · rw [if_neg, if_neg, if_neg, if_neg, if_neg, if_neg, if_neg, if_neg, if_neg, if_neg, if_neg, if_neg, if_pos]
      · norm_num [lane8, q4lane, shufHi]
      all_goals omega
    · rw [if_neg, if_neg, if_neg, if_neg, if_neg, if_pos]
      · norm_num [lane8, q4lane, shufHi]
      all_goals omega
    · rw [if_neg, if_neg, if_neg, if_neg, if_pos]
      · norm_num [lane8, q4lane, shufHi]
      all_goals omega
    · rw [if_pos]
      · norm_num [lane8, q4lane, shufHi]
      all_goals omega

theorem groupStorePartial_top3 (m : ℕ → ℚ) (ncr : ℕ) (p0 P : ℕ)
    (v00 v01 V0 V1 : Q4) (t : ℕ) (hncr : ncr < 8) (ht : t < ncr)
    (h0 : P + t < p0 ∨ p0 + ncr ≤ P + t) :
    groupStorePartial m ncr p0 P P P v00 v01 V0 V1 V0 V1 V0 V1 (P + t)
      = lane8 V0 V1 t := by
  simp only [groupStorePartial]
  interval_cases ncr
  · omega
  · simp only [eq_false (by decide : ¬((1:ℕ) &&& 4 ≠ 0)), eq_false (by decide : ¬((1:ℕ) &&& 2 ≠ 0)), eq_true (by decide : ((1:ℕ) &&& 1 ≠ 0)), if_true, if_false]
    rw [store1_apply, store1_apply, store1_apply, store1_apply]
    interval_cases t
    · rw [if_pos]
      · norm_num [lane8, q4lane, shufHi]
      all_goals omega
  · simp only [eq_false (by decide : ¬((2:ℕ) &&& 4 ≠ 0)), eq_true (by decide : ((2:ℕ) &&& 2 ≠ 0)), eq_false (by decide : ¬((2:ℕ) &&& 1 ≠ 0)), if_true, if_false]
    rw [store2_apply, store2_apply, store2_apply, store2_apply]
    interval_cases t
    · rw [if_neg, if_pos]
      · norm_num [lane8, q4lane, shufHi]
      all_goals omega
    · rw [if_pos]
      · norm_num [lane8, q4lane, shufHi]
      all_goals omega
  · simp only [eq_false (by decide : ¬((3:ℕ) &&& 4 ≠ 0)), eq_true (by decide : ((3:ℕ) &&& 2 ≠ 0)), eq_true (by decide : ((3:ℕ) &&& 1 ≠ 0)), if_true, if_false]
    rw [store1_apply, store1_apply, store1_apply, store1_apply, store2_apply, store2_apply, store2_apply, store2_apply]
    interval_cases t
    · rw [if_neg, if_neg, if_neg, if_neg, if_neg, if_pos]
      · norm_num [lane8, q4lane, shufHi]
      all_goals omega
    · rw [if_neg, if_neg, if_neg, if_neg, if_pos]
      · norm_num [lane8, q4lane, shufHi]
      all_goals omega
    · rw [if_pos]
      · norm_num [lane8, q4lane, shufHi]
      all_goals omega
  · simp only [eq_true (by decide : ((4:ℕ) &&& 4 ≠ 0)), eq_false (by decide : ¬((4:ℕ) &&& 2 ≠ 0)), eq_false (by decide : ¬((4:ℕ) &&& 1 ≠ 0)), if_true, if_false]
    rw [store4_apply, store4_apply, store4_apply, store4_apply]
    interval_cases t
    · rw [if_neg, if_neg, if_neg, if_pos]
      · norm_num [lane8, q4lane, shufHi]
      all_goals omega
    · rw [if_neg, if_neg, if_pos]
      · norm_num [lane8, q4lane, shufHi]
      all_goals omega
    · rw [if_neg, if_pos]
      · norm_num [lane8, q4lane, shufHi]
      all_goals omega
    · rw [if_pos]
      · norm_num [lane8, q4lane, shufHi]
      all_goals omega
  · simp only [eq_true (by decide : ((5:ℕ) &&& 4 ≠ 0)), eq_false (by decide : ¬((5:ℕ) &&& 2 ≠ 0)), eq_true (by decide : ((5:ℕ) &&& 1 ≠ 0)), if_true, if_false]
    rw [store1_apply, store1_apply, store1_apply, store1_apply, store4_apply, store4_apply, store4_apply, store4_apply]
    interval_cases t
    · rw [if_neg, if_neg, if_neg, if_neg, if_neg, if_neg, if_neg, if_pos]
      · norm_num [lane8, q4lane, shufHi]
      all_goals omega
    · rw [if_neg, if_neg, if_neg, if_neg, if_neg, if_neg, if_pos]
      · norm_num [lane8, q4lane, shufHi]
      all_goals omega
    · rw [if_neg, if_neg, if_neg, if_neg, if_neg, if_pos]
      · norm_num [lane8, q4lane, shufHi]
      all_goals omega
    · rw [if_neg, if_neg, if_neg, if_neg, if_pos]
      · norm_num [lane8, q4lane, shufHi]
      all_goals omega
    · rw [if_pos]
      · norm_num [lane8, q4lane, shufHi]
      all_goals omega
  · simp only [eq_true (by decide : ((6:ℕ) &&& 4 ≠ 0)), eq_true (by decide : ((6:ℕ) &&& 2 ≠ 0)), eq_false (by decide : ¬((6:ℕ) &&& 1 ≠ 0)), if_true, if_false]
    rw [store2_apply, store2_apply, store2_apply, store2_apply, store4_apply, store4_apply, store4_apply, store4_apply]
    interval_cases t
    · rw [if_neg, if_neg, if_neg, if_neg, if_neg, if_neg, if_neg, if_neg, if_neg, if_neg, if_neg, if_pos]
      · norm_num [lane8, q4lane, shufHi]
      all_goals omega
    · rw [if_neg, if_neg, if_neg, if_neg, if_neg, if_neg, if_neg, if_neg, if_neg, if_neg, if_pos]
      · norm_num [lane8, q4lane, shufHi]
      all_goals omega
    · rw [if_neg, if_neg, if_neg, if_neg, if_neg, if_neg, if_neg, if_neg, if_neg, if_pos]
      · norm_num [lane8, q4lane, shufHi]
      all_goals omega
    · rw [if_neg, if_neg, if_neg, if_neg, if_neg, if_neg, if_neg, if_neg, if_pos]
      · norm_num [lane8, q4lane, shufHi]
      all_goals omega
    · rw [if_neg, if_pos]
      · norm_num [lane8, q4lane, shufHi]
      all_goals omega
    · rw [if_pos]
      · norm_num [lane8, q4lane, shufHi]
      all_goals omega
  · simp only [eq_true (by decide : ((7:ℕ) &&& 4 ≠ 0)), eq_true (by decide : ((7:ℕ) &&& 2 ≠ 0)), eq_true (by decide : ((7:ℕ) &&& 1 ≠ 0)), if_true, if_false]
    rw [store1_apply, store1_apply, store1_apply, store1_apply, store2_apply, store2_apply, store2_apply, store2_apply, store4_apply, store4_apply, store4_apply, store4_apply]
    interval_cases t
    · rw [if_neg, if_neg, if_neg, if_neg, if_neg, if_neg, if_neg, if_neg, if_neg, if_neg, if_neg, if_neg, if_neg, if_neg, if_neg, if_pos]
      · norm_num [lane8, q4lane, shufHi]
      all_goals omega
    · rw [if_neg, if_neg, if_neg, if_neg, if_neg, if_neg, if_neg, if_neg, if_neg, if_neg, if_neg, if_neg, if_neg, if_neg, if_pos]
      · norm_num [lane8, q4lane, shufHi]
      all_goals omega
    · rw [if_neg, if_neg, if_neg, if_neg, if_neg, if_neg, if_neg, if_neg, if_neg, if_neg, if_neg, if_neg, if_neg, if_pos]
      · norm_num [lane8, q4lane, shufHi]
      all_goals omega
    · rw [if_neg, if_neg, if_neg, if_neg, if_neg, if_neg, if_neg, if_neg, if_neg, if_neg, if_neg, if_neg, if_pos]
      · norm_num [lane8, q4lane, shufHi]
      all_goals omega
    · rw [if_neg, if_neg, if_neg, if_neg, if_neg, if_pos]
      · norm_num [lane8, q4lane, shufHi]
      all_goals omega
    · rw [if_neg, if_neg, if_neg, if_neg, if_pos]
      · norm_num [lane8, q4lane, shufHi]
      all_goals omega
    · rw [if_pos]
      · norm_num [lane8, q4lane, shufHi]
      all_goals omega

theorem groupStorePartial_top4 (m : ℕ → ℚ) (ncr : ℕ) (P : ℕ)
    (V0 V1 : Q4) (t : ℕ) (hncr : ncr < 8) (ht : t < ncr) :
    groupStorePartial m ncr P P P P V0 V1 V0 V1 V0 V1 V0 V1 (P + t)
      = lane8 V0 V1 t := by
  simp only [groupStorePartial]
  interval_cases ncr
  · omega
  · simp only [eq_false (by decide : ¬((1:ℕ) &&& 4 ≠ 0)), eq_false (by decide : ¬((1:ℕ) &&& 2 ≠ 0)), eq_true (by decide : ((1:ℕ) &&& 1 ≠ 0)), if_true, if_false]
    rw [store1_apply, store1_apply, store1_apply, store1_apply]
    interval_cases t
    · rw [if_pos]
      · norm_num [lane8, q4lane, shufHi]
      all_goals omega
  · simp only [eq_false (by decide : ¬((2:ℕ) &&& 4 ≠ 0)), eq_true (by decide : ((2:ℕ) &&& 2 ≠ 0)), eq_false (by decide : ¬((2:ℕ) &&& 1 ≠ 0)), if_true, if_false]
    rw [store2_apply, store2_apply, store2_apply, store2_apply]
    interval_cases t
    · rw [if_neg, if_pos]
      · norm_num [lane8, q4lane, shufHi]
      all_goals omega
    · rw [if_pos]
      · norm_num [lane8, q4lane, shufHi]
      all_goals omega
  · simp only [eq_false (by decide : ¬((3:ℕ) &&& 4 ≠ 0)), eq_true (by decide : ((3:ℕ) &&& 2 ≠ 0)), eq_true (by decide : ((3:ℕ) &&& 1 ≠ 0)), if_true, if_false]
    rw [store1_apply, store1_apply, store1_apply, store1_apply, store2_apply, store2_apply, store2_apply, store2_apply]
    interval_cases t
    · rw [if_neg, if_neg, if_neg, if_neg, if_neg, if_pos]
      · norm_num [lane8, q4lane, shufHi]
      all_goals omega
    · rw [if_neg, if_neg, if_neg, if_neg, if_pos]
      · norm_num [lane8, q4lane, shufHi]
      all_goals omega
    · rw [if_pos]
      · norm_num [lane8, q4lane, shufHi]
      all_goals omega
  · simp only [eq_true (by decide : ((4:ℕ) &&& 4 ≠ 0)), eq_false (by decide : ¬((4:ℕ) &&& 2 ≠ 0)), eq_false (by decide : ¬((4:ℕ) &&& 1 ≠ 0)), if_true, if_false]
    rw [store4_apply, store4_apply, store4_apply, store4_apply]
    interval_cases t
    · rw [if_neg, if_neg, if_neg, if_pos]
      · norm_num [lane8, q4lane, shufHi]
      all_goals omega
    · rw [if_neg, if_neg, if_pos]
      · norm_num [lane8, q4lane, shufHi]
      all_goals omega
    · rw [if_neg, if_pos]
      · norm_num [lane8, q4lane, shufHi]
      all_goals omega
    · rw [if_pos]
      · norm_num [lane8, q4lane, shufHi]
      all_goals omega
  · simp only [eq_true (by decide : ((5:ℕ) &&& 4 ≠ 0)), eq_false (by decide : ¬((5:ℕ) &&& 2 ≠ 0)), eq_true (by decide : ((5:ℕ) &&& 1 ≠ 0)), if_true, if_false]
    rw [store1_apply, store1_apply, store1_apply, store1_apply, store4_apply, store4_apply, store4_apply, store4_apply]
    interval_cases t
    · rw [if_neg, if_neg, if_neg, if_neg, if_neg, if_neg, if_neg, if_pos]
      · norm_num [lane8, q4lane, shufHi]
      all_goals omega
    · rw [if_neg, if_neg, if_neg, if_neg, if_neg, if_neg, if_pos]
      · norm_num [lane8, q4lane, shufHi]
      all_goals omega
    · rw [if_neg, if_neg, if_neg, if_neg, if_neg, if_pos]
      · norm_num [lane8, q4lane, shufHi]
      all_goals omega
    · rw [if_neg, if_neg, if_neg, if_neg, if_pos]
      · norm_num [lane8, q4lane, shufHi]
      all_goals omega
    · rw [if_pos]
      · norm_num [lane8, q4lane, shufHi]
      all_goals omega
  · simp only [eq_true (by decide : ((6:ℕ) &&& 4 ≠ 0)), eq_true (by decide : ((6:ℕ) &&& 2 ≠ 0)), eq_false (by decide : ¬((6:ℕ) &&& 1 ≠ 0)), if_true, if_false]
    rw [store2_apply, store2_apply, store2_apply, store2_apply, store4_apply, store4_apply, store4_apply, store4_apply]
    interval_cases t
    · rw [if_neg, if_neg, if_neg, if_neg, if_neg, if_neg, if_neg, if_neg, if_neg, if_neg, if_neg, if_pos]
      · norm_num [lane8, q4lane, shufHi]
      all_goals omega
    · rw [if_neg, if_neg, if_neg, if_neg, if_neg, if_neg, if_neg, if_neg, if_neg, if_neg, if_pos]
      · norm_num [lane8, q4lane, shufHi]
      all_goals omega
    · rw [if_neg, if_neg, if_neg, if_neg, if_neg, if_neg, if_neg, if_neg, if_neg, if_pos]
      · norm_num [lane8, q4lane, shufHi]
      all_goals omega
    · rw [if_neg, if_neg, if_neg, if_neg, if_neg, if_neg, if_neg, if_neg, if_pos]
      · norm_num [lane8, q4lane, shufHi]
      all_goals omega
    · rw [if_neg, if_pos]
      · norm_num [lane8, q4lane, shufHi]
      all_goals omega
    · rw [if_pos]
      · norm_num [lane8, q4lane, shufHi]
      all_goals omega
  · simp only [eq_true (by decide : ((7:ℕ) &&& 4 ≠ 0)), eq_true (by decide : ((7:ℕ) &&& 2 ≠ 0)), eq_true (by decide : ((7:ℕ) &&& 1 ≠ 0)), if_true, if_false]
    rw [store1_apply, store1_apply, store1_apply, store1_apply, store2_apply, store2_apply, store2_apply, store2_apply, store4_apply, store4_apply, store4_apply, store4_apply]
    interval_cases t
    · rw [if_neg, if_neg, if_neg, if_neg, if_neg, if_neg, if_neg, if_neg, if_neg, if_neg, if_neg, if_neg, if_neg, if_neg, if_neg, if_pos]
      · norm_num [lane8, q4lane, shufHi]
      all_goals omega
    · rw [if_neg, if_neg, if_neg, if_neg, if_neg, if_neg, if_neg, if_neg, if_neg, if_neg, if_neg, if_neg, if_neg, if_neg, if_pos]
      · norm_num [lane8, q4lane, shufHi]
      all_goals omega
    · rw [if_neg, if_neg, if_neg, if_neg, if_neg, if_neg, if_neg, if_neg, if_neg, if_neg, if_neg, if_neg, if_neg, if_pos]
      · norm_num [lane8, q4lane, shufHi]
      all_goals omega
    · rw [if_neg, if_neg, if_neg, if_neg, if_neg, if_neg, if_neg, if_neg, if_neg, if_neg, if_neg, if_neg, if_pos]
      · norm_num [lane8, q4lane, shufHi]
      all_goals omega
    · rw [if_neg, if_neg, if_neg, if_neg, if_neg, if_pos]
      · norm_num [lane8, q4lane, shufHi]
      all_goals omega
    · rw [if_neg, if_neg, if_neg, if_neg, if_pos]
      · norm_num [lane8, q4lane, shufHi]
      all_goals omega
    · rw [if_pos]
      · norm_num [lane8, q4lane, shufHi]
      all_goals omega

theorem lane8_cell (w : ℕ → WItem) (a : ℕ → ℤ) (gB kcr aoff : ℕ)
    (qp : QParams) (vmin vmax : ℚ) (j : ℕ) (hj : j < 8) :
    lane8 ⟨cellValue w a gB kcr aoff qp vmin vmax 0,
           cellValue w a gB kcr aoff qp vmin vmax 1,
           cellValue w a gB kcr aoff qp vmin vmax 2,
           cellValue w a gB kcr aoff qp vmin vmax 3⟩
          ⟨cellValue w a gB kcr aoff qp vmin vmax 4,
           cellValue w a gB kcr aoff qp vmin vmax 5,
           cellValue w a gB kcr aoff qp vmin vmax 6,
           cellValue w a gB kcr aoff qp vmin vmax 7⟩ j
      = cellValue w a gB kcr aoff qp vmin vmax j := by
  interval_cases j <;> norm_num [lane8, q4lane]

theorem gemmBody_apply (nc kcr : ℕ) (a : ℕ → ℤ) (w : ℕ → WItem)
    (cn_stride : ℕ) (vmin vmax : ℚ) (qp : ℕ → QParams)
    (a0 a1 a2 a3 c0 c1 c2 c3 : ℕ) (m : ℕ → ℚ) (g : ℕ) :
    gemmBody nc kcr a w cn_stride vmin vmax qp a0 a1 a2 a3 c0 c1 c2 c3 m g
      = if 8 ≤ nc - 8*g then
          groupStoreFull m (c0 + g*cn_stride) (c1 + g*cn_stride)
            (c2 + g*cn_stride) (c3 + g*cn_stride)
            (rowOut w a (g * (96 + 8*kcr)) kcr a0 (qp 0) vmin vmax).1
            (rowOut w a (g * (96 + 8*kcr)) kcr a0 (qp 0) vmin vmax).2
            (rowOut w a (g * (96 + 8*kcr)) kcr a1 (qp 1) vmin vmax).1
            (rowOut w a (g * (96 + 8*kcr)) kcr a1 (qp 1) vmin vmax).2
            (rowOut w a (g * (96 + 8*kcr)) kcr a2 (qp 2) vmin vmax).1
            (rowOut w a (g * (96 + 8*kcr)) kcr a2 (qp 2) vmin vmax).2
            (rowOut w a (g * (96 + 8*kcr)) kcr a3 (qp 3) vmin vmax).1
            (rowOut w a (g * (96 + 8*kcr)) kcr a3 (qp 3) vmin vmax).2
        else
          groupStorePartial m (nc - 8*g) (c0 + g*cn_stride) (c1 + g*cn_stride)
            (c2 + g*cn_stride) (c3 + g*cn_stride)
            (rowOut w a (g * (96 + 8*kcr)) kcr a0 (qp 0) vmin vmax).1
            (rowOut w a (g * (96 + 8*kcr)) kcr a0 (qp 0) vmin vmax).2
            (rowOut w a (g * (96 + 8*kcr)) kcr a1 (qp 1) vmin vmax).1
            (rowOut w a (g * (96 + 8*kcr)) kcr a1 (qp 1) vmin vmax).2
            (rowOut w a (g * (96 + 8*kcr)) kcr a2 (qp 2) vmin vmax).1
            (rowOut w a (g * (96 + 8*kcr)) kcr a2 (qp 2) vmin vmax).2
            (rowOut w a (g * (96 + 8*kcr)) kcr a3 (qp 3) vmin vmax).1
            (rowOut w a (g * (96 + 8*kcr)) kcr a3 (qp 3) vmin vmax).2 := rfl

set_option maxHeartbeats 3200000 in
theorem gemm_fold_cell_mr1 (nc kcr aS cmS : ℕ) (a : ℕ → ℤ) (w : ℕ → WItem)
    (vmin vmax : ℚ) (qp : ℕ → QParams) (c0mem : ℕ → ℚ)
    (hkcr : kcr % 8 = 0) (hcm : nc ≤ cmS)
    (hqp1 : qp 1 = qp 0) (hqp2 : qp 2 = qp 0) (hqp3 : qp 3 = qp 0)
    (A0 A1 A2 A3 C0 C1 C2 C3 : ℕ)
    (hA0 : A0 = 0*aS) (hA1 : A1 = 0*aS) (hA2 : A2 = 0*aS) (hA3 : A3 = 0*aS)
    (hC0 : C0 = 0*cmS) (hC1 : C1 = 0*cmS) (hC2 : C2 = 0*cmS)
    (hC3 : C3 = 0*cmS) :
    ∀ G, G ≤ (nc + 7) / 8 →
      ∀ m g2 j, m < 1 → g2 < G → j < 8 → 8*g2 + j < nc →
        (List.range G).foldl
          (gemmBody nc kcr a w 8 vmin vmax qp A0 A1 A2 A3 C0 C1 C2 C3) c0mem
          (m*cmS + (8*g2 + j))
          = cellValue w a (g2*(96 + 8*kcr)) kcr (m*aS) (qp m) vmin vmax j := by
  subst hA0 hA1 hA2 hA3 hC0 hC1 hC2 hC3
  intro G
  induction G with
  | zero => intro _ m g2 j _ hg2 _ _; omega
  | succ G ih =>
      intro hG m g2 j hm hg2 hj hcol
      rw [XnnRdsum.foldl_range_succ, gemmBody_apply, hqp1, hqp2, hqp3]
      simp only [rowOut_eq, hkcr]
      interval_cases m
      rcases Nat.lt_or_ge g2 G with hlt | hge
      · by_cases h8le : 8 ≤ nc - 8*G
        · rw [if_pos h8le, groupStoreFull_skip]
          · exact ih (by omega) 0 g2 j (by omega) hlt hj hcol
          all_goals omega
        · rw [if_neg h8le, groupStorePartial_skip]
          · exact ih (by omega) 0 g2 j (by omega) hlt hj hcol
          all_goals omega
      · have hgG : g2 = G := by omega
        rw [hgG]
        by_cases h8le : 8 ≤ nc - 8*G
        · rw [if_pos h8le,
            show 0*cmS + (8*G + j) = 0*cmS + G*8 + j from by ring,
            groupStoreFull_read3, lane8_cell]
          all_goals omega
        · rw [if_neg h8le,
            show 0*cmS + (8*G + j) = 0*cmS + G*8 + j from by ring,
            groupStorePartial_top4, lane8_cell]
          all_goals omega

set_option maxHeartbeats 3200000 in
theorem gemm_fold_cell_mr2 (nc kcr aS cmS : ℕ) (a : ℕ → ℤ) (w : ℕ → WItem)
    (vmin vmax : ℚ) (qp : ℕ → QParams) (c0mem : ℕ → ℚ)
    (hkcr : kcr % 8 = 0) (hcm : nc ≤ cmS)
    (hqp2 : qp 2 = qp 1)
    (hqp3 : qp 3 = qp 1)
    (A0 A1 A2 A3 C0 C1 C2 C3 : ℕ)
    (hA0 : A0 = 0*aS) (hA1 : A1 = 1*aS) (hA2 : A2 = 1*aS) (hA3 : A3 = 1*aS)
    (hC0 : C0 = 0*cmS) (hC1 : C1 = 1*cmS)
    (hC2 : C2 = 1*cmS)
    (hC3 : C3 = 1*cmS) :
    ∀ G, G ≤ (nc + 7) / 8 →
      ∀ m g2 j, m < 2 → g2 < G → j < 8 → 8*g2 + j < nc →
        (List.range G).foldl
          (gemmBody nc kcr a w 8 vmin vmax qp A0 A1 A2 A3 C0 C1 C2 C3) c0mem
          (m*cmS + (8*g2 + j))
          = cellValue w a (g2*(96 + 8*kcr)) kcr (m*aS) (qp m) vmin vmax j := by
  subst hA0 hA1 hA2 hA3 hC0 hC1 hC2 hC3
  intro G
  induction G with
  | zero => intro _ m g2 j _ hg2 _ _; omega
  | succ G ih =>
      intro hG m g2 j hm hg2 hj hcol
      rw [XnnRdsum.foldl_range_succ, gemmBody_apply, hqp2, hqp3]
      simp only [rowOut_eq, hkcr]
      interval_cases m
      · rcases Nat.lt_or_ge g2 G with hlt | hge
        · by_cases h8le : 8 ≤ nc - 8*G
          · rw [if_pos h8le, groupStoreFull_skip]
            · exact ih (by omega) 0 g2 j (by omega) hlt hj hcol
            all_goals omega
          · rw [if_neg h8le, groupStorePartial_skip]
            · exact ih (by omega) 0 g2 j (by omega) hlt hj hcol
            all_goals omega
        · have hgG : g2 = G := by omega
          rw [hgG]
          by_cases h8le : 8 ≤ nc - 8*G
          · rw [if_pos h8le,
              show 0*cmS + (8*G + j) = 0*cmS + G*8 + j from by ring,
              groupStoreFull_read0, lane8_cell]
            all_goals omega
          · rw [if_neg h8le,
              show 0*cmS + (8*G + j) = 0*cmS + G*8 + j from by ring,
              groupStorePartial_read0, lane8_cell]
            all_goals omega
      · rcases Nat.lt_or_ge g2 G with hlt | hge
        · by_cases h8le : 8 ≤ nc - 8*G
          · rw [if_pos h8le, groupStoreFull_skip]
            · exact ih (by omega) 1 g2 j (by omega) hlt hj hcol
            all_goals omega
          · rw [if_neg h8le, groupStorePartial_skip]
            · exact ih (by omega) 1 g2 j (by omega) hlt hj hcol
            all_goals omega
        · have hgG : g2 = G := by omega
          rw [hgG]
          by_cases h8le : 8 ≤ nc - 8*G
          · rw [if_pos h8le,
              show 1*cmS + (8*G + j) = 1*cmS + G*8 + j from by ring,
              groupStoreFull_read3, lane8_cell]
            all_goals omega
          · rw [if_neg h8le,
              show 1*cmS + (8*G + j) = 1*cmS + G*8 + j from by ring,
              groupStorePartial_top3, lane8_cell]
            all_goals omega

set_option maxHeartbeats 3200000 in
theorem gemm_fold_cell_mr3 (nc kcr aS cmS : ℕ) (a : ℕ → ℤ) (w : ℕ → WItem)
    (vmin vmax : ℚ) (qp : ℕ → QParams) (c0mem : ℕ → ℚ)
    (hkcr : kcr % 8 = 0) (hcm : nc ≤ cmS)
    (hqp3 : qp 3 = qp 2)
    (A0 A1 A2 A3 C0 C1 C2 C3 : ℕ)
    (hA0 : A0 = 0*aS) (hA1 : A1 = 1*aS) (hA2 : A2 = 2*aS) (hA3 : A3 = 2*aS)
    (hC0 : C0 = 0*cmS) (hC1 : C1 = 1*cmS)
    (hC2 : C2 = 2*cmS)
    (hC3 : C3 = 2*cmS) :
    ∀ G, G ≤ (nc + 7) / 8 →
      ∀ m g2 j, m < 3 → g2 < G → j < 8 → 8*g2 + j < nc →
        (List.range G).foldl
          (gemmBody nc kcr a w 8 vmin vmax qp A0 A1 A2 A3 C0 C1 C2 C3) c0mem
          (m*cmS + (8*g2 + j))
          = cellValue w a (g2*(96 + 8*kcr)) kcr (m*aS) (qp m) vmin vmax j := by
  subst hA0 hA1 hA2 hA3 hC0 hC1 hC2 hC3
  intro G
  induction G with
  | zero => intro _ m g2 j _ hg2 _ _; omega
  | succ G ih =>
      intro hG m g2 j hm hg2 hj hcol
      rw [XnnRdsum.foldl_range_succ, gemmBody_apply, hqp3]
      simp only [rowOut_eq, hkcr]
      interval_cases m
      · rcases Nat.lt_or_ge g2 G with hlt | hge
        · by_cases h8le : 8 ≤ nc - 8*G
          · rw [if_pos h8le, groupStoreFull_skip]
            · exact ih (by omega) 0 g2 j (by omega) hlt hj hcol
            all_goals omega
          · rw [if_neg h8le, groupStorePartial_skip]
            · exact ih (by omega) 0 g2 j (by omega) hlt hj hcol
            all_goals omega
        · have hgG : g2 = G := by omega
          rw [hgG]
          by_cases h8le : 8 ≤ nc - 8*G
          · rw [if_pos h8le,
              show 0*cmS + (8*G + j) = 0*cmS + G*8 + j from by ring,
              groupStoreFull_read0, lane8_cell]
            all_goals omega
          · rw [if_neg h8le,
              show 0*cmS + (8*G + j) = 0*cmS + G*8 + j from by ring,
              groupStorePartial_read0, lane8_cell]
            all_goals omega
      · rcases Nat.lt_or_ge g2 G with hlt | hge
        · by_cases h8le : 8 ≤ nc - 8*G
          · rw [if_pos h8le, groupStoreFull_skip]
            · exact ih (by omega) 1 g2 j (by omega) hlt hj hcol
            all_goals omega
          · rw [if_neg h8le, groupStorePartial_skip]
            · exact ih (by omega) 1 g2 j (by omega) hlt hj hcol
            all_goals omega
        · have hgG : g2 = G := by omega
          rw [hgG]
          by_cases h8le : 8 ≤ nc - 8*G
          · rw [if_pos h8le,
              show 1*cmS + (8*G + j) = 1*cmS + G*8 + j from by ring,
              groupStoreFull_read1, lane8_cell]
            all_goals omega
          · rw [if_neg h8le,
              show 1*cmS + (8*G + j) = 1*cmS + G*8 + j from by ring,
              groupStorePartial_read1, lane8_cell]
            all_goals omega
      · rcases Nat.lt_or_ge g2 G with hlt | hge
        · by_cases h8le : 8 ≤ nc - 8*G
          · rw [if_pos h8le, groupStoreFull_skip]
            · exact ih (by omega) 2 g2 j (by omega) hlt hj hcol
            all_goals omega
          · rw [if_neg h8le, groupStorePartial_skip]
            · exact ih (by omega) 2 g2 j (by omega) hlt hj hcol
            all_goals omega
        · have hgG : g2 = G := by omega
          rw [hgG]
          by_cases h8le : 8 ≤ nc - 8*G
          · rw [if_pos h8le,
              show 2*cmS + (8*G + j) = 2*cmS + G*8 + j from by ring,
              groupStoreFull_read3, lane8_cell]
            all_goals omega
          · rw [if_neg h8le,
              show 2*cmS + (8*G + j) = 2*cmS + G*8 + j from by ring,
              groupStorePartial_top2, lane8_cell]
            all_goals omega

set_option maxHeartbeats 3200000 in
theorem gemm_fold_cell_mr4 (nc kcr aS cmS : ℕ) (a : ℕ → ℤ) (w : ℕ → WItem)
    (vmin vmax : ℚ) (qp : ℕ → QParams) (c0mem : ℕ → ℚ)
    (hkcr : kcr % 8 = 0) (hcm : nc ≤ cmS)
    (A0 A1 A2 A3 C0 C1 C2 C3 : ℕ)
    (hA0 : A0 = 0*aS) (hA1 : A1 = 1*aS) (hA2 : A2 = 2*aS) (hA3 : A3 = 3*aS)
    (hC0 : C0 = 0*cmS) (hC1 : C1 = 1*cmS)
    (hC2 : C2 = 2*cmS)
    (hC3 : C3 = 3*cmS) :
    ∀ G, G ≤ (nc + 7) / 8 →
      ∀ m g2 j, m < 4 → g2 < G → j < 8 → 8*g2 + j < nc →
        (List.range G).foldl
          (gemmBody nc kcr a w 8 vmin vmax qp A0 A1 A2 A3 C0 C1 C2 C3) c0mem
          (m*cmS + (8*g2 + j))
          = cellValue w a (g2*(96 + 8*kcr)) kcr (m*aS) (qp m) vmin vmax j := by
  subst hA0 hA1 hA2 hA3 hC0 hC1 hC2 hC3
  intro G
  induction G with
  | zero => intro _ m g2 j _ hg2 _ _; omega
  | succ G ih =>
      intro hG m g2 j hm hg2 hj hcol
      rw [XnnRdsum.foldl_range_succ, gemmBody_apply]
      simp only [rowOut_eq, hkcr]
      interval_cases m
      · rcases Nat.lt_or_ge g2 G with hlt | hge
        · by_cases h8le : 8 ≤ nc - 8*G
          · rw [if_pos h8le, groupStoreFull_skip]
            · exact ih (by omega) 0 g2 j (by omega) hlt hj hcol
            all_goals omega
          · rw [if_neg h8le, groupStorePartial_skip]
            · exact ih (by omega) 0 g2 j (by omega) hlt hj hcol
            all_goals omega
        · have hgG : g2 = G := by omega
          rw [hgG]
          by_cases h8le : 8 ≤ nc - 8*G
          · rw [if_pos h8le,
              show 0*cmS + (8*G + j) = 0*cmS + G*8 + j from by ring,
              groupStoreFull_read0, lane8_cell]
            all_goals omega
          · rw [if_neg h8le,
              show 0*cmS + (8*G + j) = 0*cmS + G*8 + j from by ring,
              groupStorePartial_read0, lane8_cell]
            all_goals omega
      · rcases Nat.lt_or_ge g2 G with hlt | hge
        · by_cases h8le : 8 ≤ nc - 8*G
          · rw [if_pos h8le, groupStoreFull_skip]
            · exact ih (by omega) 1 g2 j (by omega) hlt hj hcol
            all_goals omega
          · rw [if_neg h8le, groupStorePartial_skip]
            · exact ih (by omega) 1 g2 j (by omega) hlt hj hcol
            all_goals omega
        · have hgG : g2 = G := by omega
          rw [hgG]
          by_cases h8le : 8 ≤ nc - 8*G
          · rw [if_pos h8le,
              show 1*cmS + (8*G + j) = 1*cmS + G*8 + j from by ring,
              groupStoreFull_read1, lane8_cell]
            all_goals omega
          · rw [if_neg h8le,
              show 1*cmS + (8*G + j) = 1*cmS + G*8 + j from by ring,
              groupStorePartial_read1, lane8_cell]
            all_goals omega
      · rcases Nat.lt_or_ge g2 G with hlt | hge
        · by_cases h8le : 8 ≤ nc - 8*G
          · rw [if_pos h8le, groupStoreFull_skip]
            · exact ih (by omega) 2 g2 j (by omega) hlt hj hcol
            all_goals omega
          · rw [if_neg h8le, groupStorePartial_skip]
            · exact ih (by omega) 2 g2 j (by omega) hlt hj hcol
            all_goals omega
        · have hgG : g2 = G := by omega
          rw [hgG]
          by_cases h8le : 8 ≤ nc - 8*G
          · rw [if_pos h8le,
              show 2*cmS + (8*G + j) = 2*cmS + G*8 + j from by ring,
              groupStoreFull_read2, lane8_cell]
            all_goals omega
          · rw [if_neg h8le,
              show 2*cmS + (8*G + j) = 2*cmS + G*8 + j from by ring,
              groupStorePartial_read2, lane8_cell]
            all_goals omega
      · rcases Nat.lt_or_ge g2 G with hlt | hge
        · by_cases h8le : 8 ≤ nc - 8*G
          · rw [if_pos h8le, groupStoreFull_skip]
            · exact ih (by omega) 3 g2 j (by omega) hlt hj hcol
            all_goals omega
          · rw [if_neg h8le, groupStorePartial_skip]
            · exact ih (by omega) 3 g2 j (by omega) hlt hj hcol
            all_goals omega
        · have hgG : g2 = G := by omega
          rw [hgG]
          by_cases h8le : 8 ≤ nc - 8*G
          · rw [if_pos h8le,
              show 3*cmS + (8*G + j) = 3*cmS + G*8 + j from by ring,
              groupStoreFull_read3, lane8_cell]
            all_goals omega
          · rw [if_neg h8le,
              show 3*cmS + (8*G + j) = 3*cmS + G*8 + j from by ring,
              groupStorePartial_read3, lane8_cell]
            all_goals omega

theorem cellValue_semantics (w : ℕ → WItem) (a : ℕ → ℤ) (kcr nG : ℕ)
    (ksum : ℕ → ℕ → ℤ) (wb : ℕ → ℕ → ℕ → ℤ) (fscale fbias : ℕ → ℕ → ℚ)
    (hwf : WellFormedBlob w kcr nG ksum wb fscale fbias)
    (g : ℕ) (hg : g < nG) (aoff : ℕ) (qp : QParams) (vmin vmax : ℚ)
    (j : ℕ) (hj : j < 8) :
    cellValue w a (g*(96 + 8*kcr)) kcr aoff qp vmin vmax j
      = min vmax (max vmin
          ((((ksum g j * qp.zero_point
              + ∑ k ∈ Finset.range kcr, wb g j k * a (aoff + k) : ℤ) : ℚ)
            * qp.inv_scale) * fscale g j + fbias g j)) := by
  obtain ⟨hks, hwb, hsb⟩ := hwf g hg
  have h1 : readI32 w (g*(96 + 8*kcr) + 4*j) = ksum g j := by
    simp only [readI32, hks j hj]
  have h5 : ∑ k ∈ Finset.range kcr,
        colB w (g*(96 + 8*kcr) + 32) j k * rowA a aoff k
      = ∑ k ∈ Finset.range kcr, wb g j k * a (aoff + k) :=
    Finset.sum_congr rfl (fun k hk => by
      simp only [colB, rowA, readI8, hwb j hj k (Finset.mem_range.mp hk)])
  have h3 : readF32 w (g*(96 + 8*kcr) + 32 + 8*kcr + 4*j) = fscale g j := by
    simp only [readF32, (hsb j hj).1]
  have h4 : readF32 w (g*(96 + 8*kcr) + 32 + 8*kcr + 32 + 4*j) = fbias g j := by
    simp only [readF32, (hsb j hj).2]
  simp only [cellValue, colAcc]
  rw [h1, h5, h3, h4]

set_option maxHeartbeats 3200000 in
/-- C1: for every mr in 1..4, nc >= 1 and kc >= 1, the GEMM kernel stores at
    every valid output cell (row m < mr, column n < nc) exactly
    clamp((ksum[n] * zero_point[m] + sum_k wb[n,k] * a[m,k]) * inv_scale[m]
          * fscale[n] + fbias[n], vmin, vmax),
    with the zero-point correction seeding the accumulator, exact integer
    accumulation over the K range, scales applied before the bias, the
    clamp last, excess row pointers aliased to the last valid row (the
    caller pads the per-row quantization parameters accordingly), and
    nc % 8 trailing columns written through the 4/2/1-wide store cascade. -/
theorem gemm_computes (mr nc kc aS cmS : ℕ) (a : ℕ → ℤ) (w : ℕ → WItem)
    (c0mem : ℕ → ℚ) (vmin vmax : ℚ) (qp : ℕ → QParams)
    (ksum : ℕ → ℕ → ℤ) (wb : ℕ → ℕ → ℕ → ℤ) (fscale fbias : ℕ → ℕ → ℚ)
    (hmr1 : 1 ≤ mr) (hmr4 : mr ≤ 4) (hnc : 1 ≤ nc) (hkc : 1 ≤ kc)
    (hcm : nc ≤ cmS)
    (hwf : WellFormedBlob w (roundUp8 kc) ((nc + 7) / 8) ksum wb fscale fbias)
    (hpad : ∀ g n k, kc ≤ k → wb g n k = 0)
    (hqp : ∀ i, i < 4 → mr ≤ i → qp i = qp (mr - 1))
    (m n : ℕ) (hm : m < mr) (hn : n < nc) :
    xnn_qd8_f32_qc8w_gemm_minmax_ukernel_4x8c8__wasmsdot_u2 mr nc kc a aS w
        c0mem cmS 8 vmin vmax qp (m*cmS + n)
      = min vmax (max vmin
          ((((ksum (n / 8) (n % 8) * (qp m).zero_point
              + ∑ k ∈ Finset.range kc, wb (n / 8) (n % 8) k * a (m*aS + k)
                : ℤ) : ℚ)
            * (qp m).inv_scale) * fscale (n / 8) (n % 8)
            + fbias (n / 8) (n % 8))) := by
  obtain ⟨g2, j, hj8, rfl⟩ : ∃ g2 j, j < 8 ∧ n = 8*g2 + j :=
    ⟨n / 8, n % 8, by omega, by omega⟩
  have e1 : (8*g2 + j) / 8 = g2 := by omega
  have e2 : (8*g2 + j) % 8 = j := by omega
  rw [e1, e2]
  have hkcr8 : roundUp8 kc % 8 = 0 := by simp only [roundUp8]; omega
  have hG2 : g2 < (nc + 7) / 8 := by omega
  have hkle : kc ≤ roundUp8 kc := by simp only [roundUp8]; omega
  have hsum : ∑ k ∈ Finset.range (roundUp8 kc), wb g2 j k * a (m*aS + k)
      = ∑ k ∈ Finset.range kc, wb g2 j k * a (m*aS + k) := by
    refine (Finset.sum_subset (Finset.range_subset.mpr hkle) ?_).symm
    intro k _ hk
    rw [hpad g2 j k (by rw [Finset.mem_range] at hk; omega), zero_mul]
  simp only [xnn_qd8_f32_qc8w_gemm_minmax_ukernel_4x8c8__wasmsdot_u2]
  interval_cases mr
  · rw [gemm_fold_cell_mr1 nc (roundUp8 kc) aS cmS a w vmin vmax qp c0mem
        hkcr8 hcm
        (hqp 1 (by omega) (by omega)) (hqp 2 (by omega) (by omega))
        (hqp 3 (by omega) (by omega)),
      cellValue_semantics w a (roundUp8 kc) ((nc + 7) / 8) ksum wb fscale
        fbias hwf, hsum]
    all_goals first | omega | (split_ifs <;> omega)
  · rw [gemm_fold_cell_mr2 nc (roundUp8 kc) aS cmS a w vmin vmax qp c0mem
        hkcr8 hcm
        (hqp 2 (by omega) (by omega)) (hqp 3 (by omega) (by omega)),
      cellValue_semantics w a (roundUp8 kc) ((nc + 7) / 8) ksum wb fscale
        fbias hwf, hsum]
    all_goals first | omega | (split_ifs <;> omega)
  · rw [gemm_fold_cell_mr3 nc (roundUp8 kc) aS cmS a w vmin vmax qp c0mem
        hkcr8 hcm
        (hqp 3 (by omega) (by omega)),
      cellValue_semantics w a (roundUp8 kc) ((nc + 7) / 8) ksum wb fscale
        fbias hwf, hsum]
    all_goals first | omega | (split_ifs <;> omega)
  · rw [gemm_fold_cell_mr4 nc (roundUp8 kc) aS cmS a w vmin vmax qp c0mem
        hkcr8 hcm,
      cellValue_semantics w a (roundUp8 kc) ((nc + 7) / 8) ksum wb fscale
        fbias hwf, hsum]
    all_goals first | omega | (split_ifs <;> omega)

/-- Witnessing instance of the C1 theorem at mr = 1, nc = 1, kc = 1 on an
    all-zero one-group blob. -/
theorem gemm_computes_witness :
    xnn_qd8_f32_qc8w_gemm_minmax_ukernel_4x8c8__wasmsdot_u2 1 1 1
        (fun _ => 1) 8 wWitness (fun _ => 0) 1 8 0 1 qpWitness (0*1 + 0)
      = min 1 (max 0
          ((((0 * 0 + ∑ k ∈ Finset.range 1, 0 * 1 : ℤ) : ℚ) * 1) * 0 + 0)) :=
  gemm_computes 1 1 1 8 1 (fun _ => 1) wWitness (fun _ => 0) 0 1 qpWitness
    (fun _ _ => 0) (fun _ _ _ => 0) (fun _ _ => 0) (fun _ _ => 0)
    (by decide) (by decide) (by decide) (by decide) (by decide)
    (by simp only [WellFormedBlob]; decide)
    (fun _ _ _ _ => rfl) (fun _ _ _ => rfl) 0 0 (by decide) (by decide)

-- GEMM_MORE

end XnnGemm

